import Mathlib

/-!
# MultiShootGame: character action gating, weapon toggling and null guards

A shallow embedding of `Source/MultiShootGame/Character/MultiShootGameCharacter.cpp`
and `Source/MultiShootGame/Character/MultiShootGameEnemyCharacter.cpp`.

Modelling conventions

* A character is a flat record of the member variables the `.cpp` reads and
  writes.  Each member function is a function from a record to a result.
* A pointer to an actor created with `SpawnActor` is an `Option`; `none` is the
  null pointer.  A member call or member read through a null pointer stops the
  function with `Fault.nullDeref`.
* Objects owned by the engine (components made with `CreateDefaultSubobject`,
  the player controller and its camera manager, the world, widgets) are taken
  to exist; calls on them are recorded.
* Every call that leaves the character (on a weapon, the first-person camera,
  a grenade, an engine object, or a `_Server` / `_Multicast` RPC) is appended
  to the ghost field `calls`, in program order.  What the callee does with its
  own members is outside this file.
* A `_Server` RPC is recorded and then runs its `_Implementation` at once.
  A `_Multicast` RPC is only recorded.
* `float` values that the code merely copies or compares with a literal are
  carried as exact numbers.
* `int` members are integers; the `int` subtraction `GrenadeCount - 1` wraps
  at 32 bits.
* The engine functions `FMath::Clamp` and `UKismetMathLibrary::RandomInteger`
  and the container `TArray` are modelled by what the engine documents for
  them; the random stream is an explicit argument.
-/

namespace MultiShootGame

/-! ## Data model -/

/-- Weapon slot selector, `Enum/EWeaponMode.h`; the three enumerators every
`switch` of the source handles. -/
inductive EWeaponMode where
  | MainWeapon
  | SecondWeapon
  | ThirdWeapon
  deriving DecidableEq, Repr

/-- Three floats that the code only assigns (`FVector`, and `FRotator` below). -/
structure FVector where
  X : Int
  Y : Int
  Z : Int
  deriving DecidableEq, Repr

/-- The vector `FVector::ZeroVector`. -/
def FVector.ZeroVector : FVector := ⟨0, 0, 0⟩

/-- Rotation triple, only ever passed on. -/
structure FRotator where
  Pitch : Int
  Yaw : Int
  Roll : Int
  deriving DecidableEq, Repr

/-- The members of `Struct/WeaponInfo.h` that the character code touches.
Asset and class references are opaque identifiers; a null asset is `none`. -/
structure FWeaponInfo where
  ProjectileClass : Nat
  BaseDamage : Int
  FireSoundCue : Option Nat
  MuzzleEffect : Option Nat
  WeaponMesh : Nat
  BulletNumber : Int
  MaxBulletNumber : Int
  FillUpBulletNumber : Int
  deriving DecidableEq, Repr

/-- The public data members of `AMultiShootGameWeapon` (`MultiShootGameWeapon.h`). -/
structure AMultiShootGameWeapon where
  WeaponInfo : FWeaponInfo
  bInitializeReady : Bool
  deriving DecidableEq, Repr

/-- The first-person camera actor; only `bInitializeReady` is read directly. -/
structure AMultiShootGameFPSCamera where
  bInitializeReady : Bool
  deriving DecidableEq, Repr

/-- A spawned grenade; `BaseDamage` is assigned after spawning. -/
structure AMultiShootGameGrenade where
  BaseDamage : Int
  deriving DecidableEq, Repr

/-- The health component; only its death flag is used here. -/
structure UHealthComponent where
  bDied : Bool
  deriving DecidableEq, Repr

/-- An actor transform, only ever read from one actor and passed to a spawn. -/
structure FTransform where
  Translation : FVector
  Rotation : FRotator
  deriving DecidableEq, Repr

/-- An actor found by `GetAllActorsOfClass`; only its transform is read. -/
structure AActor where
  ActorTransform : FTransform
  deriving DecidableEq, Repr

/-- The engine container `TArray`: the elements in use, in order, and the
number of element slots currently allocated (`ArrayMax`). -/
structure TArray (α : Type) where
  Elements : List α
  ArrayMax : Nat
  deriving DecidableEq, Repr

/-- The engine keeps the allocation at least as large as the element count. -/
def TArray.Valid {α : Type} (a : TArray α) : Prop :=
  a.Elements.length ≤ a.ArrayMax

instance {α : Type} (a : TArray α) : Decidable a.Valid :=
  inferInstanceAs (Decidable (a.Elements.length ≤ a.ArrayMax))

/-- `TArray::Num()`: the number of elements in the array. -/
def TArray.Num {α : Type} (a : TArray α) : Int :=
  a.Elements.length

/-- `TArray::Max()`: the number of elements the current allocation can hold. -/
def TArray.Max {α : Type} (a : TArray α) : Int :=
  a.ArrayMax

/-- `TArray::IsValidIndex`, the range test behind `operator[]`. -/
def TArray.IsValidIndex {α : Type} (a : TArray α) (Index : Int) : Bool :=
  decide (0 ≤ Index ∧ Index < a.Num)

/-- `TArray::operator[]`: the element at a valid index, `none` outside the range. -/
def TArray.elementAt {α : Type} (a : TArray α) (Index : Int) : Option α :=
  if a.IsValidIndex Index then a.Elements[Index.toNat]? else none

/-- The engine function `UKismetMathLibrary::RandomInteger(Max)`, which is not
part of this repository: a value from `0` to `Max - 1` taken from the global
random stream, and `0` when `Max` is not positive.  The stream is the extra
argument `Draw`; every value of the range is the result of some draw. -/
def UKismetMathLibrary.RandomInteger (Max : Int) (Draw : Nat) : Int :=
  if 0 < Max then (Draw : Int) % Max else 0

/-- The engine function `FMath::Clamp(X, Min, Max)`, which is not part of this
repository, in its `X < Min ? Min : X < Max ? X : Max` form. -/
def FMath.Clamp (X Min Max : Int) : Int :=
  if X < Min then Min else if X < Max then X else Max

/-- The value of an `int` expression whose exact value is `x`: 32-bit
two's-complement wrap-around. -/
def wrapInt32 (x : Int) : Int :=
  (x + 2147483648) % 4294967296 - 2147483648

/-- What `GetWorld()->SpawnActor` hands back on the next request, per class;
`none` is a failed spawn (null).  `PlayerStarts` is what
`GetAllActorsOfClass(GetWorld(), PlayerStartClass, _)` leaves in its output
array. -/
structure UWorld where
  SpawnGrenade : Option AMultiShootGameGrenade
  /-- Whether the projectile spawn returns a non-null actor. -/
  SpawnProjectile : Bool
  SpawnMainWeapon : Option AMultiShootGameWeapon := none
  SpawnSecondWeapon : Option AMultiShootGameWeapon := none
  SpawnThirdWeapon : Option AMultiShootGameWeapon := none
  SpawnFPSCamera : Option AMultiShootGameFPSCamera := none
  PlayerStarts : TArray AActor := ⟨[], 0⟩
  deriving DecidableEq, Repr

/-- The animation montage members passed to `PlayAnimMontage_Server`. -/
inductive UAnimMontage where
  | ReloadAnimMontage
  | SecondWeaponReloadAnimMontage
  | ThirdWeaponReloadAnimMontage
  | ThrowGrenadeAnimMontage
  | WeaponOutAnimMontage
  | KnifeAttackAnimMontage
  deriving DecidableEq, Repr

/-- The three weapon scene components of the character. -/
inductive USceneComponent where
  | MainWeaponSceneComponent
  | SecondWeaponSceneComponent
  | ThirdWeaponSceneComponent
  deriving DecidableEq, Repr

/-- The socket-name members used when attaching the weapon scene components. -/
inductive SocketName where
  | MainWeaponSocketName
  | SecondWeaponSocketName
  | ThirdWeaponSocketName
  | BackMainWeaponSocketName
  | BackSecondWeaponSocketName
  | BackThirdWeaponSocketName
  deriving DecidableEq, Repr

/-- Member functions of `AMultiShootGameWeapon` called by the character. -/
inductive WeaponCall where
  | StartFire
  | Fire
  | FireOfDelay
  | StopFire
  | BulletReload
  | FillUpBullet
  | SetActorHiddenInGame (bNewHidden : Bool)
  | Destroy
  | ReloadShowMagazineClip (Enabled : Bool)
  | AttachToComponent (Component : USceneComponent)
  deriving DecidableEq, Repr

/-- Member functions of `AMultiShootGameFPSCamera` called by the character. -/
inductive CameraCall where
  | InspectBegin
  | InspectEnd
  | StartFire
  | Fire
  | FireOfDelay
  | StopFire
  | BeginAim (Mode : EWeaponMode)
  | EndAim
  | SetWeaponInfo (Info : FWeaponInfo)
  | FillUpBullet
  | SetActorHiddenInGame (bNewHidden : Bool)
  | Destroy
  | AttachToFPSCameraSceneComponent
  deriving DecidableEq, Repr

/-- Member functions of the spawned grenade called by the character. -/
inductive GrenadeCall where
  | AttachToGrenadeSceneComponent
  | Destroy
  | DetachFromActor
  | ThrowGrenade_Server (Direction : FRotator) (MultiThrow : Bool)
  deriving DecidableEq, Repr

/-- Member functions of a freshly spawned projectile. -/
inductive ProjectileCall where
  | ProjectileInitialize (BaseDamage : Int)
  deriving DecidableEq, Repr

/-- The RPCs of `AMultiShootGamePlayerState` requested by the character. -/
inductive PlayerStateCall where
  | AddScore_Server (Score : Int)
  | AddKill_Server
  | AddDeath_Server
  deriving DecidableEq, Repr

/-- Member functions of another player character called on the damage causer. -/
inductive CauserCall where
  | OnEnemyKilled
  | OnHeadshot
  deriving DecidableEq, Repr

/-- The `_Server` RPCs of the character, with their arguments.  The play rate
and start section of `PlayAnimMontage_Server` are `none` when the call site
leaves them to the default declared in the header. -/
inductive ServerRpc where
  | SetAimed (Value : Bool)
  | SetFastRun (Value : Bool)
  | SetToggleView (Value : Bool)
  | SetWeaponMode (Value : EWeaponMode)
  | SetBeginThrowGrenade (Value : Bool)
  | SetThrowingGrenade (Value : Bool)
  | SetSpawnGrenade (Value : Bool)
  | SetKnifeAttack (Value : Bool)
  | SetGrenadeCount (Value : Int)
  | SetWalkSpeed (Value : Int)
  | PutBackWeapon
  | SpawnGrenade
  | PlayAnimMontage (Montage : UAnimMontage) (InPlayRate : Option Nat) (StartSectionName : Option String)
  | AttachWeapon
  | Death
  | ThrowGrenadeOut (Direction : FRotator) (MultiThrow : Bool)
  deriving DecidableEq, Repr

/-- The `_Multicast` RPCs issued by the functions modelled here. -/
inductive MulticastRpc where
  | Fire (Info : FWeaponInfo) (MuzzleSocketName : String)
  | PlayAnimMontage (Montage : UAnimMontage) (InPlayRate : Option Nat) (StartSectionName : Option String)
  | Death
  deriving DecidableEq, Repr

/-- The widget classes instantiated by `BeginPlay`. -/
inductive UserWidgetClass where
  | GameUserWidgetClass
  | ServerGameUserWidgetClass
  | MobileJoystickUserWidgetClass
  deriving DecidableEq, Repr

/-- The widget members shown by `BeginPlay`. -/
inductive UserWidget where
  | CurrentGameUserWidget
  | CurrentMobileJoystickUserWidget
  deriving DecidableEq, Repr

/-- Calls on engine-owned objects. -/
inductive EngineCall where
  | SetViewTargetWithBlend (toFPSCamera : Bool)
  | MeshSetHiddenInGame (bNewHidden : Bool)
  | Delay
  | AttachToComponent (Component : USceneComponent) (Socket : SocketName) (bIncludingScale : Bool)
  | SpawnGrenadeActor
  | SpawnProjectileActor (ProjectileClass : Nat) (Location : FVector) (Rotation : FRotator)
  | WidgetRemoveFromParent
  | SuperDestroyed
  | ClientStartCameraShake
  | KnifeSetVisibility (bNewVisibility : Bool)
  | MoveComponentTo (Component : USceneComponent)
  | SuperBeginPlay
  | CreateWidget (WidgetClass : UserWidgetClass)
  | WidgetAddToViewport (Widget : UserWidget)
  | SetViewPitchMax (Value : Rat)
  | SetViewPitchMin (Value : Rat)
  | SpawnWeaponActor (Slot : EWeaponMode)
  | SpawnFPSCameraActor
  | SpawnCharacterActor (Transform : FTransform)
  | ControllerPossess
  | Destroy
  deriving DecidableEq, Repr

/-- One outgoing call. -/
inductive Call where
  | weapon (Slot : EWeaponMode) (c : WeaponCall)
  | fpsCamera (c : CameraCall)
  | grenade (c : GrenadeCall)
  | projectile (c : ProjectileCall)
  | playerState (c : PlayerStateCall)
  | damageCauser (c : CauserCall)
  | server (c : ServerRpc)
  | multicast (c : MulticastRpc)
  | engine (c : EngineCall)
  deriving DecidableEq, Repr

/-- The pointers that may be null: the spawned-actor members of the player
character, the enemy's `CurrentWeapon`, and the input component argument. -/
inductive Pointer where
  | CurrentMainWeapon
  | CurrentSecondWeapon
  | CurrentThirdWeapon
  | CurrentFPSCamera
  | CurrentGrenade
  | CurrentWeapon
  | PlayerInputComponent
  deriving DecidableEq, Repr

/-- Ways a member function can stop abnormally. -/
inductive Fault where
  | nullDeref (p : Pointer)
  | checkFailed (p : Pointer)
  /-- An `operator[]` outside the elements of a `TArray`. -/
  | indexOutOfBounds (Index : Int) (Num : Int)
  deriving DecidableEq, Repr

/-- The member variables of `AMultiShootGameCharacter` used by the `.cpp`,
the engine facts it queries, and the ghost log `calls`. -/
structure AMultiShootGameCharacter where
  WeaponMode : EWeaponMode
  bFastRun : Bool
  bAimed : Bool
  bFired : Bool
  bToggleView : Bool
  bReloading : Bool
  bSecondWeaponReloading : Bool
  bToggleWeapon : Bool
  bBeginThrowGrenade : Bool
  bThrowingGrenade : Bool
  bSpawnGrenade : Bool
  bKnifeAttack : Bool
  bDetectingClimb : Bool
  bShowSight : Bool
  CurrentShowSight : Rat
  ShowSightDelay : Rat
  GrenadeCount : Int
  MaxGrenadeCount : Int
  GrenadeDamage : Int
  HealthComponent : UHealthComponent
  CurrentMainWeapon : Option AMultiShootGameWeapon
  CurrentSecondWeapon : Option AMultiShootGameWeapon
  CurrentThirdWeapon : Option AMultiShootGameWeapon
  CurrentFPSCamera : Option AMultiShootGameFPSCamera
  CurrentGrenade : Option AMultiShootGameGrenade
  /-- The value of `SpringArmComponent->SocketOffset`. -/
  SocketOffset : FVector
  /-- The value of `GetCharacterMovement()->MaxWalkSpeed`. -/
  MaxWalkSpeed : Int
  /-- The value of `IsLocallyControlled()`. -/
  bLocallyControlled : Bool
  /-- The value of `Cast<AMultiShootGamePlayerState>(GetPlayerState()) != nullptr`. -/
  bHasPlayerState : Bool
  World : UWorld
  calls : List Call
  bShowMobileJoystick : Bool := false
  CameraPitchClamp : Rat := 0
  /-- The value of `Cast<AMultiShootGameGameMode>(CurrentGameMode) != nullptr`. -/
  bMultiShootGameGameMode : Bool := true
  deriving DecidableEq, Repr

/-- Result of a member function of the player character. -/
abbrev Exec := Except Fault AMultiShootGameCharacter

namespace AMultiShootGameCharacter

/-- Record one outgoing call. -/
def emit (c : Call) (s : AMultiShootGameCharacter) : AMultiShootGameCharacter :=
  { s with calls := s.calls ++ [c] }

/-- The weapon pointer member of a slot. -/
def weaponPtr : EWeaponMode → Pointer
  | .MainWeapon => .CurrentMainWeapon
  | .SecondWeapon => .CurrentSecondWeapon
  | .ThirdWeapon => .CurrentThirdWeapon

/-- The weapon pointed to by the pointer member of a slot. -/
def weaponAt (s : AMultiShootGameCharacter) : EWeaponMode → Option AMultiShootGameWeapon
  | .MainWeapon => s.CurrentMainWeapon
  | .SecondWeapon => s.CurrentSecondWeapon
  | .ThirdWeapon => s.CurrentThirdWeapon

/-- The statement `Current<Slot>Weapon->c(...)`, with no null check. -/
def callWeapon (Slot : EWeaponMode) (c : WeaponCall) (s : AMultiShootGameCharacter) : Exec :=
  match s.weaponAt Slot with
  | none => .error (.nullDeref (weaponPtr Slot))
  | some _ => .ok (s.emit (.weapon Slot c))

/-- The expression `Current<Slot>Weapon->WeaponInfo`, with no null check. -/
def readWeaponInfo (Slot : EWeaponMode) (s : AMultiShootGameCharacter) : Except Fault FWeaponInfo :=
  match s.weaponAt Slot with
  | none => .error (.nullDeref (weaponPtr Slot))
  | some w => .ok w.WeaponInfo

/-- The statement `CurrentFPSCamera->c(...)`, with no null check. -/
def callCamera (c : CameraCall) (s : AMultiShootGameCharacter) : Exec :=
  match s.CurrentFPSCamera with
  | none => .error (.nullDeref .CurrentFPSCamera)
  | some _ => .ok (s.emit (.fpsCamera c))

/-- The statement `CurrentGrenade->c(...)`, with no null check. -/
def callGrenade (c : GrenadeCall) (s : AMultiShootGameCharacter) : Exec :=
  match s.CurrentGrenade with
  | none => .error (.nullDeref .CurrentGrenade)
  | some _ => .ok (s.emit (.grenade c))

/-! ## Replicated setters (lines 1047-1055, 1079-1082, 1137-1170) -/

def SetAimed_Server_Implementation (Value : Bool) (s : AMultiShootGameCharacter) :
    AMultiShootGameCharacter :=
  { s with bAimed := Value }

def SetFastRun_Server_Implementation (Value : Bool) (s : AMultiShootGameCharacter) :
    AMultiShootGameCharacter :=
  { s with bFastRun := Value }

def SetToggleView_Server_Implementation (Value : Bool) (s : AMultiShootGameCharacter) :
    AMultiShootGameCharacter :=
  { s with bToggleView := Value }

def SetWalkSpeed_Server_Implementation (Value : Int) (s : AMultiShootGameCharacter) :
    AMultiShootGameCharacter :=
  { s with MaxWalkSpeed := Value }

def SetWeaponMode_Server_Implementation (Value : EWeaponMode) (s : AMultiShootGameCharacter) :
    AMultiShootGameCharacter :=
  { s with WeaponMode := Value }

def SetBeginThrowGrenade_Server_Implementation (Value : Bool) (s : AMultiShootGameCharacter) :
    AMultiShootGameCharacter :=
  { s with bBeginThrowGrenade := Value }

def SetThrowingGrenade_Server_Implementation (Value : Bool) (s : AMultiShootGameCharacter) :
    AMultiShootGameCharacter :=
  { s with bThrowingGrenade := Value }

def SetSpawnGrenade_Server_Implementation (Value : Bool) (s : AMultiShootGameCharacter) :
    AMultiShootGameCharacter :=
  { s with bSpawnGrenade := Value }

def SetKnifeAttack_Server_Implementation (Value : Bool) (s : AMultiShootGameCharacter) :
    AMultiShootGameCharacter :=
  { s with bKnifeAttack := Value }

def SetGrenadeCount_Server_Implementation (Value : Int) (s : AMultiShootGameCharacter) :
    AMultiShootGameCharacter :=
  { s with GrenadeCount := Value }

/-! The `_Server` entry points: the RPC is recorded, then its implementation runs. -/

def SetAimed_Server (Value : Bool) (s : AMultiShootGameCharacter) : AMultiShootGameCharacter :=
  SetAimed_Server_Implementation Value (s.emit (.server (.SetAimed Value)))

def SetFastRun_Server (Value : Bool) (s : AMultiShootGameCharacter) : AMultiShootGameCharacter :=
  SetFastRun_Server_Implementation Value (s.emit (.server (.SetFastRun Value)))

def SetToggleView_Server (Value : Bool) (s : AMultiShootGameCharacter) : AMultiShootGameCharacter :=
  SetToggleView_Server_Implementation Value (s.emit (.server (.SetToggleView Value)))

def SetWalkSpeed_Server (Value : Int) (s : AMultiShootGameCharacter) : AMultiShootGameCharacter :=
  SetWalkSpeed_Server_Implementation Value (s.emit (.server (.SetWalkSpeed Value)))

def SetWeaponMode_Server (Value : EWeaponMode) (s : AMultiShootGameCharacter) :
    AMultiShootGameCharacter :=
  SetWeaponMode_Server_Implementation Value (s.emit (.server (.SetWeaponMode Value)))

def SetBeginThrowGrenade_Server (Value : Bool) (s : AMultiShootGameCharacter) :
    AMultiShootGameCharacter :=
  SetBeginThrowGrenade_Server_Implementation Value (s.emit (.server (.SetBeginThrowGrenade Value)))

def SetThrowingGrenade_Server (Value : Bool) (s : AMultiShootGameCharacter) :
    AMultiShootGameCharacter :=
  SetThrowingGrenade_Server_Implementation Value (s.emit (.server (.SetThrowingGrenade Value)))

def SetSpawnGrenade_Server (Value : Bool) (s : AMultiShootGameCharacter) :
    AMultiShootGameCharacter :=
  SetSpawnGrenade_Server_Implementation Value (s.emit (.server (.SetSpawnGrenade Value)))

def SetKnifeAttack_Server (Value : Bool) (s : AMultiShootGameCharacter) :
    AMultiShootGameCharacter :=
  SetKnifeAttack_Server_Implementation Value (s.emit (.server (.SetKnifeAttack Value)))

def SetGrenadeCount_Server (Value : Int) (s : AMultiShootGameCharacter) :
    AMultiShootGameCharacter :=
  SetGrenadeCount_Server_Implementation Value (s.emit (.server (.SetGrenadeCount Value)))

/-! ## Status check and RPC helpers -/

/-- Lines 979-998. -/
def CheckStatus (CheckAimed CheckThrowGrenade : Bool) (s : AMultiShootGameCharacter) : Bool :=
  if s.HealthComponent.bDied || s.bDetectingClimb || s.bReloading || s.bToggleWeapon ||
      s.bSecondWeaponReloading || s.bThrowingGrenade || s.bKnifeAttack then
    false
  else if CheckAimed && s.bAimed then
    false
  else if CheckThrowGrenade && s.bBeginThrowGrenade then
    false
  else
    true

/-- Lines 1237-1241, reached through the multicast RPC: recorded only. -/
def PlayAnimMontage_Multicast (AnimMontage : UAnimMontage) (InPlayRate : Option Nat)
    (StartSectionName : Option String) (s : AMultiShootGameCharacter) : AMultiShootGameCharacter :=
  s.emit (.multicast (.PlayAnimMontage AnimMontage InPlayRate StartSectionName))

/-- Lines 1231-1235. -/
def PlayAnimMontage_Server_Implementation (AnimMontage : UAnimMontage) (InPlayRate : Option Nat)
    (StartSectionName : Option String) (s : AMultiShootGameCharacter) : AMultiShootGameCharacter :=
  PlayAnimMontage_Multicast AnimMontage InPlayRate StartSectionName s

def PlayAnimMontage_Server (AnimMontage : UAnimMontage) (InPlayRate : Option Nat)
    (StartSectionName : Option String) (s : AMultiShootGameCharacter) : AMultiShootGameCharacter :=
  PlayAnimMontage_Server_Implementation AnimMontage InPlayRate StartSectionName
    (s.emit (.server (.PlayAnimMontage AnimMontage InPlayRate StartSectionName)))

/-- Lines 1221-1229. -/
def PutBackWeapon_Server_Implementation (s : AMultiShootGameCharacter) : AMultiShootGameCharacter :=
  let s := s.emit (.engine (.AttachToComponent .MainWeaponSceneComponent .BackMainWeaponSocketName true))
  let s := s.emit (.engine (.AttachToComponent .SecondWeaponSceneComponent .BackSecondWeaponSocketName true))
  s.emit (.engine (.AttachToComponent .ThirdWeaponSceneComponent .BackThirdWeaponSocketName false))

def PutBackWeapon_Server (s : AMultiShootGameCharacter) : AMultiShootGameCharacter :=
  PutBackWeapon_Server_Implementation (s.emit (.server .PutBackWeapon))

/-- Lines 1020-1045. -/
def HandleWalkSpeed (FastRun : Bool) (s : AMultiShootGameCharacter) : AMultiShootGameCharacter :=
  let Speed : Int :=
    if FastRun then
      if s.WeaponMode ≠ .SecondWeapon then 600 else 500
    else
      if s.WeaponMode = .SecondWeapon then 250 else 300
  let s := SetFastRun_Server FastRun s
  let s := { s with MaxWalkSpeed := Speed }
  SetWalkSpeed_Server Speed s

/-! ## Firing and aiming -/

/-- Lines 238-254. -/
def StopFire (s : AMultiShootGameCharacter) : Exec :=
  let s := { s with bFired := false }
  if s.WeaponMode = .MainWeapon then do
    let s ← if s.CurrentMainWeapon.isSome then callWeapon .MainWeapon .StopFire s else pure s
    if s.CurrentFPSCamera.isSome then callCamera .StopFire s else pure s
  else
    pure s

/-- Lines 323-357. -/
def BeginAim (s : AMultiShootGameCharacter) : Exec :=
  if !CheckStatus false true s then
    pure s
  else do
    let s := SetAimed_Server true s
    let s ← callCamera (.BeginAim s.WeaponMode) s
    let s ← callCamera .InspectEnd s
    if s.bToggleView then
      pure s
    else do
      let s := { s with SocketOffset := FVector.ZeroVector }
      let s := s.emit (.engine (.SetViewTargetWithBlend true))
      let s ← callWeapon .MainWeapon (.SetActorHiddenInGame true) s
      let s ← callWeapon .SecondWeapon (.SetActorHiddenInGame true) s
      let s ← callWeapon .ThirdWeapon (.SetActorHiddenInGame true) s
      let s := s.emit (.engine (.MeshSetHiddenInGame true))
      let s ← if s.WeaponMode = .MainWeapon ∧ s.bFired then callCamera .StartFire s else pure s
      if s.bLocallyControlled then callWeapon .MainWeapon .StopFire s else pure s

/-- Lines 359-390. -/
def EndAim (s : AMultiShootGameCharacter) : Exec :=
  if !CheckStatus false true s then
    pure s
  else do
    let s := SetAimed_Server false s
    let s ← callCamera .EndAim s
    let s ← callCamera .InspectEnd s
    if s.bToggleView then
      pure s
    else do
      let s := { s with SocketOffset := ⟨0, 90, 0⟩ }
      let s := s.emit (.engine (.SetViewTargetWithBlend false))
      let s ← callCamera (.SetActorHiddenInGame true) s
      let s ← callWeapon .MainWeapon (.SetActorHiddenInGame false) s
      let s ← callWeapon .SecondWeapon (.SetActorHiddenInGame false) s
      let s ← callWeapon .ThirdWeapon (.SetActorHiddenInGame false) s
      let s := s.emit (.engine (.MeshSetHiddenInGame false))
      let s ← if s.WeaponMode = .MainWeapon ∧ s.bFired then callWeapon .MainWeapon .StartFire s else pure s
      callCamera .StopFire s

/-- Lines 885-911. -/
def ToggleFirstPersonView (s : AMultiShootGameCharacter) : Exec :=
  if s.bAimed then
    pure s
  else do
    let s := SetToggleView_Server true s
    let s := { s with SocketOffset := FVector.ZeroVector }
    let s := s.emit (.engine (.SetViewTargetWithBlend true))
    let s ← callCamera (.SetActorHiddenInGame false) s
    let s ← callWeapon .MainWeapon (.SetActorHiddenInGame true) s
    let s ← callWeapon .SecondWeapon (.SetActorHiddenInGame true) s
    let s ← callWeapon .ThirdWeapon (.SetActorHiddenInGame true) s
    let s := s.emit (.engine (.MeshSetHiddenInGame true))
    let s ← if s.WeaponMode = .MainWeapon ∧ s.bFired then callCamera .StartFire s else pure s
    if s.bLocallyControlled then callWeapon .MainWeapon .StopFire s else pure s

/-- Lines 913-938. -/
def ToggleThirdPersonView (s : AMultiShootGameCharacter) : Exec :=
  if s.bAimed then
    pure s
  else do
    let s := SetToggleView_Server false s
    let s ← callCamera .EndAim s
    let s := { s with SocketOffset := ⟨0, 90, 0⟩ }
    let s := s.emit (.engine (.SetViewTargetWithBlend false))
    let s ← callCamera (.SetActorHiddenInGame true) s
    let s ← callWeapon .MainWeapon (.SetActorHiddenInGame false) s
    let s ← callWeapon .SecondWeapon (.SetActorHiddenInGame false) s
    let s ← callWeapon .ThirdWeapon (.SetActorHiddenInGame false) s
    let s := s.emit (.engine (.MeshSetHiddenInGame false))
    let s ← if s.WeaponMode = .MainWeapon ∧ s.bFired then callWeapon .MainWeapon .StartFire s else pure s
    callCamera .StopFire s

/-- Lines 1000-1018. -/
def EndAction (CheckToggleView : Bool) (s : AMultiShootGameCharacter) : Exec := do
  let s ← if s.bAimed ∧ !s.bSecondWeaponReloading then EndAim s else pure s
  let s ← if CheckToggleView ∧ s.bToggleView then ToggleThirdPersonView s else pure s
  let s ← if s.bFired then StopFire s else pure s
  callCamera .InspectEnd s

/-- Lines 491-506. -/
def BeginSecondWeaponReload (s : AMultiShootGameCharacter) : Exec :=
  if !CheckStatus false true s then
    pure s
  else do
    let s := { s with bSecondWeaponReloading := true }
    let s ← EndAction false s
    let s := s.emit (.engine .Delay)
    pure (PlayAnimMontage_Server .SecondWeaponReloadAnimMontage none none s)

/-- Lines 181-236. -/
def StartFire (s : AMultiShootGameCharacter) : Exec :=
  if !CheckStatus false true s then
    pure s
  else do
    let s := { s with bFired := true }
    let s ← callCamera .InspectEnd s
    if !s.bAimed ∧ !s.bToggleView then
      match s.WeaponMode with
      | .MainWeapon =>
        if s.CurrentMainWeapon.isSome then callWeapon .MainWeapon .StartFire s else pure s
      | .SecondWeapon =>
        if s.CurrentSecondWeapon.isSome then do
          let s ← callWeapon .SecondWeapon .Fire s
          BeginSecondWeaponReload s
        else pure s
      | .ThirdWeapon =>
        if s.CurrentThirdWeapon.isSome then callWeapon .ThirdWeapon .FireOfDelay s else pure s
    else
      if s.CurrentFPSCamera.isSome then
        match s.WeaponMode with
        | .MainWeapon => callCamera .StartFire s
        | .SecondWeapon => do
          let s ← callCamera .Fire s
          BeginSecondWeaponReload s
        | .ThirdWeapon => callCamera .FireOfDelay s
      else pure s

/-- Lines 410-440 are reached through this multicast RPC: recorded only. -/
def Fire_Multicast (WeaponInfo : FWeaponInfo) (MuzzleSocketName : String)
    (s : AMultiShootGameCharacter) : AMultiShootGameCharacter :=
  s.emit (.multicast (.Fire WeaponInfo MuzzleSocketName))

/-- Lines 392-408. -/
def Fire_Server_Implementation (WeaponInfo : FWeaponInfo) (MuzzleLocation : FVector)
    (ShotTargetDirection : FRotator) (MuzzleSocketName : String) (s : AMultiShootGameCharacter) :
    AMultiShootGameCharacter :=
  let s := s.emit (.engine (.SpawnProjectileActor WeaponInfo.ProjectileClass MuzzleLocation
    ShotTargetDirection))
  let s := if s.World.SpawnProjectile then
      s.emit (.projectile (.ProjectileInitialize WeaponInfo.BaseDamage))
    else s
  Fire_Multicast WeaponInfo MuzzleSocketName s

/-! ## Reloading, grenades and the knife -/

/-- Lines 458-489.  The `MainWeapon` case has no `break`, so control runs on
into the `SecondWeapon` case. -/
def BeginReload (s : AMultiShootGameCharacter) : Exec :=
  if !CheckStatus false true s then
    pure s
  else do
    let s := { s with bReloading := true }
    let s ← EndAction false s
    match s.WeaponMode with
    | .MainWeapon => do
      let Info ← readWeaponInfo .MainWeapon s
      let s := if Info.MaxBulletNumber > 0 then
          PlayAnimMontage_Server .ReloadAnimMontage none none s
        else s
      let Info ← readWeaponInfo .SecondWeapon s
      pure (if Info.MaxBulletNumber > 0 then
          PlayAnimMontage_Server .ReloadAnimMontage none none s
        else s)
    | .SecondWeapon => do
      let Info ← readWeaponInfo .SecondWeapon s
      pure (if Info.MaxBulletNumber > 0 then
          PlayAnimMontage_Server .ReloadAnimMontage none none s
        else s)
    | .ThirdWeapon => do
      let Info ← readWeaponInfo .ThirdWeapon s
      pure (if Info.MaxBulletNumber > 0 then
          PlayAnimMontage_Server .ThirdWeaponReloadAnimMontage none none s
        else s)

/-- Lines 508-527. -/
def BeginThrowGrenade (s : AMultiShootGameCharacter) : Exec :=
  if !CheckStatus false false s then
    pure s
  else if s.bBeginThrowGrenade || s.bThrowingGrenade || s.GrenadeCount == 0 then
    pure s
  else do
    let s ← EndAction true s
    let s := SetBeginThrowGrenade_Server true s
    let s := PutBackWeapon_Server s
    pure (PlayAnimMontage_Server .ThrowGrenadeAnimMontage none none s)

/-- Lines 529-537. -/
def EndThrowGrenade (s : AMultiShootGameCharacter) : AMultiShootGameCharacter :=
  if s.bBeginThrowGrenade || s.bThrowingGrenade then
    let s := { s with bToggleWeapon := true }
    PlayAnimMontage_Server .WeaponOutAnimMontage none none s
  else s

/-- Lines 600-618. -/
def SpawnGrenade_Server_Implementation (s : AMultiShootGameCharacter) : AMultiShootGameCharacter :=
  if s.bBeginThrowGrenade || s.bThrowingGrenade then
    let s := s.emit (.engine .SpawnGrenadeActor)
    let s := { s with CurrentGrenade := s.World.SpawnGrenade }
    match s.CurrentGrenade with
    | some g =>
      let s := { s with CurrentGrenade := some { g with BaseDamage := s.GrenadeDamage } }
      s.emit (.grenade .AttachToGrenadeSceneComponent)
    | none => s
  else s

def SpawnGrenade_Server (s : AMultiShootGameCharacter) : AMultiShootGameCharacter :=
  SpawnGrenade_Server_Implementation (s.emit (.server .SpawnGrenade))

/-- Lines 592-598. -/
def SpawnGrenade (s : AMultiShootGameCharacter) : AMultiShootGameCharacter :=
  let s := SpawnGrenade_Server s
  let s := SetBeginThrowGrenade_Server true s
  SetSpawnGrenade_Server true s

/-- Lines 539-566. -/
def ThrowGrenade (s : AMultiShootGameCharacter) : Exec :=
  if !CheckStatus false false s then
    pure s
  else if s.bThrowingGrenade || s.GrenadeCount == 0 then
    pure s
  else do
    let s ← EndAction true s
    let s := SetThrowingGrenade_Server true s
    let s := if !s.bBeginThrowGrenade then PutBackWeapon_Server s else s
    let s := if !s.bSpawnGrenade then SpawnGrenade s else s
    pure (PlayAnimMontage_Server .ThrowGrenadeAnimMontage (some 1) (some "Throw") s)

/-- Lines 620-632. -/
def KnifeAttack (s : AMultiShootGameCharacter) : Exec :=
  if !CheckStatus false true s then
    pure s
  else do
    let s ← EndAction true s
    let s := SetKnifeAttack_Server true s
    pure (PlayAnimMontage_Server .KnifeAttackAnimMontage (some 2) none s)

/-- Lines 684-714. -/
def EndReload (s : AMultiShootGameCharacter) : Exec := do
  let s := { s with bReloading := false }
  let s ← if !s.bSecondWeaponReloading then
      match s.WeaponMode with
      | .MainWeapon => do
        let Info ← readWeaponInfo .MainWeapon s
        if Info.BulletNumber < Info.FillUpBulletNumber then
          callWeapon .MainWeapon .BulletReload s
        else pure s
      | .SecondWeapon => do
        let Info ← readWeaponInfo .SecondWeapon s
        if Info.BulletNumber < Info.FillUpBulletNumber then
          callWeapon .SecondWeapon .BulletReload s
        else pure s
      | .ThirdWeapon => do
        let Info ← readWeaponInfo .ThirdWeapon s
        if Info.BulletNumber < Info.FillUpBulletNumber then
          callWeapon .ThirdWeapon .BulletReload s
        else pure s
    else pure s
  pure { s with bSecondWeaponReloading := false }

/-! ## Weapon toggling -/

/-- Lines 735-758. -/
def ToggleMainWeapon (s : AMultiShootGameCharacter) : Exec :=
  if !CheckStatus true true s then
    pure s
  else if s.WeaponMode = .MainWeapon then
    pure s
  else do
    let s := { s with bToggleWeapon := true }
    let s ← EndAction false s
    let s := SetWeaponMode_Server .MainWeapon s
    let Info ← readWeaponInfo .MainWeapon s
    let s ← callCamera (.SetWeaponInfo Info) s
    let s := HandleWalkSpeed s.bFastRun s
    pure (PlayAnimMontage_Server .WeaponOutAnimMontage none none s)

/-- Lines 760-783. -/
def ToggleSecondWeapon (s : AMultiShootGameCharacter) : Exec :=
  if !CheckStatus true true s then
    pure s
  else if s.WeaponMode = .SecondWeapon then
    pure s
  else do
    let s := { s with bToggleWeapon := true }
    let s ← EndAction false s
    let s := SetWeaponMode_Server .SecondWeapon s
    let Info ← readWeaponInfo .SecondWeapon s
    let s ← callCamera (.SetWeaponInfo Info) s
    let s := HandleWalkSpeed s.bFastRun s
    pure (PlayAnimMontage_Server .WeaponOutAnimMontage none none s)

/-- Lines 785-808. -/
def ToggleThirdWeapon (s : AMultiShootGameCharacter) : Exec :=
  if !CheckStatus true true s then
    pure s
  else if s.WeaponMode = .ThirdWeapon then
    pure s
  else do
    let s := { s with bToggleWeapon := true }
    let s ← EndAction false s
    let s := SetWeaponMode_Server .ThirdWeapon s
    let Info ← readWeaponInfo .ThirdWeapon s
    let s ← callCamera (.SetWeaponInfo Info) s
    let s := HandleWalkSpeed s.bFastRun s
    pure (PlayAnimMontage_Server .WeaponOutAnimMontage none none s)

/-- Lines 810-824. -/
def ToggleWeaponUp (s : AMultiShootGameCharacter) : Exec :=
  match s.WeaponMode with
  | .MainWeapon => ToggleThirdWeapon s
  | .SecondWeapon => ToggleMainWeapon s
  | .ThirdWeapon => ToggleSecondWeapon s

/-- Lines 826-840. -/
def ToggleWeaponDown (s : AMultiShootGameCharacter) : Exec :=
  match s.WeaponMode with
  | .MainWeapon => ToggleSecondWeapon s
  | .SecondWeapon => ToggleThirdWeapon s
  | .ThirdWeapon => ToggleMainWeapon s

/-- Lines 847-855. -/
def ToggleWeaponEnd (s : AMultiShootGameCharacter) : AMultiShootGameCharacter :=
  let s := { s with bToggleWeapon := false }
  let s := SetBeginThrowGrenade_Server false s
  let s := SetThrowingGrenade_Server false s
  let s := SetSpawnGrenade_Server false s
  SetKnifeAttack_Server false s

/-! ## View toggling and inspection -/

/-- Lines 866-883. -/
def ToggleView (s : AMultiShootGameCharacter) : Exec :=
  if !CheckStatus true true s then
    pure s
  else do
    let s ← callCamera .InspectEnd s
    if !s.bToggleView then ToggleFirstPersonView s else ToggleThirdPersonView s

/-- Lines 940-955. -/
def Inspect (s : AMultiShootGameCharacter) : Exec :=
  if !CheckStatus true true s then
    pure s
  else if !s.bToggleView then
    pure s
  else do
    let s ← callCamera .StopFire s
    callCamera .InspectBegin s

/-! ## Destruction -/

/-- Lines 156-179. -/
def Destroyed (s : AMultiShootGameCharacter) : Exec :=
  if s.CurrentMainWeapon.isNone || s.CurrentSecondWeapon.isNone || s.CurrentThirdWeapon.isNone ||
      s.CurrentFPSCamera.isNone then
    pure s
  else do
    let s ← callWeapon .MainWeapon .Destroy s
    let s ← callWeapon .SecondWeapon .Destroy s
    let s ← callWeapon .ThirdWeapon .Destroy s
    let s ← callCamera .Destroy s
    let s ← if s.CurrentGrenade.isSome then callGrenade .Destroy s else pure s
    let s := if s.bLocallyControlled then s.emit (.engine .WidgetRemoveFromParent) else s
    pure (s.emit (.engine .SuperDestroyed))

/-! ## Scoring hook used by the enemy -/

/-- Lines 1430-1440. -/
def OnEnemyKilled (s : AMultiShootGameCharacter) : AMultiShootGameCharacter :=
  let s := if s.bHasPlayerState then
      (s.emit (.playerState (.AddScore_Server 50))).emit (.playerState .AddKill_Server)
    else s
  let s := { s with bShowSight := true }
  { s with CurrentShowSight := 0 }

/-- Lines 1442-1449. -/
def OnHeadshot (s : AMultiShootGameCharacter) : AMultiShootGameCharacter :=
  if s.bHasPlayerState then s.emit (.playerState (.AddScore_Server 25)) else s

/-- Lines 1451-1458. -/
def OnDeath (s : AMultiShootGameCharacter) : AMultiShootGameCharacter :=
  if s.bHasPlayerState then s.emit (.playerState .AddDeath_Server) else s

/-! ## Health, death and head shots -/

/-- What `Cast<AMultiShootGameCharacter>(DamageCauser)` yields, as seen from the
damaged character: null (no actor, or an actor of another class), the damaged
character itself, or another player character. -/
inductive ADamageCauser where
  | notCharacter
  | self
  | other (Character : AMultiShootGameCharacter)

/-- Lines 1260-1293 are reached through this multicast RPC: recorded only. -/
def Death_Multicast (s : AMultiShootGameCharacter) : AMultiShootGameCharacter :=
  s.emit (.multicast .Death)

/-- Lines 1253-1258. -/
def Death_Server_Implementation (s : AMultiShootGameCharacter) : AMultiShootGameCharacter :=
  let s := { s with HealthComponent := { s.HealthComponent with bDied := true } }
  Death_Multicast s

def Death_Server (s : AMultiShootGameCharacter) : AMultiShootGameCharacter :=
  Death_Server_Implementation (s.emit (.server .Death))

/-- Lines 1295-1317.  The second component is the damage causer after the call. -/
def OnHealthChanged (Health : Rat) (DamageCauser : ADamageCauser)
    (s : AMultiShootGameCharacter) : AMultiShootGameCharacter × ADamageCauser :=
  if Health = 100 then
    (s, DamageCauser)
  else
    let s := s.emit (.engine .ClientStartCameraShake)
    if Health ≤ 0 ∧ !s.HealthComponent.bDied then
      let s := OnDeath s
      match DamageCauser with
      | .notCharacter => (Death_Server s, .notCharacter)
      | .self =>
        let s := s.emit (.damageCauser .OnEnemyKilled)
        let s := OnEnemyKilled s
        (Death_Server s, .self)
      | .other Character =>
        let s := s.emit (.damageCauser .OnEnemyKilled)
        (Death_Server s, .other (OnEnemyKilled Character))
    else
      (s, DamageCauser)

/-- Lines 957-964.  The second component is the damage causer after the call. -/
def HeadShot (DamageCauser : ADamageCauser) (s : AMultiShootGameCharacter) :
    AMultiShootGameCharacter × ADamageCauser :=
  match DamageCauser with
  | .notCharacter => (s, .notCharacter)
  | .self => (OnHeadshot (s.emit (.damageCauser .OnHeadshot)), .self)
  | .other Character => (s.emit (.damageCauser .OnHeadshot), .other (OnHeadshot Character))

/-! ## Remaining small member functions -/

/-- Lines 289-292. -/
def BeginFastRun (s : AMultiShootGameCharacter) : AMultiShootGameCharacter :=
  HandleWalkSpeed true s

/-- Lines 294-297. -/
def EndFastRun (s : AMultiShootGameCharacter) : AMultiShootGameCharacter :=
  HandleWalkSpeed false s

/-- Lines 634-642. -/
def BeginKnifeAttack_Server_Implementation (s : AMultiShootGameCharacter) :
    AMultiShootGameCharacter :=
  if s.bKnifeAttack then
    let s := s.emit (.engine (.KnifeSetVisibility true))
    PutBackWeapon_Server s
  else s

/-- Lines 644-654. -/
def EndKnifeAttack_Server_Implementation (s : AMultiShootGameCharacter) :
    AMultiShootGameCharacter :=
  if s.bKnifeAttack then
    let s := { s with bToggleWeapon := true }
    let s := s.emit (.engine (.KnifeSetVisibility false))
    PlayAnimMontage_Server .WeaponOutAnimMontage none none s
  else s

/-- Lines 716-733. -/
def ReloadShowClip (Enabled : Bool) (s : AMultiShootGameCharacter) : Exec :=
  match s.WeaponMode with
  | .MainWeapon => callWeapon .MainWeapon (.ReloadShowMagazineClip Enabled) s
  | .SecondWeapon => callWeapon .SecondWeapon (.ReloadShowMagazineClip Enabled) s
  | .ThirdWeapon => callWeapon .ThirdWeapon (.ReloadShowMagazineClip Enabled) s

/-- Lines 1172-1219. -/
def AttachWeapon_Server_Implementation (s : AMultiShootGameCharacter) :
    AMultiShootGameCharacter :=
  match s.WeaponMode with
  | .MainWeapon =>
    let s := s.emit (.engine (.AttachToComponent .MainWeaponSceneComponent
      .MainWeaponSocketName true))
    let s := s.emit (.engine (.AttachToComponent .SecondWeaponSceneComponent
      .BackSecondWeaponSocketName true))
    let s := s.emit (.engine (.AttachToComponent .ThirdWeaponSceneComponent
      .BackThirdWeaponSocketName false))
    s.emit (.engine (.MoveComponentTo .MainWeaponSceneComponent))
  | .SecondWeapon =>
    let s := s.emit (.engine (.AttachToComponent .MainWeaponSceneComponent
      .BackMainWeaponSocketName true))
    let s := s.emit (.engine (.AttachToComponent .SecondWeaponSceneComponent
      .SecondWeaponSocketName true))
    let s := s.emit (.engine (.AttachToComponent .ThirdWeaponSceneComponent
      .BackThirdWeaponSocketName false))
    s.emit (.engine (.MoveComponentTo .SecondWeaponSceneComponent))
  | .ThirdWeapon =>
    let s := s.emit (.engine (.AttachToComponent .MainWeaponSceneComponent
      .BackMainWeaponSocketName true))
    let s := s.emit (.engine (.AttachToComponent .SecondWeaponSceneComponent
      .BackSecondWeaponSocketName true))
    let s := s.emit (.engine (.AttachToComponent .ThirdWeaponSceneComponent
      .ThirdWeaponSocketName false))
    s.emit (.engine (.MoveComponentTo .ThirdWeaponSceneComponent))

def AttachWeapon_Server (s : AMultiShootGameCharacter) : AMultiShootGameCharacter :=
  AttachWeapon_Server_Implementation (s.emit (.server .AttachWeapon))

/-- Lines 842-845. -/
def ToggleWeaponBegin (s : AMultiShootGameCharacter) : AMultiShootGameCharacter :=
  AttachWeapon_Server s

/-- Lines 857-864. -/
def FillUpWeaponBullet (s : AMultiShootGameCharacter) : Exec := do
  let s ← callWeapon .MainWeapon .FillUpBullet s
  let s ← callWeapon .SecondWeapon .FillUpBullet s
  let s ← callWeapon .ThirdWeapon .FillUpBullet s
  let s ← callCamera .FillUpBullet s
  pure { s with GrenadeCount := s.MaxGrenadeCount }

/-- Lines 1084-1098, with exact arithmetic in place of `float`. -/
def CheckShowSight (DeltaSeconds : Rat) (s : AMultiShootGameCharacter) :
    AMultiShootGameCharacter :=
  if s.bShowSight then
    if s.CurrentShowSight < s.ShowSightDelay then
      { s with CurrentShowSight := s.CurrentShowSight + DeltaSeconds }
    else
      let s := { s with bShowSight := false }
      { s with CurrentShowSight := 0 }
  else s

/-! ## Spawning, the grenade throw and respawning -/

/-- Lines 75-154. -/
def BeginPlay (s : AMultiShootGameCharacter) : Exec := do
  let s := s.emit (.engine .SuperBeginPlay)
  let s :=
    if s.bMultiShootGameGameMode then
      if s.bLocallyControlled then s.emit (.engine (.CreateWidget .GameUserWidgetClass)) else s
    else
      if s.bLocallyControlled then s.emit (.engine (.CreateWidget .ServerGameUserWidgetClass))
      else s
  let s :=
    if s.bLocallyControlled then s.emit (.engine (.WidgetAddToViewport .CurrentGameUserWidget))
    else s
  let s :=
    if s.bShowMobileJoystick && s.bLocallyControlled then
      let s := s.emit (.engine (.CreateWidget .MobileJoystickUserWidgetClass))
      s.emit (.engine (.WidgetAddToViewport .CurrentMobileJoystickUserWidget))
    else s
  let s := s.emit (.engine (.SetViewPitchMax s.CameraPitchClamp))
  let s := s.emit (.engine (.SetViewPitchMin (-1 * s.CameraPitchClamp)))
  let s := { s with GrenadeCount := s.MaxGrenadeCount }
  let s := s.emit (.engine (.SpawnWeaponActor .MainWeapon))
  let s := { s with CurrentMainWeapon := s.World.SpawnMainWeapon }
  let s := s.emit (.engine (.SpawnWeaponActor .SecondWeapon))
  let s := { s with CurrentSecondWeapon := s.World.SpawnSecondWeapon }
  let s := s.emit (.engine (.SpawnWeaponActor .ThirdWeapon))
  let s := { s with CurrentThirdWeapon := s.World.SpawnThirdWeapon }
  let s := s.emit (.engine .SpawnFPSCameraActor)
  let s := { s with CurrentFPSCamera := s.World.SpawnFPSCamera }
  let s ←
    if s.CurrentMainWeapon.isSome then
      callWeapon .MainWeapon (.AttachToComponent .MainWeaponSceneComponent) s
    else pure s
  let s ←
    if s.CurrentSecondWeapon.isSome then
      callWeapon .SecondWeapon (.AttachToComponent .SecondWeaponSceneComponent) s
    else pure s
  let s ←
    if s.CurrentThirdWeapon.isSome then
      callWeapon .ThirdWeapon (.AttachToComponent .ThirdWeaponSceneComponent) s
    else pure s
  if s.CurrentFPSCamera.isSome then do
    let s ← callCamera .AttachToFPSCameraSceneComponent s
    callCamera (.SetActorHiddenInGame true) s
  else pure s

/-- Lines 586-590. -/
def ThrowGrenadeOut_Server_Implementation (Direction : FRotator) (MultiThrow : Bool)
    (s : AMultiShootGameCharacter) : Exec := do
  let s ← callGrenade .DetachFromActor s
  callGrenade (.ThrowGrenade_Server Direction MultiThrow) s

def ThrowGrenadeOut_Server (Direction : FRotator) (MultiThrow : Bool)
    (s : AMultiShootGameCharacter) : Exec :=
  ThrowGrenadeOut_Server_Implementation Direction MultiThrow
    (s.emit (.server (.ThrowGrenadeOut Direction MultiThrow)))

/-- Lines 568-584.  `LookAtRotation` is what `FindLookAtRotation` returns for
the component positions read from the engine, `IsFalling` the value of
`GetCharacterMovement()->IsFalling()`. -/
def ThrowGrenadeOut (LookAtRotation : FRotator) (IsFalling : Bool)
    (s : AMultiShootGameCharacter) : Exec :=
  if s.bSpawnGrenade && s.CurrentGrenade.isSome then do
    let s ← ThrowGrenadeOut_Server LookAtRotation (s.bFastRun || IsFalling) s
    pure (SetGrenadeCount_Server
      (FMath.Clamp (wrapInt32 (s.GrenadeCount - 1)) 0 s.MaxGrenadeCount) s)
  else pure s

/-- The index expression of line 970,
`UKismetMathLibrary::RandomInteger(OutActorArray.Max())`. -/
def RebornIndex (OutActorArray : TArray AActor) (Draw : Nat) : Int :=
  UKismetMathLibrary.RandomInteger OutActorArray.Max Draw

/-- Lines 966-977.  `Draw` is the state of the random stream. -/
def Reborn_Server_Implementation (Draw : Nat) (s : AMultiShootGameCharacter) : Exec :=
  let OutActorArray := s.World.PlayerStarts
  match OutActorArray.elementAt (RebornIndex OutActorArray Draw) with
  | none => .error (.indexOutOfBounds (RebornIndex OutActorArray Draw) OutActorArray.Num)
  | some OutActor =>
    let Transform := OutActor.ActorTransform
    let s := s.emit (.engine (.SpawnCharacterActor Transform))
    let s := s.emit (.engine .ControllerPossess)
    pure (s.emit (.engine .Destroy))

/-! ## Input bindings -/

/-- The key events used by `BindAction`. -/
inductive EInputEvent where
  | IE_Pressed
  | IE_Released
  deriving DecidableEq, Repr

/-- The member functions bound to actions in `SetupPlayerInputComponent`. -/
inductive ActionHandler where
  | Jump
  | StopJumping
  | StartFire
  | StopFire
  | BeginFastRun
  | EndFastRun
  | BeginAim
  | EndAim
  | ToggleCrouch
  | BeginCrouch
  | EndCrouch
  | BeginReload
  | ToggleMainWeapon
  | ToggleSecondWeapon
  | ToggleThirdWeapon
  | ToggleWeaponUp
  | ToggleWeaponDown
  | BeginThrowGrenade
  | ThrowGrenade
  | KnifeAttack
  | ToggleView
  | Inspect
  deriving DecidableEq, Repr

/-- The member functions bound to axes in `SetupPlayerInputComponent`. -/
inductive AxisHandler where
  | MoveForward
  | MoveRight
  | AddControllerYawInput
  | AddControllerPitchInput
  deriving DecidableEq, Repr

/-- One row of the action-binding table. -/
structure FInputActionBinding where
  ActionName : String
  KeyEvent : EInputEvent
  Handler : ActionHandler
  deriving DecidableEq, Repr

/-- One row of the axis-binding table. -/
structure FInputAxisBinding where
  AxisName : String
  Handler : AxisHandler
  deriving DecidableEq, Repr

/-- The binding tables of the engine input component. -/
structure UInputComponent where
  ActionBindings : List FInputActionBinding
  AxisBindings : List FInputAxisBinding
  deriving DecidableEq, Repr

/-- The engine call `BindAction`: append one row. -/
def UInputComponent.BindAction (ActionName : String) (KeyEvent : EInputEvent)
    (Handler : ActionHandler) (c : UInputComponent) : UInputComponent :=
  { c with ActionBindings := c.ActionBindings ++ [⟨ActionName, KeyEvent, Handler⟩] }

/-- The engine call `BindAxis`: append one row. -/
def UInputComponent.BindAxis (AxisName : String) (Handler : AxisHandler)
    (c : UInputComponent) : UInputComponent :=
  { c with AxisBindings := c.AxisBindings ++ [⟨AxisName, Handler⟩] }

/-- Lines 1349-1407. -/
def SetupPlayerInputComponent (PlayerInputComponent : Option UInputComponent) :
    Except Fault UInputComponent :=
  match PlayerInputComponent with
  | none => .error (.checkFailed .PlayerInputComponent)
  | some c =>
    let c := c.BindAction "Jump" .IE_Pressed .Jump
    let c := c.BindAction "Jump" .IE_Released .StopJumping
    let c := c.BindAction "Fire" .IE_Pressed .StartFire
    let c := c.BindAction "Fire" .IE_Released .StopFire
    let c := c.BindAxis "MoveForward" .MoveForward
    let c := c.BindAxis "MoveRight" .MoveRight
    let c := c.BindAxis "Turn" .AddControllerYawInput
    let c := c.BindAxis "LookUp" .AddControllerPitchInput
    let c := c.BindAction "FastRun" .IE_Pressed .BeginFastRun
    let c := c.BindAction "FastRun" .IE_Released .EndFastRun
    let c := c.BindAction "Aim" .IE_Pressed .BeginAim
    let c := c.BindAction "Aim" .IE_Released .EndAim
    let c := c.BindAction "ToggleCrouch" .IE_Pressed .ToggleCrouch
    let c := c.BindAction "Crouch" .IE_Pressed .BeginCrouch
    let c := c.BindAction "Crouch" .IE_Released .EndCrouch
    let c := c.BindAction "Reload" .IE_Pressed .BeginReload
    let c := c.BindAction "MainWeapon" .IE_Pressed .ToggleMainWeapon
    let c := c.BindAction "SecondWeapon" .IE_Pressed .ToggleSecondWeapon
    let c := c.BindAction "ThirdWeapon" .IE_Pressed .ToggleThirdWeapon
    let c := c.BindAction "ToggleWeaponUp" .IE_Pressed .ToggleWeaponUp
    let c := c.BindAction "ToggleWeaponDown" .IE_Pressed .ToggleWeaponDown
    let c := c.BindAction "ThrowGrenade" .IE_Pressed .BeginThrowGrenade
    let c := c.BindAction "ThrowGrenade" .IE_Released .ThrowGrenade
    let c := c.BindAction "KnifeAttack" .IE_Pressed .KnifeAttack
    let c := c.BindAction "ToggleView" .IE_Pressed .ToggleView
    let c := c.BindAction "Inspect" .IE_Pressed .Inspect
    .ok c

end AMultiShootGameCharacter

/-! ## The enemy character (`MultiShootGameEnemyCharacter.cpp`) -/

/-- The weapon actor spawned by the enemy; none of its members is read. -/
inductive AMultiShootGameEnemyWeapon where
  | actor
  deriving DecidableEq, Repr

/-- Calls leaving the enemy character. -/
inductive EnemyCall where
  | weaponAttachToComponent
  | weaponStartFire
  | weaponStopFire
  | weaponEnablePhysicsSimulate
  | bindOnHealthChanged
  | bindOnHeadShot
  | spawnWeaponActor
  | stopMovementImmediately
  | capsuleNoCollision
  | meshRagdollProfile
  | detachFromControllerPendingDestroy
  | playDeathMontage
  | deathAudioPlay
  | setDeathDestroyTimer
  | causerOnEnemyKilled
  | causerOnHeadshot
  | destroy
  deriving DecidableEq, Repr

/-- The members of `AMultiShootGameEnemyCharacter` used by the `.cpp`. -/
structure AMultiShootGameEnemyCharacter where
  HealthComponent : UHealthComponent
  CurrentWeapon : Option AMultiShootGameEnemyWeapon
  /-- What `SpawnActor<AMultiShootGameEnemyWeapon>` returns in `BeginPlay`. -/
  WorldSpawnWeapon : Option AMultiShootGameEnemyWeapon
  calls : List EnemyCall
  deriving DecidableEq, Repr

namespace AMultiShootGameEnemyCharacter

/-- Record one outgoing call of the enemy. -/
def emit (c : EnemyCall) (e : AMultiShootGameEnemyCharacter) : AMultiShootGameEnemyCharacter :=
  { e with calls := e.calls ++ [c] }

/-- The statement `CurrentWeapon->c()`, with no null check. -/
def callWeapon (c : EnemyCall) (e : AMultiShootGameEnemyCharacter) :
    Except Fault AMultiShootGameEnemyCharacter :=
  match e.CurrentWeapon with
  | none => .error (.nullDeref .CurrentWeapon)
  | some _ => .ok (e.emit c)

/-- Lines 35-56. -/
def BeginPlay (e : AMultiShootGameEnemyCharacter) : Except Fault AMultiShootGameEnemyCharacter :=
  let e := e.emit .bindOnHealthChanged
  let e := e.emit .bindOnHeadShot
  let e := e.emit .spawnWeaponActor
  let e := { e with CurrentWeapon := e.WorldSpawnWeapon }
  if e.CurrentWeapon.isSome then callWeapon .weaponAttachToComponent e else pure e

/-- Lines 103-109. -/
def StartFire (e : AMultiShootGameEnemyCharacter) : Except Fault AMultiShootGameEnemyCharacter :=
  if e.CurrentWeapon.isSome then callWeapon .weaponStartFire e else pure e

/-- Lines 111-117. -/
def StopFire (e : AMultiShootGameEnemyCharacter) : Except Fault AMultiShootGameEnemyCharacter :=
  if e.CurrentWeapon.isSome then callWeapon .weaponStopFire e else pure e

/-- Lines 146-174.  `DamageCauser` is the result of
`Cast<AMultiShootGameCharacter>(DamageCauser)`; it is returned updated. -/
def OnHealthChanged (Health : Rat) (DamageCauser : Option AMultiShootGameCharacter)
    (e : AMultiShootGameEnemyCharacter) :
    Except Fault (AMultiShootGameEnemyCharacter × Option AMultiShootGameCharacter) :=
  if Health ≤ 0 ∧ !e.HealthComponent.bDied then do
    let e := { e with HealthComponent := { e.HealthComponent with bDied := true } }
    let e := e.emit .stopMovementImmediately
    let e := e.emit .capsuleNoCollision
    let e := e.emit .meshRagdollProfile
    let e := e.emit .detachFromControllerPendingDestroy
    let e := e.emit .playDeathMontage
    let e ← callWeapon .weaponEnablePhysicsSimulate e
    let e := e.emit .deathAudioPlay
    let e := if DamageCauser.isSome then e.emit .causerOnEnemyKilled else e
    let Character := DamageCauser.map AMultiShootGameCharacter.OnEnemyKilled
    let e := e.emit .setDeathDestroyTimer
    pure (e, Character)
  else
    pure (e, DamageCauser)

/-- Lines 119-129.  `DamageCauser` as in `OnHealthChanged`. -/
def OnHeadShot (DamageCauser : Option AMultiShootGameCharacter)
    (e : AMultiShootGameEnemyCharacter) :
    AMultiShootGameEnemyCharacter × Option AMultiShootGameCharacter :=
  if !e.HealthComponent.bDied then
    match DamageCauser with
    | some Character =>
      (e.emit .causerOnHeadshot, some (AMultiShootGameCharacter.OnHeadshot Character))
    | none => (e, none)
  else
    (e, DamageCauser)

/-- Lines 141-144. -/
def DeathDestroy (e : AMultiShootGameEnemyCharacter) : AMultiShootGameEnemyCharacter :=
  e.emit .destroy

end AMultiShootGameEnemyCharacter

/-! ## Concrete states used to exercise the theorems -/

open AMultiShootGameCharacter

/-- The description of the sample main weapon (a rifle). -/
def mainWeaponInfo : FWeaponInfo :=
  { ProjectileClass := 1, BaseDamage := 20, FireSoundCue := none, MuzzleEffect := none,
    WeaponMesh := 7, BulletNumber := 30, MaxBulletNumber := 90, FillUpBulletNumber := 30 }

/-- The description of the sample second weapon (a sniper rifle). -/
def secondWeaponInfo : FWeaponInfo :=
  { ProjectileClass := 2, BaseDamage := 80, FireSoundCue := some 4, MuzzleEffect := none,
    WeaponMesh := 8, BulletNumber := 5, MaxBulletNumber := 20, FillUpBulletNumber := 5 }

/-- The description of the sample third weapon (a shotgun). -/
def thirdWeaponInfo : FWeaponInfo :=
  { ProjectileClass := 3, BaseDamage := 45, FireSoundCue := none, MuzzleEffect := some 6,
    WeaponMesh := 9, BulletNumber := 8, MaxBulletNumber := 0, FillUpBulletNumber := 8 }

/-- A character right after a successful `BeginPlay`: every spawned actor is
present, no action is in progress, third-person view, main weapon in hand. -/
def idleCharacter : AMultiShootGameCharacter :=
  { WeaponMode := .MainWeapon, bFastRun := false, bAimed := false, bFired := false,
    bToggleView := false, bReloading := false, bSecondWeaponReloading := false,
    bToggleWeapon := false, bBeginThrowGrenade := false, bThrowingGrenade := false,
    bSpawnGrenade := false, bKnifeAttack := false, bDetectingClimb := false,
    bShowSight := false, CurrentShowSight := 0, ShowSightDelay := 2,
    GrenadeCount := 3, MaxGrenadeCount := 3, GrenadeDamage := 100,
    HealthComponent := { bDied := false },
    CurrentMainWeapon := some { WeaponInfo := mainWeaponInfo, bInitializeReady := false },
    CurrentSecondWeapon := some { WeaponInfo := secondWeaponInfo, bInitializeReady := false },
    CurrentThirdWeapon := some { WeaponInfo := thirdWeaponInfo, bInitializeReady := false },
    CurrentFPSCamera := some { bInitializeReady := false },
    CurrentGrenade := none,
    SocketOffset := ⟨0, 90, 0⟩, MaxWalkSpeed := 300, bLocallyControlled := true,
    bHasPlayerState := true,
    World := { SpawnGrenade := some { BaseDamage := 0 }, SpawnProjectile := true },
    calls := [] }

/-- The idle character in the middle of a reload. -/
def reloadingCharacter : AMultiShootGameCharacter :=
  { idleCharacter with bReloading := true }

/-- The idle character whose first-person camera failed to spawn. -/
def cameraLessCharacter : AMultiShootGameCharacter :=
  { idleCharacter with CurrentFPSCamera := none }

/-- The idle character holding a spawned grenade. -/
def grenadeCharacter : AMultiShootGameCharacter :=
  { idleCharacter with CurrentGrenade := some { BaseDamage := 100 } }

/-- An enemy before `BeginPlay` in a world where the weapon spawn fails. -/
def freshEnemy : AMultiShootGameEnemyCharacter :=
  { HealthComponent := { bDied := false }, CurrentWeapon := none, WorldSpawnWeapon := none,
    calls := [] }

/-- The enemy `freshEnemy` after `BeginPlay`: alive, with a null `CurrentWeapon`. -/
def unarmedEnemy : AMultiShootGameEnemyCharacter :=
  { HealthComponent := { bDied := false }, CurrentWeapon := none, WorldSpawnWeapon := none,
    calls := [.bindOnHealthChanged, .bindOnHeadShot, .spawnWeaponActor] }

/-- The rows `SetupPlayerInputComponent` adds to the action table, in order. -/
def characterActionRows : List FInputActionBinding :=
  [⟨"Jump", .IE_Pressed, .Jump⟩, ⟨"Jump", .IE_Released, .StopJumping⟩,
   ⟨"Fire", .IE_Pressed, .StartFire⟩, ⟨"Fire", .IE_Released, .StopFire⟩,
   ⟨"FastRun", .IE_Pressed, .BeginFastRun⟩, ⟨"FastRun", .IE_Released, .EndFastRun⟩,
   ⟨"Aim", .IE_Pressed, .BeginAim⟩, ⟨"Aim", .IE_Released, .EndAim⟩,
   ⟨"ToggleCrouch", .IE_Pressed, .ToggleCrouch⟩,
   ⟨"Crouch", .IE_Pressed, .BeginCrouch⟩, ⟨"Crouch", .IE_Released, .EndCrouch⟩,
   ⟨"Reload", .IE_Pressed, .BeginReload⟩,
   ⟨"MainWeapon", .IE_Pressed, .ToggleMainWeapon⟩,
   ⟨"SecondWeapon", .IE_Pressed, .ToggleSecondWeapon⟩,
   ⟨"ThirdWeapon", .IE_Pressed, .ToggleThirdWeapon⟩,
   ⟨"ToggleWeaponUp", .IE_Pressed, .ToggleWeaponUp⟩,
   ⟨"ToggleWeaponDown", .IE_Pressed, .ToggleWeaponDown⟩,
   ⟨"ThrowGrenade", .IE_Pressed, .BeginThrowGrenade⟩,
   ⟨"ThrowGrenade", .IE_Released, .ThrowGrenade⟩,
   ⟨"KnifeAttack", .IE_Pressed, .KnifeAttack⟩,
   ⟨"ToggleView", .IE_Pressed, .ToggleView⟩,
   ⟨"Inspect", .IE_Pressed, .Inspect⟩]

/-- The idle character while aiming down the sights. -/
def aimedCharacter : AMultiShootGameCharacter :=
  { idleCharacter with bAimed := true }

/-- The idle character whose main weapon has no reserve ammunition. -/
def emptyMainCharacter : AMultiShootGameCharacter :=
  { idleCharacter with
    CurrentMainWeapon := some { WeaponInfo := { mainWeaponInfo with MaxBulletNumber := 0 },
                                bInitializeReady := false } }

/-- The idle character holding the second weapon. -/
def secondWeaponCharacter : AMultiShootGameCharacter :=
  { idleCharacter with WeaponMode := .SecondWeapon }

/-- The idle character at the end of a knife attack, before `ToggleWeaponEnd`. -/
def knifeCharacter : AMultiShootGameCharacter :=
  { idleCharacter with bKnifeAttack := true, bToggleWeapon := true }

/-- The idle character out of grenades. -/
def noGrenadeCharacter : AMultiShootGameCharacter :=
  { idleCharacter with GrenadeCount := 0 }

/-- A reloading character whose main weapon failed to spawn. -/
def mainWeaponLessCharacter : AMultiShootGameCharacter :=
  { idleCharacter with CurrentMainWeapon := none, bReloading := true }

/-- The idle character in first-person view, firing. -/
def firstPersonCharacter : AMultiShootGameCharacter :=
  { idleCharacter with bToggleView := true, bFired := true }

/-- A reloading character whose main-weapon magazine is nearly empty. -/
def spentReloadingCharacter : AMultiShootGameCharacter :=
  { idleCharacter with
    bReloading := true,
    CurrentMainWeapon := some { WeaponInfo := { mainWeaponInfo with BulletNumber := 3 },
                                bInitializeReady := false } }

/-- A sequence of damage events: a graze, then three lethal reports. -/
def damageSequence : List (Rat × ADamageCauser) :=
  [(40, .notCharacter), (0, .other idleCharacter), (-5, .self), (0, .notCharacter)]

/-- The grenade character once the grenade is in the hand and the throw is on. -/
def armedGrenadeCharacter : AMultiShootGameCharacter :=
  { grenadeCharacter with bSpawnGrenade := true, bThrowingGrenade := true }

/-- A level with one player start; the array that lists it holds four slots,
the size of the first allocation of an engine array. -/
def onePlayerStartWorld : UWorld :=
  { SpawnGrenade := none, SpawnProjectile := true,
    PlayerStarts := ⟨[⟨⟨⟨100, 200, 0⟩, ⟨0, 90, 0⟩⟩⟩], 4⟩ }

/-- The idle character in the level with a single player start. -/
def rebornCharacter : AMultiShootGameCharacter :=
  { idleCharacter with World := onePlayerStartWorld }

/-- A level whose player-start array is allocated exactly. -/
def tightPlayerStartWorld : UWorld :=
  { SpawnGrenade := none, SpawnProjectile := true,
    PlayerStarts := ⟨[⟨⟨⟨100, 200, 0⟩, ⟨0, 90, 0⟩⟩⟩, ⟨⟨⟨-300, 0, 50⟩, ⟨0, 0, 0⟩⟩⟩], 2⟩ }

/-! ## Predicates used to state the theorems -/

/-- The scene component that carries the weapon of a slot (`BeginPlay`, lines 130-146). -/
def sceneComponentOf : EWeaponMode → USceneComponent
  | .MainWeapon => .MainWeaponSceneComponent
  | .SecondWeapon => .SecondWeaponSceneComponent
  | .ThirdWeapon => .ThirdWeaponSceneComponent

/-- The hand socket member of a slot. -/
def handSocketOf : EWeaponMode → SocketName
  | .MainWeapon => .MainWeaponSocketName
  | .SecondWeapon => .SecondWeaponSocketName
  | .ThirdWeapon => .ThirdWeaponSocketName

/-- The back socket member of a slot. -/
def backSocketOf : EWeaponMode → SocketName
  | .MainWeapon => .BackMainWeaponSocketName
  | .SecondWeapon => .BackSecondWeaponSocketName
  | .ThirdWeapon => .BackThirdWeaponSocketName

/-- A fire request: `StartFire`, `Fire` or `FireOfDelay` on a weapon or on the
first-person camera. -/
def Call.isFireRequest : Call → Bool
  | .weapon _ .StartFire => true
  | .weapon _ .Fire => true
  | .weapon _ .FireOfDelay => true
  | .fpsCamera .StartFire => true
  | .fpsCamera .Fire => true
  | .fpsCamera .FireOfDelay => true
  | _ => false

/-- The precondition shared by the toggling theorems: `CheckStatus(true, true)`
holds and the three weapons and the first-person camera are non-null. -/
def Ready (s : AMultiShootGameCharacter) : Prop :=
  CheckStatus true true s = true ∧
    s.CurrentMainWeapon.isSome = true ∧ s.CurrentSecondWeapon.isSome = true ∧
    s.CurrentThirdWeapon.isSome = true ∧ s.CurrentFPSCamera.isSome = true

/-! ## Operations and runs used to state the death theorems -/

/-- Partial-correctness postcondition of a result. -/
def Post (r : Exec) (P : AMultiShootGameCharacter → Prop) : Prop :=
  ∀ s', r = .ok s' → P s'

/-- Total-correctness postcondition of a result: it is a state, and the state
satisfies `P`. -/
def Total (r : Exec) (P : AMultiShootGameCharacter → Prop) : Prop :=
  ∃ s', r = .ok s' ∧ P s'

/-- The embedded member functions of the player character, with their arguments. -/
inductive Operation where
  | StartFire | StopFire | BeginFastRun | EndFastRun | BeginAim | EndAim
  | Fire_Server_Implementation (WeaponInfo : FWeaponInfo) (MuzzleLocation : FVector)
      (ShotTargetDirection : FRotator) (MuzzleSocketName : String)
  | BeginReload | BeginSecondWeaponReload | BeginThrowGrenade | EndThrowGrenade | ThrowGrenade
  | SpawnGrenade | SpawnGrenade_Server_Implementation | KnifeAttack
  | BeginKnifeAttack_Server_Implementation | EndKnifeAttack_Server_Implementation
  | EndReload | ReloadShowClip (Enabled : Bool)
  | ToggleMainWeapon | ToggleSecondWeapon | ToggleThirdWeapon | ToggleWeaponUp | ToggleWeaponDown
  | ToggleWeaponBegin | ToggleWeaponEnd | FillUpWeaponBullet
  | ToggleView | ToggleFirstPersonView | ToggleThirdPersonView | Inspect
  | HeadShot (DamageCauser : ADamageCauser)
  | EndAction (CheckToggleView : Bool) | HandleWalkSpeed (FastRun : Bool)
  | SetAimed_Server_Implementation (Value : Bool)
  | SetFastRun_Server_Implementation (Value : Bool)
  | SetToggleView_Server_Implementation (Value : Bool)
  | CheckShowSight (DeltaSeconds : Rat)
  | SetWalkSpeed_Server_Implementation (Value : Int)
  | SetWeaponMode_Server_Implementation (Value : EWeaponMode)
  | SetBeginThrowGrenade_Server_Implementation (Value : Bool)
  | SetThrowingGrenade_Server_Implementation (Value : Bool)
  | SetSpawnGrenade_Server_Implementation (Value : Bool)
  | SetKnifeAttack_Server_Implementation (Value : Bool)
  | SetGrenadeCount_Server_Implementation (Value : Int)
  | AttachWeapon_Server_Implementation | PutBackWeapon_Server_Implementation
  | PlayAnimMontage_Server_Implementation (AnimMontage : UAnimMontage)
      (InPlayRate : Option Nat) (StartSectionName : Option String)
  | Death_Server_Implementation
  | OnHealthChanged (Health : Rat) (DamageCauser : ADamageCauser)
  | Destroyed | OnEnemyKilled | OnHeadshot | OnDeath
  | BeginPlay
  | ThrowGrenadeOut (LookAtRotation : FRotator) (IsFalling : Bool)
  | ThrowGrenadeOut_Server_Implementation (Direction : FRotator) (MultiThrow : Bool)
  | Reborn_Server_Implementation (Draw : Nat)

/-- Run one member function on a character. -/
def Operation.run : Operation → AMultiShootGameCharacter → Exec
  | .StartFire, s => AMultiShootGameCharacter.StartFire s
  | .StopFire, s => AMultiShootGameCharacter.StopFire s
  | .BeginFastRun, s => .ok (AMultiShootGameCharacter.BeginFastRun s)
  | .EndFastRun, s => .ok (AMultiShootGameCharacter.EndFastRun s)
  | .BeginAim, s => AMultiShootGameCharacter.BeginAim s
  | .EndAim, s => AMultiShootGameCharacter.EndAim s
  | .Fire_Server_Implementation i l r n, s =>
    .ok (AMultiShootGameCharacter.Fire_Server_Implementation i l r n s)
  | .BeginReload, s => AMultiShootGameCharacter.BeginReload s
  | .BeginSecondWeaponReload, s => AMultiShootGameCharacter.BeginSecondWeaponReload s
  | .BeginThrowGrenade, s => AMultiShootGameCharacter.BeginThrowGrenade s
  | .EndThrowGrenade, s => .ok (AMultiShootGameCharacter.EndThrowGrenade s)
  | .ThrowGrenade, s => AMultiShootGameCharacter.ThrowGrenade s
  | .SpawnGrenade, s => .ok (AMultiShootGameCharacter.SpawnGrenade s)
  | .SpawnGrenade_Server_Implementation, s =>
    .ok (AMultiShootGameCharacter.SpawnGrenade_Server_Implementation s)
  | .KnifeAttack, s => AMultiShootGameCharacter.KnifeAttack s
  | .BeginKnifeAttack_Server_Implementation, s =>
    .ok (AMultiShootGameCharacter.BeginKnifeAttack_Server_Implementation s)
  | .EndKnifeAttack_Server_Implementation, s =>
    .ok (AMultiShootGameCharacter.EndKnifeAttack_Server_Implementation s)
  | .EndReload, s => AMultiShootGameCharacter.EndReload s
  | .ReloadShowClip b, s => AMultiShootGameCharacter.ReloadShowClip b s
  | .ToggleMainWeapon, s => AMultiShootGameCharacter.ToggleMainWeapon s
  | .ToggleSecondWeapon, s => AMultiShootGameCharacter.ToggleSecondWeapon s
  | .ToggleThirdWeapon, s => AMultiShootGameCharacter.ToggleThirdWeapon s
  | .ToggleWeaponUp, s => AMultiShootGameCharacter.ToggleWeaponUp s
  | .ToggleWeaponDown, s => AMultiShootGameCharacter.ToggleWeaponDown s
  | .ToggleWeaponBegin, s => .ok (AMultiShootGameCharacter.ToggleWeaponBegin s)
  | .ToggleWeaponEnd, s => .ok (AMultiShootGameCharacter.ToggleWeaponEnd s)
  | .FillUpWeaponBullet, s => AMultiShootGameCharacter.FillUpWeaponBullet s
  | .ToggleView, s => AMultiShootGameCharacter.ToggleView s
  | .ToggleFirstPersonView, s => AMultiShootGameCharacter.ToggleFirstPersonView s
  | .ToggleThirdPersonView, s => AMultiShootGameCharacter.ToggleThirdPersonView s
  | .Inspect, s => AMultiShootGameCharacter.Inspect s
  | .HeadShot c, s => .ok (AMultiShootGameCharacter.HeadShot c s).1
  | .EndAction b, s => AMultiShootGameCharacter.EndAction b s
  | .HandleWalkSpeed b, s => .ok (AMultiShootGameCharacter.HandleWalkSpeed b s)
  | .SetAimed_Server_Implementation v, s =>
    .ok (AMultiShootGameCharacter.SetAimed_Server_Implementation v s)
  | .SetFastRun_Server_Implementation v, s =>
    .ok (AMultiShootGameCharacter.SetFastRun_Server_Implementation v s)
  | .SetToggleView_Server_Implementation v, s =>
    .ok (AMultiShootGameCharacter.SetToggleView_Server_Implementation v s)
  | .CheckShowSight d, s => .ok (AMultiShootGameCharacter.CheckShowSight d s)
  | .SetWalkSpeed_Server_Implementation v, s =>
    .ok (AMultiShootGameCharacter.SetWalkSpeed_Server_Implementation v s)
  | .SetWeaponMode_Server_Implementation v, s =>
    .ok (AMultiShootGameCharacter.SetWeaponMode_Server_Implementation v s)
  | .SetBeginThrowGrenade_Server_Implementation v, s =>
    .ok (AMultiShootGameCharacter.SetBeginThrowGrenade_Server_Implementation v s)
  | .SetThrowingGrenade_Server_Implementation v, s =>
    .ok (AMultiShootGameCharacter.SetThrowingGrenade_Server_Implementation v s)
  | .SetSpawnGrenade_Server_Implementation v, s =>
    .ok (AMultiShootGameCharacter.SetSpawnGrenade_Server_Implementation v s)
  | .SetKnifeAttack_Server_Implementation v, s =>
    .ok (AMultiShootGameCharacter.SetKnifeAttack_Server_Implementation v s)
  | .SetGrenadeCount_Server_Implementation v, s =>
    .ok (AMultiShootGameCharacter.SetGrenadeCount_Server_Implementation v s)
  | .AttachWeapon_Server_Implementation, s =>
    .ok (AMultiShootGameCharacter.AttachWeapon_Server_Implementation s)
  | .PutBackWeapon_Server_Implementation, s =>
    .ok (AMultiShootGameCharacter.PutBackWeapon_Server_Implementation s)
  | .PlayAnimMontage_Server_Implementation m r n, s =>
    .ok (AMultiShootGameCharacter.PlayAnimMontage_Server_Implementation m r n s)
  | .Death_Server_Implementation, s =>
    .ok (AMultiShootGameCharacter.Death_Server_Implementation s)
  | .OnHealthChanged h c, s => .ok (AMultiShootGameCharacter.OnHealthChanged h c s).1
  | .Destroyed, s => AMultiShootGameCharacter.Destroyed s
  | .OnEnemyKilled, s => .ok (AMultiShootGameCharacter.OnEnemyKilled s)
  | .OnHeadshot, s => .ok (AMultiShootGameCharacter.OnHeadshot s)
  | .OnDeath, s => .ok (AMultiShootGameCharacter.OnDeath s)
  | .BeginPlay, s => AMultiShootGameCharacter.BeginPlay s
  | .ThrowGrenadeOut r f, s => AMultiShootGameCharacter.ThrowGrenadeOut r f s
  | .ThrowGrenadeOut_Server_Implementation r f, s =>
    AMultiShootGameCharacter.ThrowGrenadeOut_Server_Implementation r f s
  | .Reborn_Server_Implementation Draw, s =>
    AMultiShootGameCharacter.Reborn_Server_Implementation Draw s

/-- A run of `OnHealthChanged` calls on one player character. -/
def AMultiShootGameCharacter.runOnHealthChanged :
    List (Rat × ADamageCauser) → AMultiShootGameCharacter → AMultiShootGameCharacter
  | [], s => s
  | (Health, DamageCauser) :: rest, s =>
    AMultiShootGameCharacter.runOnHealthChanged rest (OnHealthChanged Health DamageCauser s).1

/-- A run of `OnHealthChanged` calls on one enemy character; it stops at the
first call that faults. -/
def AMultiShootGameEnemyCharacter.runOnHealthChanged :
    List (Rat × Option AMultiShootGameCharacter) → AMultiShootGameEnemyCharacter →
      Except Fault AMultiShootGameEnemyCharacter
  | [], e => .ok e
  | (Health, DamageCauser) :: rest, e =>
    match AMultiShootGameEnemyCharacter.OnHealthChanged Health DamageCauser e with
    | .ok r => AMultiShootGameEnemyCharacter.runOnHealthChanged rest r.1
    | .error f => .error f

/-- The embedded member functions of the enemy character. -/
inductive EnemyOperation where
  | BeginPlay | StartFire | StopFire | DeathDestroy
  | OnHeadShot (DamageCauser : Option AMultiShootGameCharacter)
  | OnHealthChanged (Health : Rat) (DamageCauser : Option AMultiShootGameCharacter)

/-- Run one member function on an enemy. -/
def EnemyOperation.run : EnemyOperation → AMultiShootGameEnemyCharacter →
    Except Fault AMultiShootGameEnemyCharacter
  | .BeginPlay, e => AMultiShootGameEnemyCharacter.BeginPlay e
  | .StartFire, e => AMultiShootGameEnemyCharacter.StartFire e
  | .StopFire, e => AMultiShootGameEnemyCharacter.StopFire e
  | .DeathDestroy, e => .ok (AMultiShootGameEnemyCharacter.DeathDestroy e)
  | .OnHeadShot c, e => .ok (AMultiShootGameEnemyCharacter.OnHeadShot c e).1
  | .OnHealthChanged h c, e =>
    (AMultiShootGameEnemyCharacter.OnHealthChanged h c e).map Prod.fst

/-- The three calls issued only by the death branch of the player's `OnHealthChanged`. -/
def isDeathMark (m : Call) : Prop :=
  m = .server .Death ∨ m = .damageCauser .OnEnemyKilled ∨ m = .playerState .AddDeath_Server

/-- The calls issued only by the death branch of the enemy's `OnHealthChanged`. -/
def isEnemyDeathMark (m : EnemyCall) : Prop :=
  m = .playDeathMontage ∨ m = .causerOnEnemyKilled ∨ m = .setDeathDestroyTimer

/-! ## Theorems -/

/-- A failed unconditional status check fails for every argument pair. -/
theorem CheckStatus_false_of_base (s : AMultiShootGameCharacter)
    (h : CheckStatus false false s = false) (a b : Bool) : CheckStatus a b s = false := by
  unfold CheckStatus at h ⊢
  by_cases hc : (s.HealthComponent.bDied || s.bDetectingClimb || s.bReloading || s.bToggleWeapon ||
      s.bSecondWeaponReloading || s.bThrowingGrenade || s.bKnifeAttack) = true
  · simp [hc]
  · simp [hc] at h

/-- The status check, spelled out flag by flag. -/
theorem CheckStatus_eq_true_iff (a b : Bool) (s : AMultiShootGameCharacter) :
    CheckStatus a b s = true ↔
      (s.HealthComponent.bDied = false ∧ s.bDetectingClimb = false ∧ s.bReloading = false ∧
        s.bToggleWeapon = false ∧ s.bSecondWeaponReloading = false ∧
        s.bThrowingGrenade = false ∧ s.bKnifeAttack = false ∧
        (a = true → s.bAimed = false) ∧ (b = true → s.bBeginThrowGrenade = false)) := by
  unfold CheckStatus
  cases s.HealthComponent.bDied <;> cases s.bDetectingClimb <;> cases s.bReloading <;>
    cases s.bToggleWeapon <;> cases s.bSecondWeaponReloading <;> cases s.bThrowingGrenade <;>
    cases s.bKnifeAttack <;> cases s.bAimed <;> cases s.bBeginThrowGrenade <;>
    cases a <;> cases b <;> simp

/-- C1. With each `_Server` RPC run as an immediate call of its
`_Implementation`, each of the nine replicated setters stores the value it is
given in its own member and in no other: the implementation returns the state
with exactly that member replaced, and the RPC entry point differs from it only
by the record of the RPC in the ghost call log. -/
theorem C1_server_setters_store_value_verbatim (s : AMultiShootGameCharacter) (v : Bool)
    (m : EWeaponMode) (n : Int) :
    (SetAimed_Server_Implementation v s = { s with bAimed := v } ∧
      SetFastRun_Server_Implementation v s = { s with bFastRun := v } ∧
      SetToggleView_Server_Implementation v s = { s with bToggleView := v } ∧
      SetWeaponMode_Server_Implementation m s = { s with WeaponMode := m } ∧
      SetBeginThrowGrenade_Server_Implementation v s = { s with bBeginThrowGrenade := v } ∧
      SetThrowingGrenade_Server_Implementation v s = { s with bThrowingGrenade := v } ∧
      SetSpawnGrenade_Server_Implementation v s = { s with bSpawnGrenade := v } ∧
      SetKnifeAttack_Server_Implementation v s = { s with bKnifeAttack := v } ∧
      SetGrenadeCount_Server_Implementation n s = { s with GrenadeCount := n }) ∧
    (SetAimed_Server v s =
        { s with bAimed := v, calls := s.calls ++ [.server (.SetAimed v)] } ∧
      SetFastRun_Server v s =
        { s with bFastRun := v, calls := s.calls ++ [.server (.SetFastRun v)] } ∧
      SetToggleView_Server v s =
        { s with bToggleView := v, calls := s.calls ++ [.server (.SetToggleView v)] } ∧
      SetWeaponMode_Server m s =
        { s with WeaponMode := m, calls := s.calls ++ [.server (.SetWeaponMode m)] } ∧
      SetBeginThrowGrenade_Server v s =
        { s with bBeginThrowGrenade := v,
                 calls := s.calls ++ [.server (.SetBeginThrowGrenade v)] } ∧
      SetThrowingGrenade_Server v s =
        { s with bThrowingGrenade := v,
                 calls := s.calls ++ [.server (.SetThrowingGrenade v)] } ∧
      SetSpawnGrenade_Server v s =
        { s with bSpawnGrenade := v, calls := s.calls ++ [.server (.SetSpawnGrenade v)] } ∧
      SetKnifeAttack_Server v s =
        { s with bKnifeAttack := v, calls := s.calls ++ [.server (.SetKnifeAttack v)] } ∧
      SetGrenadeCount_Server n s =
        { s with GrenadeCount := n, calls := s.calls ++ [.server (.SetGrenadeCount n)] }) :=
  ⟨⟨rfl, rfl, rfl, rfl, rfl, rfl, rfl, rfl, rfl⟩, ⟨rfl, rfl, rfl, rfl, rfl, rfl, rfl, rfl, rfl⟩⟩

/-- C7. `CheckStatus(CheckAimed, CheckThrowGrenade)` is true exactly when the
death flag and the six busy flags are all false, `bAimed` is false whenever
`CheckAimed` is set, and `bBeginThrowGrenade` is false whenever
`CheckThrowGrenade` is set; and `CheckStatus(true, true)` implies
`CheckStatus(a, b)` for all `a`, `b`.  The function only reads the state: it
is a pure function of it. -/
theorem C7_CheckStatus_characterisation (CheckAimed CheckThrowGrenade : Bool)
    (s : AMultiShootGameCharacter) :
    (CheckStatus CheckAimed CheckThrowGrenade s = true ↔
      (s.HealthComponent.bDied = false ∧ s.bDetectingClimb = false ∧ s.bReloading = false ∧
        s.bToggleWeapon = false ∧ s.bSecondWeaponReloading = false ∧
        s.bThrowingGrenade = false ∧ s.bKnifeAttack = false ∧
        (CheckAimed = true → s.bAimed = false) ∧
        (CheckThrowGrenade = true → s.bBeginThrowGrenade = false))) ∧
    (CheckStatus true true s = true → ∀ a b : Bool, CheckStatus a b s = true) := by
  refine ⟨CheckStatus_eq_true_iff CheckAimed CheckThrowGrenade s, fun h a b => ?_⟩
  obtain ⟨h1, h2, h3, h4, h5, h6, h7, h8, h9⟩ := (CheckStatus_eq_true_iff true true s).1 h
  exact (CheckStatus_eq_true_iff a b s).2
    ⟨h1, h2, h3, h4, h5, h6, h7, fun _ => h8 rfl, fun _ => h9 rfl⟩

/-- C8. Action gating: when `CheckStatus(false, false)` is false, each of the
fifteen gated handlers returns normally with the character state unchanged and
with nothing added to the call log (no call on a weapon, on the first-person
camera, or of an RPC). -/
theorem C8_gated_handlers_do_nothing (s : AMultiShootGameCharacter)
    (h : CheckStatus false false s = false) :
    StartFire s = .ok s ∧ BeginAim s = .ok s ∧ EndAim s = .ok s ∧ BeginReload s = .ok s ∧
    BeginSecondWeaponReload s = .ok s ∧ BeginThrowGrenade s = .ok s ∧ ThrowGrenade s = .ok s ∧
    KnifeAttack s = .ok s ∧ ToggleMainWeapon s = .ok s ∧ ToggleSecondWeapon s = .ok s ∧
    ToggleThirdWeapon s = .ok s ∧ ToggleWeaponUp s = .ok s ∧ ToggleWeaponDown s = .ok s ∧
    ToggleView s = .ok s ∧ Inspect s = .ok s := by
  have h1 := CheckStatus_false_of_base s h false true
  have h2 := CheckStatus_false_of_base s h true true
  have hM : ToggleMainWeapon s = .ok s := by simp [ToggleMainWeapon, h2]; rfl
  have hS : ToggleSecondWeapon s = .ok s := by simp [ToggleSecondWeapon, h2]; rfl
  have hT : ToggleThirdWeapon s = .ok s := by simp [ToggleThirdWeapon, h2]; rfl
  refine ⟨?_, ?_, ?_, ?_, ?_, ?_, ?_, ?_, hM, hS, hT, ?_, ?_, ?_, ?_⟩
  · simp [StartFire, h1]; rfl
  · simp [BeginAim, h1]; rfl
  · simp [EndAim, h1]; rfl
  · simp [BeginReload, h1]; rfl
  · simp [BeginSecondWeaponReload, h1]; rfl
  · simp [BeginThrowGrenade, h]; rfl
  · simp [ThrowGrenade, h]; rfl
  · simp [KnifeAttack, h1]; rfl
  · unfold ToggleWeaponUp; cases s.WeaponMode <;> simp [hM, hS, hT]
  · unfold ToggleWeaponDown; cases s.WeaponMode <;> simp [hM, hS, hT]
  · simp [ToggleView, h2]; rfl
  · simp [Inspect, h2]; rfl

/-- Witness for C8 on a character that is reloading. -/
theorem C8_gated_handlers_do_nothing_witness :
    StartFire reloadingCharacter = .ok reloadingCharacter ∧
    BeginAim reloadingCharacter = .ok reloadingCharacter ∧
    EndAim reloadingCharacter = .ok reloadingCharacter ∧
    BeginReload reloadingCharacter = .ok reloadingCharacter ∧
    BeginSecondWeaponReload reloadingCharacter = .ok reloadingCharacter ∧
    BeginThrowGrenade reloadingCharacter = .ok reloadingCharacter ∧
    ThrowGrenade reloadingCharacter = .ok reloadingCharacter ∧
    KnifeAttack reloadingCharacter = .ok reloadingCharacter ∧
    ToggleMainWeapon reloadingCharacter = .ok reloadingCharacter ∧
    ToggleSecondWeapon reloadingCharacter = .ok reloadingCharacter ∧
    ToggleThirdWeapon reloadingCharacter = .ok reloadingCharacter ∧
    ToggleWeaponUp reloadingCharacter = .ok reloadingCharacter ∧
    ToggleWeaponDown reloadingCharacter = .ok reloadingCharacter ∧
    ToggleView reloadingCharacter = .ok reloadingCharacter ∧
    Inspect reloadingCharacter = .ok reloadingCharacter :=
  C8_gated_handlers_do_nothing reloadingCharacter (by decide)

/-- C2, evaluated at the failing input: with a null `CurrentFPSCamera` and no
action in progress, `StartFire` stops on the unguarded
`CurrentFPSCamera->InspectEnd()` of line 190, before the null check of line 219. -/
theorem C2_StartFire_dereferences_null_camera :
    StartFire cameraLessCharacter = .error (.nullDeref .CurrentFPSCamera) := by
  rfl

/-- C3. `Destroyed` is guarded: if any of the three weapons or the
first-person camera is null it returns with nothing destroyed and the widget
left in place; if all four are non-null it destroys each of them exactly once
and destroys the grenade exactly when `CurrentGrenade` is non-null. -/
theorem C3_Destroyed_is_guarded (s : AMultiShootGameCharacter) :
    ((s.CurrentMainWeapon = none ∨ s.CurrentSecondWeapon = none ∨ s.CurrentThirdWeapon = none ∨
        s.CurrentFPSCamera = none) → Destroyed s = .ok s) ∧
    ((s.CurrentMainWeapon ≠ none ∧ s.CurrentSecondWeapon ≠ none ∧ s.CurrentThirdWeapon ≠ none ∧
        s.CurrentFPSCamera ≠ none) →
      ∃ evs, Destroyed s = .ok { s with calls := s.calls ++ evs } ∧
        evs.count (.weapon .MainWeapon .Destroy) = 1 ∧
        evs.count (.weapon .SecondWeapon .Destroy) = 1 ∧
        evs.count (.weapon .ThirdWeapon .Destroy) = 1 ∧
        evs.count (.fpsCamera .Destroy) = 1 ∧
        evs.count (.grenade .Destroy) = (if s.CurrentGrenade = none then 0 else 1)) := by
  constructor
  · intro h
    have hg : (s.CurrentMainWeapon.isNone || s.CurrentSecondWeapon.isNone ||
        s.CurrentThirdWeapon.isNone || s.CurrentFPSCamera.isNone) = true := by
      rcases h with h | h | h | h <;> simp [h]
    unfold Destroyed
    rw [if_pos hg]
    rfl
  · rintro ⟨hM, hS, hT, hC⟩
    obtain ⟨wM, hM⟩ := Option.ne_none_iff_exists'.1 hM
    obtain ⟨wS, hS⟩ := Option.ne_none_iff_exists'.1 hS
    obtain ⟨wT, hT⟩ := Option.ne_none_iff_exists'.1 hT
    obtain ⟨cam, hC⟩ := Option.ne_none_iff_exists'.1 hC
    refine ⟨[.weapon .MainWeapon .Destroy, .weapon .SecondWeapon .Destroy,
      .weapon .ThirdWeapon .Destroy, .fpsCamera .Destroy] ++
      (if s.CurrentGrenade = none then [] else [.grenade .Destroy]) ++
      (if s.bLocallyControlled then [.engine .WidgetRemoveFromParent] else []) ++
      [.engine .SuperDestroyed], ?_, ?_⟩
    · cases hG : s.CurrentGrenade <;> cases hL : s.bLocallyControlled <;>
        simp [Destroyed, hM, hS, hT, hC, hG, hL, callWeapon, callCamera, callGrenade, weaponAt,
          emit, bind, Except.bind, pure, Except.pure]
    · cases hG : s.CurrentGrenade <;> cases hL : s.bLocallyControlled <;> simp

/-- C4, evaluated at the failing input: `BeginPlay` with a failed weapon spawn
leaves `CurrentWeapon` null, and a lethal `OnHealthChanged` on that enemy then
stops on the unguarded `CurrentWeapon->EnablePhysicsSimulate()` of line 161. -/
theorem C4_enemy_OnHealthChanged_dereferences_null_weapon :
    AMultiShootGameEnemyCharacter.BeginPlay freshEnemy = .ok unarmedEnemy ∧
    AMultiShootGameEnemyCharacter.OnHealthChanged 0 none unarmedEnemy =
      .error (.nullDeref .CurrentWeapon) := by
  constructor
  · rfl
  · simp [AMultiShootGameEnemyCharacter.OnHealthChanged, unarmedEnemy,
      AMultiShootGameEnemyCharacter.callWeapon, AMultiShootGameEnemyCharacter.emit,
      bind, Except.bind]

/-- C5. The action table built by `SetupPlayerInputComponent` is the incoming
table followed by `characterActionRows`; these rows bind "Fire" pressed to
`StartFire` and released to `StopFire`, "Aim" pressed to `BeginAim` and released
to `EndAim`, "ToggleCrouch" pressed to `ToggleCrouch`, and no (action name, key
event) pair occurs in two rows. -/
theorem C5_input_binding_table (c : UInputComponent) :
    (∃ t, SetupPlayerInputComponent (some c) = .ok t ∧
      t.ActionBindings = c.ActionBindings ++ characterActionRows) ∧
    ⟨"Fire", .IE_Pressed, .StartFire⟩ ∈ characterActionRows ∧
    ⟨"Fire", .IE_Released, .StopFire⟩ ∈ characterActionRows ∧
    ⟨"Aim", .IE_Pressed, .BeginAim⟩ ∈ characterActionRows ∧
    ⟨"Aim", .IE_Released, .EndAim⟩ ∈ characterActionRows ∧
    ⟨"ToggleCrouch", .IE_Pressed, .ToggleCrouch⟩ ∈ characterActionRows ∧
    (characterActionRows.map (fun b => (b.ActionName, b.KeyEvent))).Nodup := by
  refine ⟨⟨_, rfl, ?_⟩, ?_, ?_, ?_, ?_, ?_, ?_⟩
  · simp [UInputComponent.BindAction, UInputComponent.BindAxis, characterActionRows]
  all_goals decide

/-- C6. `Fire_Server_Implementation` requests one projectile spawn of
`WeaponInfo.ProjectileClass` at `MuzzleLocation` with rotation
`ShotTargetDirection`; it calls `ProjectileInitialize(WeaponInfo.BaseDamage)`
exactly when the spawn returned a non-null actor; and in both cases it invokes
`Fire_Multicast` exactly once, with the same `WeaponInfo` and
`MuzzleSocketName`.  Nothing but the call log changes. -/
theorem C6_Fire_Server_Implementation_calls (WeaponInfo : FWeaponInfo) (MuzzleLocation : FVector)
    (ShotTargetDirection : FRotator) (MuzzleSocketName : String) (s : AMultiShootGameCharacter) :
    ∃ evs, Fire_Server_Implementation WeaponInfo MuzzleLocation ShotTargetDirection
        MuzzleSocketName s = { s with calls := s.calls ++ evs } ∧
      (∀ cls loc rot, evs.count (.engine (.SpawnProjectileActor cls loc rot)) =
        if WeaponInfo.ProjectileClass = cls ∧ MuzzleLocation = loc ∧ ShotTargetDirection = rot
        then 1 else 0) ∧
      (∀ dmg, evs.count (.projectile (.ProjectileInitialize dmg)) =
        if s.World.SpawnProjectile = true ∧ WeaponInfo.BaseDamage = dmg then 1 else 0) ∧
      (∀ info socket, evs.count (.multicast (.Fire info socket)) =
        if WeaponInfo = info ∧ MuzzleSocketName = socket then 1 else 0) := by
  refine ⟨[.engine (.SpawnProjectileActor WeaponInfo.ProjectileClass MuzzleLocation
      ShotTargetDirection)] ++
    (if s.World.SpawnProjectile then [.projectile (.ProjectileInitialize WeaponInfo.BaseDamage)]
      else []) ++ [.multicast (.Fire WeaponInfo MuzzleSocketName)], ?_, ?_, ?_, ?_⟩
  · cases h : s.World.SpawnProjectile <;>
      simp [Fire_Server_Implementation, Fire_Multicast, emit, h]
  · intro cls loc rot
    cases h : s.World.SpawnProjectile <;> simp [List.count_cons]
  · intro dmg
    cases h : s.World.SpawnProjectile <;> simp [List.count_cons]
  · intro info socket
    cases h : s.World.SpawnProjectile <;> simp [List.count_cons]

/-- The flags and pointers a ready character is known to have. -/
theorem Ready.facts {s : AMultiShootGameCharacter} (h : Ready s) :
    s.HealthComponent.bDied = false ∧ s.bDetectingClimb = false ∧ s.bReloading = false ∧
      s.bToggleWeapon = false ∧ s.bSecondWeaponReloading = false ∧
      s.bThrowingGrenade = false ∧ s.bKnifeAttack = false ∧ s.bAimed = false ∧
      s.bBeginThrowGrenade = false ∧
      (∃ wM, s.CurrentMainWeapon = some wM) ∧ (∃ wS, s.CurrentSecondWeapon = some wS) ∧
      (∃ wT, s.CurrentThirdWeapon = some wT) ∧ (∃ cam, s.CurrentFPSCamera = some cam) := by
  obtain ⟨hst, hM, hS, hT, hC⟩ := h
  obtain ⟨h1, h2, h3, h4, h5, h6, h7, h8, h9⟩ := (CheckStatus_eq_true_iff true true s).1 hst
  exact ⟨h1, h2, h3, h4, h5, h6, h7, h8 rfl, h9 rfl, Option.isSome_iff_exists.1 hM,
    Option.isSome_iff_exists.1 hS, Option.isSome_iff_exists.1 hT, Option.isSome_iff_exists.1 hC⟩

/-- Effect of `ToggleMainWeapon` on a ready character holding another weapon. -/
theorem ToggleMainWeapon_of_Ready (s : AMultiShootGameCharacter) (wM : AMultiShootGameWeapon)
    (hW : s.CurrentMainWeapon = some wM) (h : Ready s) (hne : s.WeaponMode ≠ .MainWeapon) :
    ∃ s' evs, ToggleMainWeapon s = .ok s' ∧ s'.WeaponMode = .MainWeapon ∧
      s'.bToggleWeapon = true ∧ s'.bFired = false ∧ s'.bFastRun = s.bFastRun ∧
      s'.calls = s.calls ++ evs ∧ .fpsCamera (.SetWeaponInfo wM.WeaponInfo) ∈ evs ∧
      Ready (ToggleWeaponEnd s') := by
  obtain ⟨h1, h2, h3, h4, h5, h6, h7, h8, h9, ⟨wM', hM⟩, ⟨wS, hS⟩, ⟨wT, hT⟩, ⟨cam, hC⟩⟩ := h.facts
  obtain rfl : wM' = wM := by rw [hW] at hM; exact (Option.some.inj hM).symm
  cases hf : s.bFired <;> cases hm : s.WeaponMode <;>
    simp_all [ToggleMainWeapon, Ready, ToggleWeaponEnd, CheckStatus, EndAction, StopFire,
      callCamera, callWeapon, weaponAt, readWeaponInfo, emit, HandleWalkSpeed,
      SetWeaponMode_Server, SetWeaponMode_Server_Implementation,
      PlayAnimMontage_Server, PlayAnimMontage_Server_Implementation, PlayAnimMontage_Multicast,
      SetFastRun_Server, SetFastRun_Server_Implementation,
      SetWalkSpeed_Server, SetWalkSpeed_Server_Implementation,
      SetBeginThrowGrenade_Server, SetBeginThrowGrenade_Server_Implementation,
      SetThrowingGrenade_Server, SetThrowingGrenade_Server_Implementation,
      SetSpawnGrenade_Server, SetSpawnGrenade_Server_Implementation,
      SetKnifeAttack_Server, SetKnifeAttack_Server_Implementation,
      bind, Except.bind, pure, Except.pure]

/-- Effect of `ToggleSecondWeapon` on a ready character holding another weapon. -/
theorem ToggleSecondWeapon_of_Ready (s : AMultiShootGameCharacter) (w : AMultiShootGameWeapon)
    (hW : s.CurrentSecondWeapon = some w) (h : Ready s) (hne : s.WeaponMode ≠ .SecondWeapon) :
    ∃ s' evs, ToggleSecondWeapon s = .ok s' ∧ s'.WeaponMode = .SecondWeapon ∧
      s'.bToggleWeapon = true ∧ s'.bFired = false ∧ s'.bFastRun = s.bFastRun ∧
      s'.calls = s.calls ++ evs ∧ .fpsCamera (.SetWeaponInfo w.WeaponInfo) ∈ evs ∧
      Ready (ToggleWeaponEnd s') := by
  obtain ⟨h1, h2, h3, h4, h5, h6, h7, h8, h9, ⟨wM, hM⟩, ⟨wS, hS⟩, ⟨wT, hT⟩, ⟨cam, hC⟩⟩ := h.facts
  obtain rfl : wS = w := by rw [hW] at hS; exact (Option.some.inj hS).symm
  cases hf : s.bFired <;> cases hm : s.WeaponMode <;>
    simp_all [ToggleSecondWeapon, Ready, ToggleWeaponEnd, CheckStatus, EndAction, StopFire,
      callCamera, callWeapon, weaponAt, readWeaponInfo, emit, HandleWalkSpeed,
      SetWeaponMode_Server, SetWeaponMode_Server_Implementation,
      PlayAnimMontage_Server, PlayAnimMontage_Server_Implementation, PlayAnimMontage_Multicast,
      SetFastRun_Server, SetFastRun_Server_Implementation,
      SetWalkSpeed_Server, SetWalkSpeed_Server_Implementation,
      SetBeginThrowGrenade_Server, SetBeginThrowGrenade_Server_Implementation,
      SetThrowingGrenade_Server, SetThrowingGrenade_Server_Implementation,
      SetSpawnGrenade_Server, SetSpawnGrenade_Server_Implementation,
      SetKnifeAttack_Server, SetKnifeAttack_Server_Implementation,
      bind, Except.bind, pure, Except.pure]

/-- Effect of `ToggleThirdWeapon` on a ready character holding another weapon. -/
theorem ToggleThirdWeapon_of_Ready (s : AMultiShootGameCharacter) (w : AMultiShootGameWeapon)
    (hW : s.CurrentThirdWeapon = some w) (h : Ready s) (hne : s.WeaponMode ≠ .ThirdWeapon) :
    ∃ s' evs, ToggleThirdWeapon s = .ok s' ∧ s'.WeaponMode = .ThirdWeapon ∧
      s'.bToggleWeapon = true ∧ s'.bFired = false ∧ s'.bFastRun = s.bFastRun ∧
      s'.calls = s.calls ++ evs ∧ .fpsCamera (.SetWeaponInfo w.WeaponInfo) ∈ evs ∧
      Ready (ToggleWeaponEnd s') := by
  obtain ⟨h1, h2, h3, h4, h5, h6, h7, h8, h9, ⟨wM, hM⟩, ⟨wS, hS⟩, ⟨wT, hT⟩, ⟨cam, hC⟩⟩ := h.facts
  obtain rfl : wT = w := by rw [hW] at hT; exact (Option.some.inj hT).symm
  cases hf : s.bFired <;> cases hm : s.WeaponMode <;>
    simp_all [ToggleThirdWeapon, Ready, ToggleWeaponEnd, CheckStatus, EndAction, StopFire,
      callCamera, callWeapon, weaponAt, readWeaponInfo, emit, HandleWalkSpeed,
      SetWeaponMode_Server, SetWeaponMode_Server_Implementation,
      PlayAnimMontage_Server, PlayAnimMontage_Server_Implementation, PlayAnimMontage_Multicast,
      SetFastRun_Server, SetFastRun_Server_Implementation,
      SetWalkSpeed_Server, SetWalkSpeed_Server_Implementation,
      SetBeginThrowGrenade_Server, SetBeginThrowGrenade_Server_Implementation,
      SetThrowingGrenade_Server, SetThrowingGrenade_Server_Implementation,
      SetSpawnGrenade_Server, SetSpawnGrenade_Server_Implementation,
      SetKnifeAttack_Server, SetKnifeAttack_Server_Implementation,
      bind, Except.bind, pure, Except.pure]

/-- Effect of `ToggleWeaponDown` on a ready character: the mode moves one step
down the cycle and, once `ToggleWeaponEnd` has run, the character is ready again. -/
theorem ToggleWeaponDown_of_Ready (s : AMultiShootGameCharacter) (h : Ready s) :
    ∃ s', ToggleWeaponDown s = .ok s' ∧
      s'.WeaponMode = (match s.WeaponMode with
        | .MainWeapon => .SecondWeapon
        | .SecondWeapon => .ThirdWeapon
        | .ThirdWeapon => .MainWeapon) ∧
      Ready (ToggleWeaponEnd s') := by
  obtain ⟨_, _, _, _, _, _, _, _, _, ⟨wM, hM⟩, ⟨wS, hS⟩, ⟨wT, hT⟩, _⟩ := h.facts
  unfold ToggleWeaponDown
  cases hm : s.WeaponMode
  · obtain ⟨s', _, h1, h2, _, _, _, _, _, h3⟩ :=
      ToggleSecondWeapon_of_Ready s wS hS h (by simp [hm])
    exact ⟨s', h1, h2, h3⟩
  · obtain ⟨s', _, h1, h2, _, _, _, _, _, h3⟩ :=
      ToggleThirdWeapon_of_Ready s wT hT h (by simp [hm])
    exact ⟨s', h1, h2, h3⟩
  · obtain ⟨s', _, h1, h2, _, _, _, _, _, h3⟩ :=
      ToggleMainWeapon_of_Ready s wM hM h (by simp [hm])
    exact ⟨s', h1, h2, h3⟩

/-- Effect of `ToggleWeaponUp` on a ready character: the mode moves one step up
the cycle and, once `ToggleWeaponEnd` has run, the character is ready again. -/
theorem ToggleWeaponUp_of_Ready (s : AMultiShootGameCharacter) (h : Ready s) :
    ∃ s', ToggleWeaponUp s = .ok s' ∧
      s'.WeaponMode = (match s.WeaponMode with
        | .MainWeapon => .ThirdWeapon
        | .SecondWeapon => .MainWeapon
        | .ThirdWeapon => .SecondWeapon) ∧
      Ready (ToggleWeaponEnd s') := by
  obtain ⟨_, _, _, _, _, _, _, _, _, ⟨wM, hM⟩, ⟨wS, hS⟩, ⟨wT, hT⟩, _⟩ := h.facts
  unfold ToggleWeaponUp
  cases hm : s.WeaponMode
  · obtain ⟨s', _, h1, h2, _, _, _, _, _, h3⟩ :=
      ToggleThirdWeapon_of_Ready s wT hT h (by simp [hm])
    exact ⟨s', h1, h2, h3⟩
  · obtain ⟨s', _, h1, h2, _, _, _, _, _, h3⟩ :=
      ToggleMainWeapon_of_Ready s wM hM h (by simp [hm])
    exact ⟨s', h1, h2, h3⟩
  · obtain ⟨s', _, h1, h2, _, _, _, _, _, h3⟩ :=
      ToggleSecondWeapon_of_Ready s wS hS h (by simp [hm])
    exact ⟨s', h1, h2, h3⟩

/-- The function `ToggleWeaponEnd` leaves the weapon mode alone. -/
theorem ToggleWeaponEnd_WeaponMode (s : AMultiShootGameCharacter) :
    (ToggleWeaponEnd s).WeaponMode = s.WeaponMode := by
  simp [ToggleWeaponEnd, emit,
    SetBeginThrowGrenade_Server, SetBeginThrowGrenade_Server_Implementation,
    SetThrowingGrenade_Server, SetThrowingGrenade_Server_Implementation,
    SetSpawnGrenade_Server, SetSpawnGrenade_Server_Implementation,
    SetKnifeAttack_Server, SetKnifeAttack_Server_Implementation]

/-- C9. Weapon toggling, RPCs immediate and all spawned actors non-null: for
each of `ToggleMainWeapon`, `ToggleSecondWeapon`, `ToggleThirdWeapon` with its
target mode `T`: if `CheckStatus(true, true)` holds and `WeaponMode` differs
from `T`, then the handler returns with `WeaponMode = T`, `bToggleWeapon` true,
`bFired` false, `bFastRun` unchanged, and among the calls it issued is
`CurrentFPSCamera->SetWeaponInfo` with the `WeaponInfo` of weapon `T`; if
`WeaponMode` is `T` already, the handler returns the state unchanged. -/
theorem C9_weapon_toggling (s : AMultiShootGameCharacter) (wM wS wT : AMultiShootGameWeapon)
    (cam : AMultiShootGameFPSCamera) (hM : s.CurrentMainWeapon = some wM)
    (hS : s.CurrentSecondWeapon = some wS) (hT : s.CurrentThirdWeapon = some wT)
    (hC : s.CurrentFPSCamera = some cam) :
    ((CheckStatus true true s = true → s.WeaponMode ≠ .MainWeapon →
        ∃ s' evs, ToggleMainWeapon s = .ok s' ∧ s'.WeaponMode = .MainWeapon ∧
          s'.bToggleWeapon = true ∧ s'.bFired = false ∧ s'.bFastRun = s.bFastRun ∧
          s'.calls = s.calls ++ evs ∧ .fpsCamera (.SetWeaponInfo wM.WeaponInfo) ∈ evs) ∧
      (s.WeaponMode = .MainWeapon → ToggleMainWeapon s = .ok s)) ∧
    ((CheckStatus true true s = true → s.WeaponMode ≠ .SecondWeapon →
        ∃ s' evs, ToggleSecondWeapon s = .ok s' ∧ s'.WeaponMode = .SecondWeapon ∧
          s'.bToggleWeapon = true ∧ s'.bFired = false ∧ s'.bFastRun = s.bFastRun ∧
          s'.calls = s.calls ++ evs ∧ .fpsCamera (.SetWeaponInfo wS.WeaponInfo) ∈ evs) ∧
      (s.WeaponMode = .SecondWeapon → ToggleSecondWeapon s = .ok s)) ∧
    ((CheckStatus true true s = true → s.WeaponMode ≠ .ThirdWeapon →
        ∃ s' evs, ToggleThirdWeapon s = .ok s' ∧ s'.WeaponMode = .ThirdWeapon ∧
          s'.bToggleWeapon = true ∧ s'.bFired = false ∧ s'.bFastRun = s.bFastRun ∧
          s'.calls = s.calls ++ evs ∧ .fpsCamera (.SetWeaponInfo wT.WeaponInfo) ∈ evs) ∧
      (s.WeaponMode = .ThirdWeapon → ToggleThirdWeapon s = .ok s)) := by
  have hR : CheckStatus true true s = true → Ready s := fun hst =>
    ⟨hst, by simp [hM], by simp [hS], by simp [hT], by simp [hC]⟩
  refine ⟨⟨fun hst hne => ?_, fun hm => ?_⟩, ⟨fun hst hne => ?_, fun hm => ?_⟩,
    ⟨fun hst hne => ?_, fun hm => ?_⟩⟩
  · obtain ⟨s', evs, h1, h2, h3, h4, h5, h6, h7, _⟩ :=
      ToggleMainWeapon_of_Ready s wM hM (hR hst) hne
    exact ⟨s', evs, h1, h2, h3, h4, h5, h6, h7⟩
  · unfold ToggleMainWeapon
    cases CheckStatus true true s <;> simp [hm] <;> rfl
  · obtain ⟨s', evs, h1, h2, h3, h4, h5, h6, h7, _⟩ :=
      ToggleSecondWeapon_of_Ready s wS hS (hR hst) hne
    exact ⟨s', evs, h1, h2, h3, h4, h5, h6, h7⟩
  · unfold ToggleSecondWeapon
    cases CheckStatus true true s <;> simp [hm] <;> rfl
  · obtain ⟨s', evs, h1, h2, h3, h4, h5, h6, h7, _⟩ :=
      ToggleThirdWeapon_of_Ready s wT hT (hR hst) hne
    exact ⟨s', evs, h1, h2, h3, h4, h5, h6, h7⟩
  · unfold ToggleThirdWeapon
    cases CheckStatus true true s <;> simp [hm] <;> rfl

/-- C10. `ToggleWeaponDown` steps the mode MainWeapon, SecondWeapon,
ThirdWeapon, MainWeapon and `ToggleWeaponUp` steps it the other way round.
From every state in which `CheckStatus(true, true)` holds and all spawned
actors are non-null, `ToggleWeaponDown; ToggleWeaponEnd; ToggleWeaponUp`
restores the original `WeaponMode`, so does
`ToggleWeaponUp; ToggleWeaponEnd; ToggleWeaponDown`, and so do three rounds of
`ToggleWeaponDown; ToggleWeaponEnd`. -/
theorem C10_toggle_up_down_cycle (s : AMultiShootGameCharacter) (wM wS wT : AMultiShootGameWeapon)
    (cam : AMultiShootGameFPSCamera) (hM : s.CurrentMainWeapon = some wM)
    (hS : s.CurrentSecondWeapon = some wS) (hT : s.CurrentThirdWeapon = some wT)
    (hC : s.CurrentFPSCamera = some cam) (hst : CheckStatus true true s = true) :
    (∃ d, ToggleWeaponDown s = .ok d ∧
      d.WeaponMode = (match s.WeaponMode with
        | .MainWeapon => .SecondWeapon
        | .SecondWeapon => .ThirdWeapon
        | .ThirdWeapon => .MainWeapon) ∧
      ∃ u, ToggleWeaponUp (ToggleWeaponEnd d) = .ok u ∧ u.WeaponMode = s.WeaponMode) ∧
    (∃ u, ToggleWeaponUp s = .ok u ∧
      u.WeaponMode = (match s.WeaponMode with
        | .MainWeapon => .ThirdWeapon
        | .SecondWeapon => .MainWeapon
        | .ThirdWeapon => .SecondWeapon) ∧
      ∃ d, ToggleWeaponDown (ToggleWeaponEnd u) = .ok d ∧ d.WeaponMode = s.WeaponMode) ∧
    (∃ a b c, ToggleWeaponDown s = .ok a ∧ ToggleWeaponDown (ToggleWeaponEnd a) = .ok b ∧
      ToggleWeaponDown (ToggleWeaponEnd b) = .ok c ∧
      (ToggleWeaponEnd c).WeaponMode = s.WeaponMode) := by
  have hR : Ready s := ⟨hst, by simp [hM], by simp [hS], by simp [hT], by simp [hC]⟩
  refine ⟨?_, ?_, ?_⟩
  · obtain ⟨d, hd, hdm, hdr⟩ := ToggleWeaponDown_of_Ready s hR
    obtain ⟨u, hu, hum, _⟩ := ToggleWeaponUp_of_Ready _ hdr
    refine ⟨d, hd, hdm, u, hu, ?_⟩
    rw [hum, ToggleWeaponEnd_WeaponMode, hdm]
    cases s.WeaponMode <;> rfl
  · obtain ⟨u, hu, hum, hur⟩ := ToggleWeaponUp_of_Ready s hR
    obtain ⟨d, hd, hdm, _⟩ := ToggleWeaponDown_of_Ready _ hur
    refine ⟨u, hu, hum, d, hd, ?_⟩
    rw [hdm, ToggleWeaponEnd_WeaponMode, hum]
    cases s.WeaponMode <;> rfl
  · obtain ⟨a, ha, ham, har⟩ := ToggleWeaponDown_of_Ready s hR
    obtain ⟨b, hb, hbm, hbr⟩ := ToggleWeaponDown_of_Ready _ har
    obtain ⟨c, hc, hcm, _⟩ := ToggleWeaponDown_of_Ready _ hbr
    refine ⟨a, b, c, ha, hb, hc, ?_⟩
    rw [ToggleWeaponEnd_WeaponMode, hcm, ToggleWeaponEnd_WeaponMode, hbm,
      ToggleWeaponEnd_WeaponMode, ham]
    cases s.WeaponMode <;> rfl

/-- Witness for C9 on the idle character, which holds the main weapon. -/
theorem C9_weapon_toggling_witness :
    CheckStatus true true idleCharacter = true ∧ idleCharacter.WeaponMode ≠ .SecondWeapon ∧
    (∃ s' evs, ToggleSecondWeapon idleCharacter = .ok s' ∧ s'.WeaponMode = .SecondWeapon ∧
      s'.bToggleWeapon = true ∧ s'.bFired = false ∧ s'.bFastRun = idleCharacter.bFastRun ∧
      s'.calls = idleCharacter.calls ++ evs ∧
      .fpsCamera (.SetWeaponInfo secondWeaponInfo) ∈ evs) ∧
    ToggleMainWeapon idleCharacter = .ok idleCharacter :=
  have h := C9_weapon_toggling idleCharacter ⟨mainWeaponInfo, false⟩ ⟨secondWeaponInfo, false⟩
    ⟨thirdWeaponInfo, false⟩ ⟨false⟩ rfl rfl rfl rfl
  ⟨by decide, by decide, h.2.1.1 (by decide) (by decide), h.1.2 rfl⟩

/-- Witness for C10 on the idle character. -/
theorem C10_toggle_up_down_cycle_witness :
    (∃ d, ToggleWeaponDown idleCharacter = .ok d ∧
      d.WeaponMode = (match idleCharacter.WeaponMode with
        | .MainWeapon => .SecondWeapon
        | .SecondWeapon => .ThirdWeapon
        | .ThirdWeapon => .MainWeapon) ∧
      ∃ u, ToggleWeaponUp (ToggleWeaponEnd d) = .ok u ∧
        u.WeaponMode = idleCharacter.WeaponMode) ∧
    (∃ u, ToggleWeaponUp idleCharacter = .ok u ∧
      u.WeaponMode = (match idleCharacter.WeaponMode with
        | .MainWeapon => .ThirdWeapon
        | .SecondWeapon => .MainWeapon
        | .ThirdWeapon => .SecondWeapon) ∧
      ∃ d, ToggleWeaponDown (ToggleWeaponEnd u) = .ok d ∧
        d.WeaponMode = idleCharacter.WeaponMode) ∧
    (∃ a b c, ToggleWeaponDown idleCharacter = .ok a ∧
      ToggleWeaponDown (ToggleWeaponEnd a) = .ok b ∧
      ToggleWeaponDown (ToggleWeaponEnd b) = .ok c ∧
      (ToggleWeaponEnd c).WeaponMode = idleCharacter.WeaponMode) :=
  C10_toggle_up_down_cycle idleCharacter ⟨mainWeaponInfo, false⟩ ⟨secondWeaponInfo, false⟩
    ⟨thirdWeaponInfo, false⟩ ⟨false⟩ rfl rfl rfl rfl (by decide)

/-- Witness for C3: with a null camera nothing is destroyed; with all four
actors and a grenade present each is destroyed once. -/
theorem C3_Destroyed_is_guarded_witness :
    Destroyed cameraLessCharacter = .ok cameraLessCharacter ∧
    ∃ evs, Destroyed grenadeCharacter =
        .ok { grenadeCharacter with calls := grenadeCharacter.calls ++ evs } ∧
      evs.count (.weapon .MainWeapon .Destroy) = 1 ∧
      evs.count (.weapon .SecondWeapon .Destroy) = 1 ∧
      evs.count (.weapon .ThirdWeapon .Destroy) = 1 ∧
      evs.count (.fpsCamera .Destroy) = 1 ∧
      evs.count (.grenade .Destroy) = (if grenadeCharacter.CurrentGrenade = none then 0 else 1) :=
  ⟨(C3_Destroyed_is_guarded cameraLessCharacter).1 (Or.inr (Or.inr (Or.inr rfl))),
    (C3_Destroyed_is_guarded grenadeCharacter).2 ⟨by decide, by decide, by decide, by decide⟩⟩

/-- Witness for C7: the idle character passes every status check, the
reloading one fails the strictest. -/
theorem C7_CheckStatus_characterisation_witness :
    CheckStatus true true idleCharacter = true ∧
    (∀ a b : Bool, CheckStatus a b idleCharacter = true) ∧
    ¬ CheckStatus true true reloadingCharacter = true :=
  ⟨by decide, (C7_CheckStatus_characterisation true true idleCharacter).2 (by decide),
    fun h => absurd
      (((C7_CheckStatus_characterisation true true reloadingCharacter).1.1 h).2.2.1)
      (by decide)⟩

/-- The weapon pointers in `StartFire` are all guarded: with a non-null
first-person camera, `StartFire` returns normally whichever weapons are null. -/
theorem StartFire_returns_of_camera (s : AMultiShootGameCharacter)
    (cam : AMultiShootGameFPSCamera) (hC : s.CurrentFPSCamera = some cam) :
    ∃ s', StartFire s = .ok s' := by
  cases hst : CheckStatus false true s
  · exact ⟨s, by simp [StartFire, hst]; rfl⟩
  · obtain ⟨h1, h2, h3, h4, h5, h6, h7, -, h9⟩ := (CheckStatus_eq_true_iff false true s).1 hst
    have h9 := h9 rfl
    cases hm : s.WeaponMode <;> cases hA : s.bAimed <;> cases hV : s.bToggleView <;>
      cases hM : s.CurrentMainWeapon <;> cases hS : s.CurrentSecondWeapon <;>
      cases hT : s.CurrentThirdWeapon <;>
      simp_all [StartFire, BeginSecondWeaponReload, CheckStatus, EndAction, StopFire,
        callCamera, callWeapon, weaponAt, emit,
        PlayAnimMontage_Server, PlayAnimMontage_Server_Implementation,
        PlayAnimMontage_Multicast, bind, Except.bind, pure, Except.pure]

/-- The guarded enemy handlers: `StartFire` and `StopFire` return normally in
every state, and `OnHealthChanged` does whenever the death branch is not taken. -/
theorem enemy_guarded_handlers_return (e : AMultiShootGameEnemyCharacter) (Health : Rat)
    (DamageCauser : Option AMultiShootGameCharacter) :
    (∃ e', AMultiShootGameEnemyCharacter.StartFire e = .ok e') ∧
    (∃ e', AMultiShootGameEnemyCharacter.StopFire e = .ok e') ∧
    (¬ (Health ≤ 0 ∧ e.HealthComponent.bDied = false) →
      AMultiShootGameEnemyCharacter.OnHealthChanged Health DamageCauser e =
        .ok (e, DamageCauser)) := by
  refine ⟨?_, ?_, ?_⟩
  · cases h : e.CurrentWeapon <;>
      simp [AMultiShootGameEnemyCharacter.StartFire, AMultiShootGameEnemyCharacter.callWeapon,
        h, pure, Except.pure]
  · cases h : e.CurrentWeapon <;>
      simp [AMultiShootGameEnemyCharacter.StopFire, AMultiShootGameEnemyCharacter.callWeapon,
        h, pure, Except.pure]
  · intro h
    have h' : ¬ (Health ≤ 0 ∧ (!e.HealthComponent.bDied) = true) := by simpa using h
    unfold AMultiShootGameEnemyCharacter.OnHealthChanged
    rw [if_neg h']
    rfl

/-- C11. `ToggleWeaponEnd` releases the action lock: in every state it leaves
`bToggleWeapon`, `bBeginThrowGrenade`, `bThrowingGrenade`, `bSpawnGrenade` and
`bKnifeAttack` false and keeps `WeaponMode`, `bAimed`, `bFired`, `bToggleView`,
`bReloading`, `bSecondWeaponReloading`, `bFastRun` and `GrenadeCount`; so if the
character has not died, is not detecting a climb and is not reloading on entry,
`CheckStatus(false, true)` is true on return. -/
theorem C11_ToggleWeaponEnd_releases_lock (s : AMultiShootGameCharacter) :
    ((ToggleWeaponEnd s).bToggleWeapon = false ∧ (ToggleWeaponEnd s).bBeginThrowGrenade = false ∧
      (ToggleWeaponEnd s).bThrowingGrenade = false ∧ (ToggleWeaponEnd s).bSpawnGrenade = false ∧
      (ToggleWeaponEnd s).bKnifeAttack = false) ∧
    ((ToggleWeaponEnd s).WeaponMode = s.WeaponMode ∧ (ToggleWeaponEnd s).bAimed = s.bAimed ∧
      (ToggleWeaponEnd s).bFired = s.bFired ∧ (ToggleWeaponEnd s).bToggleView = s.bToggleView ∧
      (ToggleWeaponEnd s).bReloading = s.bReloading ∧
      (ToggleWeaponEnd s).bSecondWeaponReloading = s.bSecondWeaponReloading ∧
      (ToggleWeaponEnd s).bFastRun = s.bFastRun ∧
      (ToggleWeaponEnd s).GrenadeCount = s.GrenadeCount) ∧
    (s.HealthComponent.bDied = false → s.bDetectingClimb = false → s.bReloading = false →
      s.bSecondWeaponReloading = false → CheckStatus false true (ToggleWeaponEnd s) = true) := by
  refine ⟨?_, ?_, ?_⟩
  · simp [ToggleWeaponEnd, emit,
      SetBeginThrowGrenade_Server, SetBeginThrowGrenade_Server_Implementation,
      SetThrowingGrenade_Server, SetThrowingGrenade_Server_Implementation,
      SetSpawnGrenade_Server, SetSpawnGrenade_Server_Implementation,
      SetKnifeAttack_Server, SetKnifeAttack_Server_Implementation]
  · simp [ToggleWeaponEnd, emit,
      SetBeginThrowGrenade_Server, SetBeginThrowGrenade_Server_Implementation,
      SetThrowingGrenade_Server, SetThrowingGrenade_Server_Implementation,
      SetSpawnGrenade_Server, SetSpawnGrenade_Server_Implementation,
      SetKnifeAttack_Server, SetKnifeAttack_Server_Implementation]
  · intro h1 h2 h3 h4
    simp [CheckStatus, ToggleWeaponEnd, emit, h1, h2, h3, h4,
      SetBeginThrowGrenade_Server, SetBeginThrowGrenade_Server_Implementation,
      SetThrowingGrenade_Server, SetThrowingGrenade_Server_Implementation,
      SetSpawnGrenade_Server, SetSpawnGrenade_Server_Implementation,
      SetKnifeAttack_Server, SetKnifeAttack_Server_Implementation]

/-- Witness for C11 on a character finishing a knife attack. -/
theorem C11_ToggleWeaponEnd_releases_lock_witness :
    CheckStatus false true knifeCharacter = false ∧
    CheckStatus false true (ToggleWeaponEnd knifeCharacter) = true :=
  ⟨by decide, (C11_ToggleWeaponEnd_releases_lock knifeCharacter).2.2 rfl rfl rfl rfl⟩

/-- `BeginReload` never ends the aim: from every state in which
`CheckStatus(false, true)` holds, `bAimed` is true and the spawned actors are
non-null, it returns with `bReloading` true and `bAimed` still true, because
`EndAim` is entered with `bReloading` already set and leaves at its own guard. -/
theorem BeginReload_keeps_aim (s : AMultiShootGameCharacter) (wM wS wT : AMultiShootGameWeapon)
    (cam : AMultiShootGameFPSCamera) (hM : s.CurrentMainWeapon = some wM)
    (hS : s.CurrentSecondWeapon = some wS) (hT : s.CurrentThirdWeapon = some wT)
    (hC : s.CurrentFPSCamera = some cam) (hst : CheckStatus false true s = true)
    (hA : s.bAimed = true) :
    ∃ s', BeginReload s = .ok s' ∧ s'.bReloading = true ∧ s'.bAimed = true := by
  obtain ⟨h1, h2, h3, h4, h5, h6, h7, -, h9⟩ := (CheckStatus_eq_true_iff false true s).1 hst
  have h9 := h9 rfl
  cases hf : s.bFired <;> cases hm : s.WeaponMode <;>
    by_cases hbM : 0 < wM.WeaponInfo.MaxBulletNumber <;>
    by_cases hbS : 0 < wS.WeaponInfo.MaxBulletNumber <;>
    by_cases hbT : 0 < wT.WeaponInfo.MaxBulletNumber <;>
    simp [BeginReload, EndAction, EndAim, StopFire, CheckStatus, callCamera, callWeapon,
      weaponAt, readWeaponInfo, emit, PlayAnimMontage_Server,
      PlayAnimMontage_Server_Implementation, PlayAnimMontage_Multicast,
      bind, Except.bind, pure, Except.pure, hM, hS, hT, hC, hA, h1, h2, h3, h4, h5, h6, h7, h9,
      hf, hm, hbM, hbS, hbT]

/-- C12, evaluated at the failing input: on an aimed character with every
spawned actor present and `CheckStatus(false, true)` true, `BeginReload` returns
with `bReloading` true and `bAimed` still true. -/
theorem C12_BeginReload_leaves_character_aimed :
    CheckStatus false true aimedCharacter = true ∧ aimedCharacter.bAimed = true ∧
    ∃ s', BeginReload aimedCharacter = .ok s' ∧ s'.bReloading = true ∧ s'.bAimed = true :=
  ⟨by decide, rfl,
    BeginReload_keeps_aim aimedCharacter ⟨mainWeaponInfo, false⟩ ⟨secondWeaponInfo, false⟩
      ⟨thirdWeaponInfo, false⟩ ⟨false⟩ rfl rfl rfl rfl (by decide) rfl⟩

/-- The number of reload-montage requests `BeginReload` issues, mode by mode. -/
theorem BeginReload_montage_requests (s : AMultiShootGameCharacter)
    (wM wS wT : AMultiShootGameWeapon)
    (cam : AMultiShootGameFPSCamera) (hM : s.CurrentMainWeapon = some wM)
    (hS : s.CurrentSecondWeapon = some wS) (hT : s.CurrentThirdWeapon = some wT)
    (hC : s.CurrentFPSCamera = some cam) (hst : CheckStatus false true s = true) :
    ∃ s' evs, BeginReload s = .ok s' ∧ s'.calls = s.calls ++ evs ∧
      evs.count (.server (.PlayAnimMontage .ReloadAnimMontage none none)) =
        (match s.WeaponMode with
          | .MainWeapon => (if 0 < wM.WeaponInfo.MaxBulletNumber then 1 else 0) +
              (if 0 < wS.WeaponInfo.MaxBulletNumber then 1 else 0)
          | .SecondWeapon => if 0 < wS.WeaponInfo.MaxBulletNumber then 1 else 0
          | .ThirdWeapon => 0) ∧
      evs.count (.server (.PlayAnimMontage .ThirdWeaponReloadAnimMontage none none)) =
        (match s.WeaponMode with
          | .MainWeapon => 0
          | .SecondWeapon => 0
          | .ThirdWeapon => if 0 < wT.WeaponInfo.MaxBulletNumber then 1 else 0) := by
  obtain ⟨h1, h2, h3, h4, h5, h6, h7, -, h9⟩ := (CheckStatus_eq_true_iff false true s).1 hst
  have h9 := h9 rfl
  cases hA : s.bAimed <;> cases hf : s.bFired <;> cases hm : s.WeaponMode <;>
    by_cases hbM : 0 < wM.WeaponInfo.MaxBulletNumber <;>
    by_cases hbS : 0 < wS.WeaponInfo.MaxBulletNumber <;>
    by_cases hbT : 0 < wT.WeaponInfo.MaxBulletNumber <;>
    simp [BeginReload, EndAction, EndAim, StopFire, CheckStatus, callCamera, callWeapon,
      weaponAt, readWeaponInfo, emit, PlayAnimMontage_Server,
      PlayAnimMontage_Server_Implementation, PlayAnimMontage_Multicast,
      bind, Except.bind, pure, Except.pure, hM, hS, hT, hC, hA, h1, h2, h3, h4, h5, h6, h7, h9,
      hf, hm, hbM, hbS, hbT, List.count_cons]

/-- C13, evaluated at two failing inputs in `MainWeapon` mode: with reserve
ammunition in both the main and the second weapon the reload montage is
requested twice, and with none in the main weapon but some in the second it is
still requested once; the `MainWeapon` case of the `switch` has no `break`. -/
theorem C13_BeginReload_falls_through_to_second_weapon :
    CheckStatus false true idleCharacter = true ∧ idleCharacter.WeaponMode = .MainWeapon ∧
    (∃ s' evs, BeginReload idleCharacter = .ok s' ∧ s'.calls = idleCharacter.calls ++ evs ∧
      evs.count (.server (.PlayAnimMontage .ReloadAnimMontage none none)) = 2) ∧
    CheckStatus false true emptyMainCharacter = true ∧
    emptyMainCharacter.WeaponMode = .MainWeapon ∧
    (∃ s' evs, BeginReload emptyMainCharacter = .ok s' ∧
      s'.calls = emptyMainCharacter.calls ++ evs ∧
      evs.count (.server (.PlayAnimMontage .ReloadAnimMontage none none)) = 1) := by
  refine ⟨by decide, rfl, ?_, by decide, rfl, ?_⟩
  · obtain ⟨s', evs, h1, h2, h3, _⟩ :=
      BeginReload_montage_requests idleCharacter ⟨mainWeaponInfo, false⟩
        ⟨secondWeaponInfo, false⟩ ⟨thirdWeaponInfo, false⟩ ⟨false⟩ rfl rfl rfl rfl (by decide)
    exact ⟨s', evs, h1, h2, by rw [h3]; decide⟩
  · obtain ⟨s', evs, h1, h2, h3, _⟩ :=
      BeginReload_montage_requests emptyMainCharacter
        ⟨{ mainWeaponInfo with MaxBulletNumber := 0 }, false⟩
        ⟨secondWeaponInfo, false⟩ ⟨thirdWeaponInfo, false⟩ ⟨false⟩ rfl rfl rfl rfl (by decide)
    exact ⟨s', evs, h1, h2, by rw [h3]; decide⟩

/-- C14, counterexample: on a character holding the second weapon, with
`CheckStatus(false, true)` true and every spawned actor present, `StartFire`
returns with `bFired` false. -/
theorem C14_StartFire_second_weapon_clears_bFired :
    CheckStatus false true secondWeaponCharacter = true ∧
    secondWeaponCharacter.CurrentMainWeapon ≠ none ∧
    secondWeaponCharacter.CurrentSecondWeapon ≠ none ∧
    secondWeaponCharacter.CurrentThirdWeapon ≠ none ∧
    secondWeaponCharacter.CurrentFPSCamera ≠ none ∧
    ∃ s', StartFire secondWeaponCharacter = .ok s' ∧ s'.bFired = false := by
  refine ⟨by decide, by decide, by decide, by decide, by decide, ?_⟩
  simp [StartFire, BeginSecondWeaponReload, CheckStatus, EndAction, StopFire,
    callCamera, callWeapon, weaponAt, emit, secondWeaponCharacter, idleCharacter,
    PlayAnimMontage_Server, PlayAnimMontage_Server_Implementation,
    PlayAnimMontage_Multicast, bind, Except.bind, pure, Except.pure]

/-- C14, amended. From every state in which `CheckStatus(false, true)` holds
and the spawned actors are non-null, `StartFire` returns with `bFired` true in
`MainWeapon` and `ThirdWeapon` mode; in `SecondWeapon` mode it goes on into
`BeginSecondWeaponReload`, whose `EndAction` stops the fire, and returns with
`bFired` false and `bSecondWeaponReloading` true.  `StopFire` returns with
`bFired` false from every state, with no status check. -/
theorem C14_StartFire_bFired_by_mode (s : AMultiShootGameCharacter)
    (wM wS wT : AMultiShootGameWeapon)
    (cam : AMultiShootGameFPSCamera) (hM : s.CurrentMainWeapon = some wM)
    (hS : s.CurrentSecondWeapon = some wS) (hT : s.CurrentThirdWeapon = some wT)
    (hC : s.CurrentFPSCamera = some cam) (hst : CheckStatus false true s = true) :
    (∃ s', StartFire s = .ok s' ∧
      (s.WeaponMode = .MainWeapon → s'.bFired = true) ∧
      (s.WeaponMode = .ThirdWeapon → s'.bFired = true) ∧
      (s.WeaponMode = .SecondWeapon → s'.bFired = false ∧ s'.bSecondWeaponReloading = true)) ∧
    (∀ t : AMultiShootGameCharacter, ∃ t', StopFire t = .ok t' ∧ t'.bFired = false) := by
  obtain ⟨h1, h2, h3, h4, h5, h6, h7, -, h9⟩ := (CheckStatus_eq_true_iff false true s).1 hst
  have h9 := h9 rfl
  constructor
  · cases hm : s.WeaponMode <;> cases hA : s.bAimed <;> cases hV : s.bToggleView <;>
      simp [StartFire, BeginSecondWeaponReload, CheckStatus, EndAction, StopFire,
        callCamera, callWeapon, weaponAt, emit,
        PlayAnimMontage_Server, PlayAnimMontage_Server_Implementation,
        PlayAnimMontage_Multicast, bind, Except.bind, pure, Except.pure,
        hM, hS, hT, hC, h1, h2, h3, h4, h5, h6, h7, h9, hm, hA, hV]
  · intro t
    cases hm : t.WeaponMode <;> cases hW : t.CurrentMainWeapon <;>
      cases hK : t.CurrentFPSCamera <;>
      simp [StopFire, callCamera, callWeapon, weaponAt, emit, bind, Except.bind, pure,
        Except.pure, hm, hW, hK]

/-- Witness for C14 on the idle character. -/
theorem C14_StartFire_bFired_by_mode_witness :
    (∃ s', StartFire idleCharacter = .ok s' ∧
      (idleCharacter.WeaponMode = .MainWeapon → s'.bFired = true) ∧
      (idleCharacter.WeaponMode = .ThirdWeapon → s'.bFired = true) ∧
      (idleCharacter.WeaponMode = .SecondWeapon →
        s'.bFired = false ∧ s'.bSecondWeaponReloading = true)) ∧
    (∀ t : AMultiShootGameCharacter, ∃ t', StopFire t = .ok t' ∧ t'.bFired = false) :=
  C14_StartFire_bFired_by_mode idleCharacter ⟨mainWeaponInfo, false⟩ ⟨secondWeaponInfo, false⟩
    ⟨thirdWeaponInfo, false⟩ ⟨false⟩ rfl rfl rfl rfl (by decide)

/-- C15. From every state in which `CheckStatus(false, true)` holds and the
spawned actors are non-null, `StartFire` issues exactly one fire request: when
the character is neither aimed nor in first-person view it is `StartFire`,
`Fire` or `FireOfDelay` on the weapon of the current mode, otherwise the same
call on the first-person camera.  `BeginSecondWeaponReload` runs exactly in
`SecondWeapon` mode: only then is `bSecondWeaponReloading` set and the second
weapon's reload montage requested. -/
theorem C15_StartFire_dispatch (s : AMultiShootGameCharacter)
    (wM wS wT : AMultiShootGameWeapon)
    (cam : AMultiShootGameFPSCamera) (hM : s.CurrentMainWeapon = some wM)
    (hS : s.CurrentSecondWeapon = some wS) (hT : s.CurrentThirdWeapon = some wT)
    (hC : s.CurrentFPSCamera = some cam) (hst : CheckStatus false true s = true) :
    ∃ s' evs, StartFire s = .ok s' ∧ s'.calls = s.calls ++ evs ∧
      evs.filter Call.isFireRequest =
        [if s.bAimed = false ∧ s.bToggleView = false then
            (match s.WeaponMode with
              | .MainWeapon => Call.weapon .MainWeapon .StartFire
              | .SecondWeapon => Call.weapon .SecondWeapon .Fire
              | .ThirdWeapon => Call.weapon .ThirdWeapon .FireOfDelay)
          else
            (match s.WeaponMode with
              | .MainWeapon => Call.fpsCamera .StartFire
              | .SecondWeapon => Call.fpsCamera .Fire
              | .ThirdWeapon => Call.fpsCamera .FireOfDelay)] ∧
      (s'.bSecondWeaponReloading = true ↔ s.WeaponMode = .SecondWeapon) ∧
      evs.count (.server (.PlayAnimMontage .SecondWeaponReloadAnimMontage none none)) =
        (if s.WeaponMode = .SecondWeapon then 1 else 0) := by
  obtain ⟨h1, h2, h3, h4, h5, h6, h7, -, h9⟩ := (CheckStatus_eq_true_iff false true s).1 hst
  have h9 := h9 rfl
  cases hm : s.WeaponMode <;> cases hA : s.bAimed <;> cases hV : s.bToggleView <;>
    simp [StartFire, BeginSecondWeaponReload, CheckStatus, EndAction, StopFire,
      callCamera, callWeapon, weaponAt, emit, Call.isFireRequest,
      PlayAnimMontage_Server, PlayAnimMontage_Server_Implementation,
      PlayAnimMontage_Multicast, bind, Except.bind, pure, Except.pure,
      hM, hS, hT, hC, h1, h2, h3, h4, h5, h6, h7, h9, hm, hA, hV, List.count_cons,
      List.filter_cons]

set_option maxHeartbeats 1600000 in
/-- C16. From every state in which `CheckStatus(false, true)` holds and the
spawned actors are non-null, `KnifeAttack` returns with `bKnifeAttack` true and
`bAimed`, `bToggleView`, `bFired` all false, so `CheckStatus(a, b)` is false for
all `a`, `b`; and it stays false in any state where `bKnifeAttack` is true. -/
theorem C16_KnifeAttack_cancels_actions (s : AMultiShootGameCharacter)
    (wM wS wT : AMultiShootGameWeapon)
    (cam : AMultiShootGameFPSCamera) (hM : s.CurrentMainWeapon = some wM)
    (hS : s.CurrentSecondWeapon = some wS) (hT : s.CurrentThirdWeapon = some wT)
    (hC : s.CurrentFPSCamera = some cam) (hst : CheckStatus false true s = true) :
    (∃ s', KnifeAttack s = .ok s' ∧ s'.bKnifeAttack = true ∧ s'.bAimed = false ∧
      s'.bToggleView = false ∧ s'.bFired = false ∧
      ∀ a b : Bool, CheckStatus a b s' = false) ∧
    (∀ t : AMultiShootGameCharacter, t.bKnifeAttack = true →
      ∀ a b : Bool, CheckStatus a b t = false) := by
  obtain ⟨h1, h2, h3, h4, h5, h6, h7, -, h9⟩ := (CheckStatus_eq_true_iff false true s).1 hst
  have h9 := h9 rfl
  constructor
  · cases hm : s.WeaponMode <;> cases hA : s.bAimed <;> cases hV : s.bToggleView <;>
      cases hf : s.bFired <;>
      simp [KnifeAttack, CheckStatus, EndAction, EndAim, ToggleThirdPersonView, StopFire,
        callCamera, callWeapon, weaponAt, emit,
        SetAimed_Server, SetAimed_Server_Implementation,
        SetToggleView_Server, SetToggleView_Server_Implementation,
        SetKnifeAttack_Server, SetKnifeAttack_Server_Implementation,
        PlayAnimMontage_Server, PlayAnimMontage_Server_Implementation,
        PlayAnimMontage_Multicast, bind, Except.bind, pure, Except.pure,
        hM, hS, hT, hC, h1, h2, h3, h4, h5, h6, h7, h9, hm, hA, hV, hf]
  · intro t ht a b
    simp [CheckStatus, ht]

/-- C17. With `GrenadeCount == 0` both `BeginThrowGrenade` and `ThrowGrenade`
return the state as it was, call log included (no montage, no put-back, no
spawn); so does `BeginThrowGrenade` when `bBeginThrowGrenade` or
`bThrowingGrenade` is already true, and `ThrowGrenade` when `bThrowingGrenade`
is already true. -/
theorem C17_no_grenade_no_throw (s : AMultiShootGameCharacter) :
    (s.GrenadeCount = 0 → BeginThrowGrenade s = .ok s ∧ ThrowGrenade s = .ok s) ∧
    (s.bBeginThrowGrenade = true ∨ s.bThrowingGrenade = true → BeginThrowGrenade s = .ok s) ∧
    (s.bThrowingGrenade = true → ThrowGrenade s = .ok s) := by
  refine ⟨fun h => ⟨?_, ?_⟩, fun h => ?_, fun h => ?_⟩
  · cases hst : CheckStatus false false s <;> simp [BeginThrowGrenade, hst, h] <;> rfl
  · cases hst : CheckStatus false false s <;> simp [ThrowGrenade, hst, h] <;> rfl
  · cases hst : CheckStatus false false s <;> rcases h with h | h <;>
      simp [BeginThrowGrenade, hst, h] <;> rfl
  · cases hst : CheckStatus false false s <;> simp [ThrowGrenade, hst, h] <;> rfl

/-- C18, counterexample: on a reloading character in `MainWeapon` mode whose
`CurrentMainWeapon` is null, `EndReload` stops on the unguarded read of
`CurrentMainWeapon->WeaponInfo`; it returns no state at all. -/
theorem C18_EndReload_faults_on_null_weapon :
    EndReload mainWeaponLessCharacter = .error (.nullDeref .CurrentMainWeapon) ∧
    ¬ ∃ s', EndReload mainWeaponLessCharacter = .ok s' ∧ s'.bReloading = false ∧
      s'.bSecondWeaponReloading = false := by
  have h : EndReload mainWeaponLessCharacter = .error (.nullDeref .CurrentMainWeapon) := by rfl
  refine ⟨h, ?_⟩
  rintro ⟨s', h', -⟩
  rw [h] at h'
  cases h'

/-- C18, amended. Whenever `bSecondWeaponReloading` is true on entry or the
weapon selected by `WeaponMode` is non-null, `EndReload` returns with
`bReloading` and `bSecondWeaponReloading` false and `WeaponMode` unchanged, and
among the calls it issued `BulletReload` occurs once on the weapon of the
current mode if `bSecondWeaponReloading` was false on entry and that weapon's
`BulletNumber` is below its `FillUpBulletNumber`, and on no weapon otherwise. -/
theorem C18_EndReload_reloads_current_weapon (s : AMultiShootGameCharacter)
    (w : AMultiShootGameWeapon)
    (hW : s.bSecondWeaponReloading = true ∨ s.weaponAt s.WeaponMode = some w) :
    ∃ s' evs, EndReload s = .ok s' ∧ s'.bReloading = false ∧
      s'.bSecondWeaponReloading = false ∧ s'.WeaponMode = s.WeaponMode ∧
      s'.calls = s.calls ++ evs ∧
      ∀ Slot, evs.count (.weapon Slot .BulletReload) =
        if Slot = s.WeaponMode ∧ s.bSecondWeaponReloading = false ∧
            ∃ v, s.weaponAt s.WeaponMode = some v ∧
              v.WeaponInfo.BulletNumber < v.WeaponInfo.FillUpBulletNumber
        then 1 else 0 := by
  cases hR : s.bSecondWeaponReloading
  · have hW' : s.weaponAt s.WeaponMode = some w := by simpa [hR] using hW
    by_cases hb : w.WeaponInfo.BulletNumber < w.WeaponInfo.FillUpBulletNumber <;>
      cases hm : s.WeaponMode <;> rw [hm] at hW' <;> simp only [weaponAt] at hW' <;>
      simp [EndReload, readWeaponInfo, callWeapon, weaponAt, emit, bind, Except.bind, pure,
        Except.pure, hR, hm, hW', hb, List.count_cons] <;>
      intro Slot <;> cases Slot <;> simp
  · simp [EndReload, hR, bind, Except.bind, pure, Except.pure]

/-- Witness for C15 on the character firing in first-person view. -/
theorem C15_StartFire_dispatch_witness :
    ∃ s' evs, StartFire { firstPersonCharacter with bFired := false } = .ok s' ∧
      s'.calls = firstPersonCharacter.calls ++ evs ∧
      evs.filter Call.isFireRequest = [Call.fpsCamera .StartFire] ∧
      s'.bSecondWeaponReloading = false := by
  obtain ⟨s', evs, h1, h2, h3, h4, -⟩ :=
    C15_StartFire_dispatch { firstPersonCharacter with bFired := false }
      ⟨mainWeaponInfo, false⟩ ⟨secondWeaponInfo, false⟩ ⟨thirdWeaponInfo, false⟩ ⟨false⟩
      rfl rfl rfl rfl (by decide)
  refine ⟨s', evs, h1, h2, h3, ?_⟩
  cases hb : s'.bSecondWeaponReloading
  · rfl
  · exact absurd (h4.1 hb) (by decide)

/-- Witness for C16 on the character firing in first-person view. -/
theorem C16_KnifeAttack_cancels_actions_witness :
    firstPersonCharacter.bToggleView = true ∧ firstPersonCharacter.bFired = true ∧
    ∃ s', KnifeAttack firstPersonCharacter = .ok s' ∧ s'.bKnifeAttack = true ∧
      s'.bAimed = false ∧ s'.bToggleView = false ∧ s'.bFired = false ∧
      ∀ a b : Bool, CheckStatus a b s' = false :=
  ⟨rfl, rfl,
    (C16_KnifeAttack_cancels_actions firstPersonCharacter ⟨mainWeaponInfo, false⟩
      ⟨secondWeaponInfo, false⟩ ⟨thirdWeaponInfo, false⟩ ⟨false⟩ rfl rfl rfl rfl
      (by decide)).1⟩

/-- Witness for C17 on the character without grenades. -/
theorem C17_no_grenade_no_throw_witness :
    CheckStatus false false noGrenadeCharacter = true ∧
    BeginThrowGrenade noGrenadeCharacter = .ok noGrenadeCharacter ∧
    ThrowGrenade noGrenadeCharacter = .ok noGrenadeCharacter :=
  ⟨by decide, (C17_no_grenade_no_throw noGrenadeCharacter).1 rfl⟩

/-- Witness for C18 on a reloading character with a nearly empty magazine. -/
theorem C18_EndReload_reloads_current_weapon_witness :
    ∃ s' evs, EndReload spentReloadingCharacter = .ok s' ∧ s'.bReloading = false ∧
      s'.bSecondWeaponReloading = false ∧
      s'.WeaponMode = spentReloadingCharacter.WeaponMode ∧
      s'.calls = spentReloadingCharacter.calls ++ evs ∧
      ∀ Slot, evs.count (.weapon Slot .BulletReload) =
        if Slot = spentReloadingCharacter.WeaponMode ∧
            spentReloadingCharacter.bSecondWeaponReloading = false ∧
            ∃ v, spentReloadingCharacter.weaponAt spentReloadingCharacter.WeaponMode = some v ∧
              v.WeaponInfo.BulletNumber < v.WeaponInfo.FillUpBulletNumber
        then 1 else 0 :=
  C18_EndReload_reloads_current_weapon spentReloadingCharacter
    ⟨{ mainWeaponInfo with BulletNumber := 3 }, false⟩ (Or.inr rfl)

set_option maxHeartbeats 1600000 in
/-- One `ToggleView` on a ready character: the view flag flips, the weapons,
mesh and camera are hidden or shown accordingly, and the character is ready
again. -/
theorem ToggleView_of_Ready (s : AMultiShootGameCharacter) (h : Ready s) :
    ∃ s' evs, ToggleView s = .ok s' ∧ s'.bToggleView = !s.bToggleView ∧
      s'.WeaponMode = s.WeaponMode ∧ s'.bAimed = s.bAimed ∧ s'.bFired = s.bFired ∧
      s'.calls = s.calls ++ evs ∧
      (s.bToggleView = false →
        s'.SocketOffset = FVector.ZeroVector ∧
        .weapon .MainWeapon (.SetActorHiddenInGame true) ∈ evs ∧
        .weapon .SecondWeapon (.SetActorHiddenInGame true) ∈ evs ∧
        .weapon .ThirdWeapon (.SetActorHiddenInGame true) ∈ evs ∧
        .engine (.MeshSetHiddenInGame true) ∈ evs ∧
        .fpsCamera (.SetActorHiddenInGame false) ∈ evs) ∧
      (s.bToggleView = true →
        s'.SocketOffset = ⟨0, 90, 0⟩ ∧
        .weapon .MainWeapon (.SetActorHiddenInGame false) ∈ evs ∧
        .weapon .SecondWeapon (.SetActorHiddenInGame false) ∈ evs ∧
        .weapon .ThirdWeapon (.SetActorHiddenInGame false) ∈ evs ∧
        .engine (.MeshSetHiddenInGame false) ∈ evs ∧
        .fpsCamera (.SetActorHiddenInGame true) ∈ evs) ∧
      Ready s' := by
  obtain ⟨h1, h2, h3, h4, h5, h6, h7, h8, h9, ⟨wM, hM⟩, ⟨wS, hS⟩, ⟨wT, hT⟩, ⟨cam, hC⟩⟩ := h.facts
  cases hm : s.WeaponMode <;> cases hV : s.bToggleView <;>
    cases hf : s.bFired <;> cases hL : s.bLocallyControlled <;>
    simp [ToggleView, ToggleFirstPersonView, ToggleThirdPersonView, Ready, CheckStatus,
      callCamera, callWeapon, weaponAt, emit, FVector.ZeroVector,
      SetToggleView_Server, SetToggleView_Server_Implementation,
      bind, Except.bind, pure, Except.pure,
      hM, hS, hT, hC, h1, h2, h3, h4, h5, h6, h7, h8, h9, hm, hV, hf, hL]

/-! ### A small postcondition calculus for results -/

theorem Post_ok (s : AMultiShootGameCharacter) (P : AMultiShootGameCharacter → Prop) :
    Post (.ok s) P ↔ P s := by
  constructor
  · intro h; exact h s rfl
  · intro h s' hs; cases hs; exact h

theorem Post_pure (s : AMultiShootGameCharacter) (P : AMultiShootGameCharacter → Prop) :
    Post (pure s) P ↔ P s := Post_ok s P

theorem Post_error (e : Fault) (P : AMultiShootGameCharacter → Prop) :
    Post (.error e) P ↔ True := by
  constructor
  · intro _; trivial
  · intro _ s' hs; cases hs

theorem Post_ite (c : Prop) [Decidable c] (a b : Exec) (P : AMultiShootGameCharacter → Prop) :
    Post (if c then a else b) P ↔ (c → Post a P) ∧ (¬ c → Post b P) := by
  by_cases h : c <;> simp [h]

theorem Post_ite_bind (c : Prop) [Decidable c] (a b : Exec)
    (f : AMultiShootGameCharacter → Exec) (P : AMultiShootGameCharacter → Prop) :
    Post ((if c then a else b) >>= f) P ↔ (c → Post (a >>= f) P) ∧ (¬ c → Post (b >>= f) P) := by
  by_cases h : c <;> simp [h]

theorem Post_ok_bind (s : AMultiShootGameCharacter)
    (f : AMultiShootGameCharacter → Exec) (P : AMultiShootGameCharacter → Prop) :
    Post (Except.ok s >>= f) P ↔ Post (f s) P := Iff.rfl

theorem Post_pure_bind (s : AMultiShootGameCharacter)
    (f : AMultiShootGameCharacter → Exec) (P : AMultiShootGameCharacter → Prop) :
    Post (pure s >>= f) P ↔ Post (f s) P := Iff.rfl

theorem Post_error_bind (e : Fault)
    (f : AMultiShootGameCharacter → Exec) (P : AMultiShootGameCharacter → Prop) :
    Post (Except.error e >>= f) P ↔ True := by
  constructor
  · intro _; trivial
  · intro _ s' hs; cases hs

theorem Post_callCamera (c : CameraCall) (s : AMultiShootGameCharacter)
    (P : AMultiShootGameCharacter → Prop) :
    Post (callCamera c s) P ↔ (s.CurrentFPSCamera.isSome = true → P (s.emit (.fpsCamera c))) := by
  unfold callCamera
  cases s.CurrentFPSCamera <;> simp [Post_ok, Post_error]

theorem Post_callCamera_bind (c : CameraCall) (s : AMultiShootGameCharacter)
    (f : AMultiShootGameCharacter → Exec) (P : AMultiShootGameCharacter → Prop) :
    Post (callCamera c s >>= f) P ↔
      (s.CurrentFPSCamera.isSome = true → Post (f (s.emit (.fpsCamera c))) P) := by
  unfold callCamera
  cases s.CurrentFPSCamera <;> simp [Post_ok_bind, Post_error_bind]

theorem Post_callWeapon (Slot : EWeaponMode) (c : WeaponCall) (s : AMultiShootGameCharacter)
    (P : AMultiShootGameCharacter → Prop) :
    Post (callWeapon Slot c s) P ↔
      ((s.weaponAt Slot).isSome = true → P (s.emit (.weapon Slot c))) := by
  unfold callWeapon
  cases s.weaponAt Slot <;> simp [Post_ok, Post_error]

theorem Post_callWeapon_bind (Slot : EWeaponMode) (c : WeaponCall) (s : AMultiShootGameCharacter)
    (f : AMultiShootGameCharacter → Exec) (P : AMultiShootGameCharacter → Prop) :
    Post (callWeapon Slot c s >>= f) P ↔
      ((s.weaponAt Slot).isSome = true → Post (f (s.emit (.weapon Slot c))) P) := by
  unfold callWeapon
  cases s.weaponAt Slot <;> simp [Post_ok_bind, Post_error_bind]

theorem Post_callGrenade (c : GrenadeCall) (s : AMultiShootGameCharacter)
    (P : AMultiShootGameCharacter → Prop) :
    Post (callGrenade c s) P ↔ (s.CurrentGrenade.isSome = true → P (s.emit (.grenade c))) := by
  unfold callGrenade
  cases s.CurrentGrenade <;> simp [Post_ok, Post_error]

theorem Post_callGrenade_bind (c : GrenadeCall) (s : AMultiShootGameCharacter)
    (f : AMultiShootGameCharacter → Exec) (P : AMultiShootGameCharacter → Prop) :
    Post (callGrenade c s >>= f) P ↔
      (s.CurrentGrenade.isSome = true → Post (f (s.emit (.grenade c))) P) := by
  unfold callGrenade
  cases s.CurrentGrenade <;> simp [Post_ok_bind, Post_error_bind]

theorem Post_readWeaponInfo_bind (Slot : EWeaponMode) (s : AMultiShootGameCharacter)
    (f : FWeaponInfo → Exec) (P : AMultiShootGameCharacter → Prop) :
    Post (readWeaponInfo Slot s >>= f) P ↔
      (∀ w, s.weaponAt Slot = some w → Post (f w.WeaponInfo) P) := by
  unfold readWeaponInfo
  cases h : s.weaponAt Slot
  · simp [Post, bind, Except.bind]
  · simp [Post, bind, Except.bind]

theorem Post_map (g : AMultiShootGameCharacter → AMultiShootGameCharacter) (x : Exec)
    (P : AMultiShootGameCharacter → Prop) :
    Post (g <$> x) P ↔ Post x (fun a => P (g a)) := by
  cases x with
  | error e => simp [Post]
  | ok a => simp [Post]

theorem Post.bind {x : Exec} {f : AMultiShootGameCharacter → Exec}
    {P : AMultiShootGameCharacter → Prop} (Q : AMultiShootGameCharacter → Prop)
    (hx : Post x Q) (hf : ∀ a, Q a → Post (f a) P) : Post (x >>= f) P := by
  intro s' hs
  cases x with
  | error e => cases hs
  | ok a => exact hf a (hx a rfl) s' hs

theorem Post.ite {c : Prop} [Decidable c] {a b : Exec} {P : AMultiShootGameCharacter → Prop}
    (ha : Post a P) (hb : Post b P) : Post (if c then a else b) P := by
  by_cases h : c <;> simp [h, ha, hb]

theorem Post.of_pure {s : AMultiShootGameCharacter} {P : AMultiShootGameCharacter → Prop}
    (h : P s) : Post (pure s) P := (Post_pure s P).2 h

theorem Post.readWeaponInfo_bind {Slot : EWeaponMode} {s : AMultiShootGameCharacter}
    {f : FWeaponInfo → Exec} {P : AMultiShootGameCharacter → Prop}
    (hf : ∀ i, Post (f i) P) : Post (readWeaponInfo Slot s >>= f) P :=
  (Post_readWeaponInfo_bind Slot s f P).2 fun w _ => hf w.WeaponInfo

/-! ### The same calculus for results that must exist -/

theorem Total_ok (s : AMultiShootGameCharacter) (P : AMultiShootGameCharacter → Prop) :
    Total (.ok s) P ↔ P s := by
  simp [Total]

theorem Total_pure (s : AMultiShootGameCharacter) (P : AMultiShootGameCharacter → Prop) :
    Total (pure s) P ↔ P s := by
  simp [Total, pure, Except.pure]

theorem Total_bind (x : Exec) (f : AMultiShootGameCharacter → Exec)
    (P : AMultiShootGameCharacter → Prop) :
    Total (x >>= f) P ↔ Total x (fun a => Total (f a) P) := by
  cases x <;> simp [Total, bind, Except.bind]

theorem Total_map (g : AMultiShootGameCharacter → AMultiShootGameCharacter) (x : Exec)
    (P : AMultiShootGameCharacter → Prop) :
    Total (g <$> x) P ↔ Total x (fun a => P (g a)) := by
  cases x <;> simp [Total, Functor.map, Except.map]

theorem Total_ite (c : Prop) [Decidable c] (a b : Exec) (P : AMultiShootGameCharacter → Prop) :
    Total (if c then a else b) P ↔ (c → Total a P) ∧ (¬ c → Total b P) := by
  split_ifs with h <;> simp [h]

theorem Total_callWeapon (Slot : EWeaponMode) (c : WeaponCall) (s : AMultiShootGameCharacter)
    (P : AMultiShootGameCharacter → Prop) :
    Total (callWeapon Slot c s) P ↔
      ((s.weaponAt Slot).isSome = true ∧ P (s.emit (.weapon Slot c))) := by
  unfold callWeapon
  cases s.weaponAt Slot <;> simp [Total]

theorem Total_callCamera (c : CameraCall) (s : AMultiShootGameCharacter)
    (P : AMultiShootGameCharacter → Prop) :
    Total (callCamera c s) P ↔
      (s.CurrentFPSCamera.isSome = true ∧ P (s.emit (.fpsCamera c))) := by
  unfold callCamera
  cases s.CurrentFPSCamera <;> simp [Total]

theorem Total_callGrenade (c : GrenadeCall) (s : AMultiShootGameCharacter)
    (P : AMultiShootGameCharacter → Prop) :
    Total (callGrenade c s) P ↔
      (s.CurrentGrenade.isSome = true ∧ P (s.emit (.grenade c))) := by
  unfold callGrenade
  cases s.CurrentGrenade <;> simp [Total]

theorem Total.post {r : Exec} {P : AMultiShootGameCharacter → Prop} (h : Total r P) :
    Post r P := by
  obtain ⟨a, ha, hp⟩ := h
  intro s' hs
  rw [ha] at hs
  cases hs
  exact hp

/-! ### No member function but the death handlers writes `HealthComponent` -/

theorem emit_HealthComponent (c : Call) (s : AMultiShootGameCharacter) :
    (s.emit c).HealthComponent = s.HealthComponent := by
  simp [emit]

theorem SetAimed_Server_Implementation_HealthComponent (v : Bool) (s : AMultiShootGameCharacter) :
    (SetAimed_Server_Implementation v s).HealthComponent = s.HealthComponent := by
  simp [SetAimed_Server, SetAimed_Server_Implementation, emit]

theorem SetAimed_Server_HealthComponent (v : Bool) (s : AMultiShootGameCharacter) :
    (SetAimed_Server v s).HealthComponent = s.HealthComponent := by
  simp [SetAimed_Server, SetAimed_Server_Implementation, emit]

theorem SetFastRun_Server_Implementation_HealthComponent (v : Bool) (s : AMultiShootGameCharacter) :
    (SetFastRun_Server_Implementation v s).HealthComponent = s.HealthComponent := by
  simp [SetFastRun_Server, SetFastRun_Server_Implementation, emit]

theorem SetFastRun_Server_HealthComponent (v : Bool) (s : AMultiShootGameCharacter) :
    (SetFastRun_Server v s).HealthComponent = s.HealthComponent := by
  simp [SetFastRun_Server, SetFastRun_Server_Implementation, emit]

theorem SetToggleView_Server_Implementation_HealthComponent (v : Bool) (s : AMultiShootGameCharacter) :
    (SetToggleView_Server_Implementation v s).HealthComponent = s.HealthComponent := by
  simp [SetToggleView_Server, SetToggleView_Server_Implementation, emit]

theorem SetToggleView_Server_HealthComponent (v : Bool) (s : AMultiShootGameCharacter) :
    (SetToggleView_Server v s).HealthComponent = s.HealthComponent := by
  simp [SetToggleView_Server, SetToggleView_Server_Implementation, emit]

theorem SetWalkSpeed_Server_Implementation_HealthComponent (v : Int) (s : AMultiShootGameCharacter) :
    (SetWalkSpeed_Server_Implementation v s).HealthComponent = s.HealthComponent := by
  simp [SetWalkSpeed_Server, SetWalkSpeed_Server_Implementation, emit]

theorem SetWalkSpeed_Server_HealthComponent (v : Int) (s : AMultiShootGameCharacter) :
    (SetWalkSpeed_Server v s).HealthComponent = s.HealthComponent := by
  simp [SetWalkSpeed_Server, SetWalkSpeed_Server_Implementation, emit]

theorem SetWeaponMode_Server_Implementation_HealthComponent (v : EWeaponMode) (s : AMultiShootGameCharacter) :
    (SetWeaponMode_Server_Implementation v s).HealthComponent = s.HealthComponent := by
  simp [SetWeaponMode_Server, SetWeaponMode_Server_Implementation, emit]

theorem SetWeaponMode_Server_HealthComponent (v : EWeaponMode) (s : AMultiShootGameCharacter) :
    (SetWeaponMode_Server v s).HealthComponent = s.HealthComponent := by
  simp [SetWeaponMode_Server, SetWeaponMode_Server_Implementation, emit]

theorem SetBeginThrowGrenade_Server_Implementation_HealthComponent (v : Bool) (s : AMultiShootGameCharacter) :
    (SetBeginThrowGrenade_Server_Implementation v s).HealthComponent = s.HealthComponent := by
  simp [SetBeginThrowGrenade_Server, SetBeginThrowGrenade_Server_Implementation, emit]

theorem SetBeginThrowGrenade_Server_HealthComponent (v : Bool) (s : AMultiShootGameCharacter) :
    (SetBeginThrowGrenade_Server v s).HealthComponent = s.HealthComponent := by
  simp [SetBeginThrowGrenade_Server, SetBeginThrowGrenade_Server_Implementation, emit]

theorem SetThrowingGrenade_Server_Implementation_HealthComponent (v : Bool) (s : AMultiShootGameCharacter) :
    (SetThrowingGrenade_Server_Implementation v s).HealthComponent = s.HealthComponent := by
  simp [SetThrowingGrenade_Server, SetThrowingGrenade_Server_Implementation, emit]

theorem SetThrowingGrenade_Server_HealthComponent (v : Bool) (s : AMultiShootGameCharacter) :
    (SetThrowingGrenade_Server v s).HealthComponent = s.HealthComponent := by
  simp [SetThrowingGrenade_Server, SetThrowingGrenade_Server_Implementation, emit]

theorem SetSpawnGrenade_Server_Implementation_HealthComponent (v : Bool) (s : AMultiShootGameCharacter) :
    (SetSpawnGrenade_Server_Implementation v s).HealthComponent = s.HealthComponent := by
  simp [SetSpawnGrenade_Server, SetSpawnGrenade_Server_Implementation, emit]

theorem SetSpawnGrenade_Server_HealthComponent (v : Bool) (s : AMultiShootGameCharacter) :
    (SetSpawnGrenade_Server v s).HealthComponent = s.HealthComponent := by
  simp [SetSpawnGrenade_Server, SetSpawnGrenade_Server_Implementation, emit]

theorem SetKnifeAttack_Server_Implementation_HealthComponent (v : Bool) (s : AMultiShootGameCharacter) :
    (SetKnifeAttack_Server_Implementation v s).HealthComponent = s.HealthComponent := by
  simp [SetKnifeAttack_Server, SetKnifeAttack_Server_Implementation, emit]

theorem SetKnifeAttack_Server_HealthComponent (v : Bool) (s : AMultiShootGameCharacter) :
    (SetKnifeAttack_Server v s).HealthComponent = s.HealthComponent := by
  simp [SetKnifeAttack_Server, SetKnifeAttack_Server_Implementation, emit]

theorem SetGrenadeCount_Server_Implementation_HealthComponent (v : Int) (s : AMultiShootGameCharacter) :
    (SetGrenadeCount_Server_Implementation v s).HealthComponent = s.HealthComponent := by
  simp [SetGrenadeCount_Server, SetGrenadeCount_Server_Implementation, emit]

theorem SetGrenadeCount_Server_HealthComponent (v : Int) (s : AMultiShootGameCharacter) :
    (SetGrenadeCount_Server v s).HealthComponent = s.HealthComponent := by
  simp [SetGrenadeCount_Server, SetGrenadeCount_Server_Implementation, emit]

theorem PlayAnimMontage_Server_Implementation_HealthComponent (m : UAnimMontage)
    (r : Option Nat) (n : Option String) (s : AMultiShootGameCharacter) :
    (PlayAnimMontage_Server_Implementation m r n s).HealthComponent = s.HealthComponent := by
  simp [PlayAnimMontage_Server_Implementation, PlayAnimMontage_Multicast, emit]

theorem PlayAnimMontage_Server_HealthComponent (m : UAnimMontage) (r : Option Nat)
    (n : Option String) (s : AMultiShootGameCharacter) :
    (PlayAnimMontage_Server m r n s).HealthComponent = s.HealthComponent := by
  simp [PlayAnimMontage_Server, PlayAnimMontage_Server_Implementation,
    PlayAnimMontage_Multicast, emit]

theorem PutBackWeapon_Server_Implementation_HealthComponent (s : AMultiShootGameCharacter) :
    (PutBackWeapon_Server_Implementation s).HealthComponent = s.HealthComponent := by
  simp [PutBackWeapon_Server_Implementation, emit]

theorem PutBackWeapon_Server_HealthComponent (s : AMultiShootGameCharacter) :
    (PutBackWeapon_Server s).HealthComponent = s.HealthComponent := by
  simp [PutBackWeapon_Server, PutBackWeapon_Server_Implementation, emit]

theorem HandleWalkSpeed_HealthComponent (b : Bool) (s : AMultiShootGameCharacter) :
    (HandleWalkSpeed b s).HealthComponent = s.HealthComponent := by
  simp [HandleWalkSpeed, SetFastRun_Server, SetFastRun_Server_Implementation,
    SetWalkSpeed_Server, SetWalkSpeed_Server_Implementation, emit]

theorem Fire_Server_Implementation_HealthComponent (i : FWeaponInfo) (l : FVector)
    (r : FRotator) (n : String) (s : AMultiShootGameCharacter) :
    (Fire_Server_Implementation i l r n s).HealthComponent = s.HealthComponent := by
  cases h : s.World.SpawnProjectile <;>
    simp [Fire_Server_Implementation, Fire_Multicast, emit, h]

theorem EndThrowGrenade_HealthComponent (s : AMultiShootGameCharacter) :
    (EndThrowGrenade s).HealthComponent = s.HealthComponent := by
  cases h1 : s.bBeginThrowGrenade <;> cases h2 : s.bThrowingGrenade <;>
    simp [EndThrowGrenade, h1, h2, PlayAnimMontage_Server_HealthComponent]

theorem SpawnGrenade_Server_Implementation_HealthComponent (s : AMultiShootGameCharacter) :
    (SpawnGrenade_Server_Implementation s).HealthComponent = s.HealthComponent := by
  cases h1 : s.bBeginThrowGrenade <;> cases h2 : s.bThrowingGrenade <;>
    cases h3 : s.World.SpawnGrenade <;>
    simp [SpawnGrenade_Server_Implementation, h1, h2, h3, emit]

theorem SpawnGrenade_Server_HealthComponent (s : AMultiShootGameCharacter) :
    (SpawnGrenade_Server s).HealthComponent = s.HealthComponent := by
  simp [SpawnGrenade_Server, SpawnGrenade_Server_Implementation_HealthComponent,
    emit_HealthComponent]

theorem SpawnGrenade_HealthComponent (s : AMultiShootGameCharacter) :
    (SpawnGrenade s).HealthComponent = s.HealthComponent := by
  simp [SpawnGrenade, SpawnGrenade_Server_HealthComponent,
    SetBeginThrowGrenade_Server_HealthComponent, SetSpawnGrenade_Server_HealthComponent]

theorem ToggleWeaponEnd_HealthComponent (s : AMultiShootGameCharacter) :
    (ToggleWeaponEnd s).HealthComponent = s.HealthComponent := by
  simp [ToggleWeaponEnd, SetBeginThrowGrenade_Server_HealthComponent,
    SetThrowingGrenade_Server_HealthComponent, SetSpawnGrenade_Server_HealthComponent,
    SetKnifeAttack_Server_HealthComponent]

theorem OnEnemyKilled_HealthComponent (s : AMultiShootGameCharacter) :
    (OnEnemyKilled s).HealthComponent = s.HealthComponent := by
  cases h : s.bHasPlayerState <;> simp [OnEnemyKilled, h, emit]

theorem OnHeadshot_HealthComponent (s : AMultiShootGameCharacter) :
    (OnHeadshot s).HealthComponent = s.HealthComponent := by
  cases h : s.bHasPlayerState <;> simp [OnHeadshot, h, emit]

theorem OnDeath_HealthComponent (s : AMultiShootGameCharacter) :
    (OnDeath s).HealthComponent = s.HealthComponent := by
  cases h : s.bHasPlayerState <;> simp [OnDeath, h, emit]

theorem BeginKnifeAttack_Server_Implementation_HealthComponent
    (s : AMultiShootGameCharacter) :
    (BeginKnifeAttack_Server_Implementation s).HealthComponent = s.HealthComponent := by
  cases h : s.bKnifeAttack <;>
    simp [BeginKnifeAttack_Server_Implementation, h, PutBackWeapon_Server_HealthComponent,
      emit_HealthComponent]

theorem EndKnifeAttack_Server_Implementation_HealthComponent (s : AMultiShootGameCharacter) :
    (EndKnifeAttack_Server_Implementation s).HealthComponent = s.HealthComponent := by
  cases h : s.bKnifeAttack <;>
    simp [EndKnifeAttack_Server_Implementation, h, PlayAnimMontage_Server_HealthComponent,
      emit_HealthComponent]

theorem AttachWeapon_Server_Implementation_HealthComponent (s : AMultiShootGameCharacter) :
    (AttachWeapon_Server_Implementation s).HealthComponent = s.HealthComponent := by
  cases h : s.WeaponMode <;> simp [AttachWeapon_Server_Implementation, h, emit]

theorem ToggleWeaponBegin_HealthComponent (s : AMultiShootGameCharacter) :
    (ToggleWeaponBegin s).HealthComponent = s.HealthComponent := by
  simp [ToggleWeaponBegin, AttachWeapon_Server,
    AttachWeapon_Server_Implementation_HealthComponent, emit_HealthComponent]

theorem CheckShowSight_HealthComponent (dt : Rat) (s : AMultiShootGameCharacter) :
    (CheckShowSight dt s).HealthComponent = s.HealthComponent := by
  unfold CheckShowSight
  split
  · split <;> rfl
  · rfl

theorem HeadShot_HealthComponent (c : ADamageCauser) (s : AMultiShootGameCharacter) :
    (HeadShot c s).1.HealthComponent = s.HealthComponent := by
  cases c <;> simp [HeadShot, OnHeadshot_HealthComponent, emit_HealthComponent]

theorem callCamera_keeps (c : CameraCall) (s : AMultiShootGameCharacter) (d : UHealthComponent)
    (h : s.HealthComponent = d) : Post (callCamera c s) (fun s' => s'.HealthComponent = d) := by
  simp [Post_callCamera, emit, h]

theorem callWeapon_keeps (Slot : EWeaponMode) (c : WeaponCall) (s : AMultiShootGameCharacter)
    (d : UHealthComponent) (h : s.HealthComponent = d) :
    Post (callWeapon Slot c s) (fun s' => s'.HealthComponent = d) := by
  simp [Post_callWeapon, emit, h]

theorem StopFire_keeps (s : AMultiShootGameCharacter) (d : UHealthComponent)
    (h : s.HealthComponent = d) : Post (StopFire s) (fun s' => s'.HealthComponent = d) := by
  simp [StopFire, Post_pure, Post_ite, Post_ite_bind, Post_pure_bind, Post_callCamera,
    Post_callWeapon_bind, emit, h]

theorem BeginAim_keeps (s : AMultiShootGameCharacter) (d : UHealthComponent)
    (h : s.HealthComponent = d) : Post (BeginAim s) (fun s' => s'.HealthComponent = d) := by
  simp [BeginAim, Post_pure, Post_ite, Post_ite_bind, Post_pure_bind,
    Post_callCamera, Post_callCamera_bind, Post_callWeapon, Post_callWeapon_bind, emit,
    SetAimed_Server, SetAimed_Server_Implementation, h]

theorem EndAim_keeps (s : AMultiShootGameCharacter) (d : UHealthComponent)
    (h : s.HealthComponent = d) : Post (EndAim s) (fun s' => s'.HealthComponent = d) := by
  simp [EndAim, Post_pure, Post_ite, Post_ite_bind, Post_pure_bind,
    Post_callCamera, Post_callCamera_bind, Post_callWeapon, Post_callWeapon_bind, emit,
    SetAimed_Server, SetAimed_Server_Implementation, h]

theorem ToggleFirstPersonView_keeps (s : AMultiShootGameCharacter) (d : UHealthComponent)
    (h : s.HealthComponent = d) :
    Post (ToggleFirstPersonView s) (fun s' => s'.HealthComponent = d) := by
  simp [ToggleFirstPersonView, Post_pure, Post_ite, Post_ite_bind, Post_pure_bind,
    Post_callCamera, Post_callCamera_bind, Post_callWeapon, Post_callWeapon_bind, emit,
    SetToggleView_Server, SetToggleView_Server_Implementation, h]

theorem ToggleThirdPersonView_keeps (s : AMultiShootGameCharacter) (d : UHealthComponent)
    (h : s.HealthComponent = d) :
    Post (ToggleThirdPersonView s) (fun s' => s'.HealthComponent = d) := by
  simp [ToggleThirdPersonView, Post_pure, Post_ite, Post_ite_bind, Post_pure_bind,
    Post_callCamera, Post_callCamera_bind, Post_callWeapon, Post_callWeapon_bind, emit,
    SetToggleView_Server, SetToggleView_Server_Implementation, h]

theorem EndAction_keeps (b : Bool) (s : AMultiShootGameCharacter) (d : UHealthComponent)
    (h : s.HealthComponent = d) : Post (EndAction b s) (fun s' => s'.HealthComponent = d) := by
  unfold EndAction
  dsimp only
  repeat' first
    | apply Post.ite
    | rw [Post_pure_bind]
    | exact callCamera_keeps _ _ d (by assumption)
    | refine Post.bind (fun a => a.HealthComponent = d) (EndAim_keeps _ d (by assumption))
        fun a ha => ?_
    | refine Post.bind (fun a => a.HealthComponent = d)
        (ToggleThirdPersonView_keeps _ d (by assumption)) fun a ha => ?_
    | refine Post.bind (fun a => a.HealthComponent = d) (StopFire_keeps _ d (by assumption))
        fun a ha => ?_

theorem BeginSecondWeaponReload_keeps (s : AMultiShootGameCharacter) (d : UHealthComponent)
    (h : s.HealthComponent = d) :
    Post (BeginSecondWeaponReload s) (fun s' => s'.HealthComponent = d) := by
  unfold BeginSecondWeaponReload
  dsimp only
  refine Post.ite (Post.of_pure h) ?_
  refine Post.bind (fun a => a.HealthComponent = d) (EndAction_keeps false _ d h) fun a ha => ?_
  exact Post.of_pure (by simp [PlayAnimMontage_Server_HealthComponent, emit_HealthComponent, ha])

theorem StartFire_keeps (s : AMultiShootGameCharacter) (d : UHealthComponent)
    (h : s.HealthComponent = d) : Post (StartFire s) (fun s' => s'.HealthComponent = d) := by
  unfold StartFire
  dsimp only
  refine Post.ite (Post.of_pure h) ?_
  refine Post.bind (fun a => a.HealthComponent = d) (callCamera_keeps _ _ d h) fun a ha => ?_
  refine Post.ite ?_ (Post.ite ?_ (Post.of_pure ha))
  · cases a.WeaponMode
    · exact Post.ite (callWeapon_keeps _ _ a d ha) (Post.of_pure ha)
    · exact Post.ite (Post.bind (fun a => a.HealthComponent = d) (callWeapon_keeps _ _ a d ha)
        fun b hb => BeginSecondWeaponReload_keeps b d hb) (Post.of_pure ha)
    · exact Post.ite (callWeapon_keeps _ _ a d ha) (Post.of_pure ha)
  · cases a.WeaponMode
    · exact callCamera_keeps _ a d ha
    · exact Post.bind (fun a => a.HealthComponent = d) (callCamera_keeps _ a d ha)
        fun b hb => BeginSecondWeaponReload_keeps b d hb
    · exact callCamera_keeps _ a d ha

theorem BeginReload_keeps (s : AMultiShootGameCharacter) (d : UHealthComponent)
    (h : s.HealthComponent = d) : Post (BeginReload s) (fun s' => s'.HealthComponent = d) := by
  unfold BeginReload
  dsimp only
  refine Post.ite (Post.of_pure h) ?_
  refine Post.bind (fun a => a.HealthComponent = d) (EndAction_keeps false _ d h) fun a ha => ?_
  cases a.WeaponMode
  · refine Post.readWeaponInfo_bind fun i => Post.readWeaponInfo_bind fun j => Post.of_pure ?_
    simp [apply_ite AMultiShootGameCharacter.HealthComponent,
      PlayAnimMontage_Server_HealthComponent, ha]
  · refine Post.readWeaponInfo_bind fun i => Post.of_pure ?_
    simp [apply_ite AMultiShootGameCharacter.HealthComponent,
      PlayAnimMontage_Server_HealthComponent, ha]
  · refine Post.readWeaponInfo_bind fun i => Post.of_pure ?_
    simp [apply_ite AMultiShootGameCharacter.HealthComponent,
      PlayAnimMontage_Server_HealthComponent, ha]

theorem BeginThrowGrenade_keeps (s : AMultiShootGameCharacter) (d : UHealthComponent)
    (h : s.HealthComponent = d) :
    Post (BeginThrowGrenade s) (fun s' => s'.HealthComponent = d) := by
  unfold BeginThrowGrenade
  refine Post.ite (Post.of_pure h) (Post.ite (Post.of_pure h) ?_)
  refine Post.bind (fun a => a.HealthComponent = d) (EndAction_keeps true _ d h) fun a ha => ?_
  exact Post.of_pure (by
    simp [PlayAnimMontage_Server_HealthComponent, PutBackWeapon_Server_HealthComponent,
      SetBeginThrowGrenade_Server_HealthComponent, ha])

theorem ThrowGrenade_keeps (s : AMultiShootGameCharacter) (d : UHealthComponent)
    (h : s.HealthComponent = d) : Post (ThrowGrenade s) (fun s' => s'.HealthComponent = d) := by
  unfold ThrowGrenade
  refine Post.ite (Post.of_pure h) (Post.ite (Post.of_pure h) ?_)
  refine Post.bind (fun a => a.HealthComponent = d) (EndAction_keeps true _ d h) fun a ha => ?_
  exact Post.of_pure (by
    simp [apply_ite AMultiShootGameCharacter.HealthComponent,
      PlayAnimMontage_Server_HealthComponent, PutBackWeapon_Server_HealthComponent,
      SpawnGrenade_HealthComponent, SetThrowingGrenade_Server_HealthComponent, ha])

theorem KnifeAttack_keeps (s : AMultiShootGameCharacter) (d : UHealthComponent)
    (h : s.HealthComponent = d) : Post (KnifeAttack s) (fun s' => s'.HealthComponent = d) := by
  unfold KnifeAttack
  refine Post.ite (Post.of_pure h) ?_
  refine Post.bind (fun a => a.HealthComponent = d) (EndAction_keeps true _ d h) fun a ha => ?_
  exact Post.of_pure (by
    simp [PlayAnimMontage_Server_HealthComponent, SetKnifeAttack_Server_HealthComponent, ha])

theorem ToggleMainWeapon_keeps (s : AMultiShootGameCharacter) (d : UHealthComponent)
    (h : s.HealthComponent = d) :
    Post (ToggleMainWeapon s) (fun s' => s'.HealthComponent = d) := by
  unfold ToggleMainWeapon
  dsimp only
  refine Post.ite (Post.of_pure h) (Post.ite (Post.of_pure h) ?_)
  refine Post.bind (fun a => a.HealthComponent = d) (EndAction_keeps false _ d h) fun a ha => ?_
  refine Post.readWeaponInfo_bind fun i => ?_
  refine Post.bind (fun a => a.HealthComponent = d)
    (callCamera_keeps _ _ d (by simp [SetWeaponMode_Server_HealthComponent, ha])) fun b hb => ?_
  exact Post.of_pure (by
    simp [PlayAnimMontage_Server_HealthComponent, HandleWalkSpeed_HealthComponent, hb])

theorem ToggleSecondWeapon_keeps (s : AMultiShootGameCharacter) (d : UHealthComponent)
    (h : s.HealthComponent = d) :
    Post (ToggleSecondWeapon s) (fun s' => s'.HealthComponent = d) := by
  unfold ToggleSecondWeapon
  dsimp only
  refine Post.ite (Post.of_pure h) (Post.ite (Post.of_pure h) ?_)
  refine Post.bind (fun a => a.HealthComponent = d) (EndAction_keeps false _ d h) fun a ha => ?_
  refine Post.readWeaponInfo_bind fun i => ?_
  refine Post.bind (fun a => a.HealthComponent = d)
    (callCamera_keeps _ _ d (by simp [SetWeaponMode_Server_HealthComponent, ha])) fun b hb => ?_
  exact Post.of_pure (by
    simp [PlayAnimMontage_Server_HealthComponent, HandleWalkSpeed_HealthComponent, hb])

theorem ToggleThirdWeapon_keeps (s : AMultiShootGameCharacter) (d : UHealthComponent)
    (h : s.HealthComponent = d) :
    Post (ToggleThirdWeapon s) (fun s' => s'.HealthComponent = d) := by
  unfold ToggleThirdWeapon
  dsimp only
  refine Post.ite (Post.of_pure h) (Post.ite (Post.of_pure h) ?_)
  refine Post.bind (fun a => a.HealthComponent = d) (EndAction_keeps false _ d h) fun a ha => ?_
  refine Post.readWeaponInfo_bind fun i => ?_
  refine Post.bind (fun a => a.HealthComponent = d)
    (callCamera_keeps _ _ d (by simp [SetWeaponMode_Server_HealthComponent, ha])) fun b hb => ?_
  exact Post.of_pure (by
    simp [PlayAnimMontage_Server_HealthComponent, HandleWalkSpeed_HealthComponent, hb])

theorem ToggleView_keeps (s : AMultiShootGameCharacter) (d : UHealthComponent)
    (h : s.HealthComponent = d) : Post (ToggleView s) (fun s' => s'.HealthComponent = d) := by
  unfold ToggleView
  refine Post.ite (Post.of_pure h) ?_
  refine Post.bind (fun a => a.HealthComponent = d) (callCamera_keeps _ _ d h) fun a ha => ?_
  exact Post.ite (ToggleFirstPersonView_keeps a d ha) (ToggleThirdPersonView_keeps a d ha)

theorem Inspect_keeps (s : AMultiShootGameCharacter) (d : UHealthComponent)
    (h : s.HealthComponent = d) : Post (Inspect s) (fun s' => s'.HealthComponent = d) := by
  simp [Inspect, Post_pure, Post_ite, Post_callCamera, Post_callCamera_bind, emit, h]

theorem Destroyed_keeps (s : AMultiShootGameCharacter) (d : UHealthComponent)
    (h : s.HealthComponent = d) : Post (Destroyed s) (fun s' => s'.HealthComponent = d) := by
  simp [Destroyed, Post_pure, Post_ite, Post_ite_bind, Post_pure_bind, Post_callCamera_bind,
    Post_callWeapon_bind, Post_callGrenade, Post_callGrenade_bind, Post_map, emit, h,
    apply_ite AMultiShootGameCharacter.HealthComponent]

theorem EndReload_keeps (s : AMultiShootGameCharacter) (d : UHealthComponent)
    (h : s.HealthComponent = d) : Post (EndReload s) (fun s' => s'.HealthComponent = d) := by
  cases hm : s.WeaponMode <;>
    simp [EndReload, hm, Post_pure, Post_ite, Post_ite_bind, Post_pure_bind, Post_map,
      Post_callWeapon, Post_callWeapon_bind, Post_readWeaponInfo_bind, emit, h]

theorem ReloadShowClip_keeps (b : Bool) (s : AMultiShootGameCharacter) (d : UHealthComponent)
    (h : s.HealthComponent = d) :
    Post (ReloadShowClip b s) (fun s' => s'.HealthComponent = d) := by
  unfold ReloadShowClip
  cases s.WeaponMode <;> exact callWeapon_keeps _ _ _ d h

theorem FillUpWeaponBullet_keeps (s : AMultiShootGameCharacter) (d : UHealthComponent)
    (h : s.HealthComponent = d) :
    Post (FillUpWeaponBullet s) (fun s' => s'.HealthComponent = d) := by
  simp [FillUpWeaponBullet, Post_pure, Post_callCamera, Post_callCamera_bind,
    Post_callWeapon_bind, Post_map, emit, h]

/-! ### Spawning, the grenade throw and respawning -/

/-- `BeginPlay` returns on every state, with the grenade counter full. -/
theorem BeginPlay_returns (s : AMultiShootGameCharacter) :
    Total (BeginPlay s) (fun s' => s'.GrenadeCount = s.MaxGrenadeCount ∧
      s'.MaxGrenadeCount = s.MaxGrenadeCount ∧ s'.HealthComponent = s.HealthComponent) := by
  unfold BeginPlay
  lift_lets
  intro s1 s2 s3 s4 s5 s6 s7 s8 s9 s10 s11 s12 s13 s14 s15 s16 jp1 jp2 jp3
  have q1 : s1.MaxGrenadeCount = s.MaxGrenadeCount ∧ s1.HealthComponent = s.HealthComponent := by
    simp only [s1]; simp [emit]
  clear_value s1
  have q2 : s2.MaxGrenadeCount = s.MaxGrenadeCount ∧ s2.HealthComponent = s.HealthComponent := by
    simp only [s2]; split_ifs <;> simp [emit, q1]
  clear_value s2
  have q3 : s3.MaxGrenadeCount = s.MaxGrenadeCount ∧ s3.HealthComponent = s.HealthComponent := by
    simp only [s3]; split_ifs <;> simp [emit, q2]
  clear_value s3
  have q4 : s4.MaxGrenadeCount = s.MaxGrenadeCount ∧ s4.HealthComponent = s.HealthComponent := by
    simp only [s4]; simp [emit, q3]
  clear_value s4
  have q5 : s5.MaxGrenadeCount = s.MaxGrenadeCount ∧ s5.HealthComponent = s.HealthComponent := by
    simp only [s5]; split_ifs <;> first | exact q3 | simpa [emit] using q4
  clear_value s5
  have q6 : s6.MaxGrenadeCount = s.MaxGrenadeCount ∧ s6.HealthComponent = s.HealthComponent := by
    simp only [s6]; simp [emit, q5]
  clear_value s6
  have q7 : s7.MaxGrenadeCount = s.MaxGrenadeCount ∧ s7.HealthComponent = s.HealthComponent := by
    simp only [s7]; simp [emit, q6]
  clear_value s7
  have q8 : s8.GrenadeCount = s.MaxGrenadeCount ∧ s8.MaxGrenadeCount = s.MaxGrenadeCount ∧
      s8.HealthComponent = s.HealthComponent := by
    simp only [s8]; simp [q7]
  clear_value s8
  have q9 : s9.GrenadeCount = s.MaxGrenadeCount ∧ s9.MaxGrenadeCount = s.MaxGrenadeCount ∧
      s9.HealthComponent = s.HealthComponent := by
    simp only [s9]; simp [emit, q8]
  clear_value s9
  have q10 : s10.GrenadeCount = s.MaxGrenadeCount ∧ s10.MaxGrenadeCount = s.MaxGrenadeCount ∧
      s10.HealthComponent = s.HealthComponent := by
    simp only [s10]; simp [emit, q9]
  clear_value s10
  have q11 : s11.GrenadeCount = s.MaxGrenadeCount ∧ s11.MaxGrenadeCount = s.MaxGrenadeCount ∧
      s11.HealthComponent = s.HealthComponent := by
    simp only [s11]; simp [emit, q10]
  clear_value s11
  have q12 : s12.GrenadeCount = s.MaxGrenadeCount ∧ s12.MaxGrenadeCount = s.MaxGrenadeCount ∧
      s12.HealthComponent = s.HealthComponent := by
    simp only [s12]; simp [emit, q11]
  clear_value s12
  have q13 : s13.GrenadeCount = s.MaxGrenadeCount ∧ s13.MaxGrenadeCount = s.MaxGrenadeCount ∧
      s13.HealthComponent = s.HealthComponent := by
    simp only [s13]; simp [emit, q12]
  clear_value s13
  have q14 : s14.GrenadeCount = s.MaxGrenadeCount ∧ s14.MaxGrenadeCount = s.MaxGrenadeCount ∧
      s14.HealthComponent = s.HealthComponent := by
    simp only [s14]; simp [emit, q13]
  clear_value s14
  have q15 : s15.GrenadeCount = s.MaxGrenadeCount ∧ s15.MaxGrenadeCount = s.MaxGrenadeCount ∧
      s15.HealthComponent = s.HealthComponent := by
    simp only [s15]; simp [emit, q14]
  clear_value s15
  have q16 : s16.GrenadeCount = s.MaxGrenadeCount ∧ s16.MaxGrenadeCount = s.MaxGrenadeCount ∧
      s16.HealthComponent = s.HealthComponent := by
    simp only [s16]; simp [emit, q15]
  clear_value s16
  have h1 : ∀ a : AMultiShootGameCharacter, (a.GrenadeCount = s.MaxGrenadeCount ∧
      a.MaxGrenadeCount = s.MaxGrenadeCount ∧ a.HealthComponent = s.HealthComponent) →
      Total (jp1 a) (fun s' => s'.GrenadeCount = s.MaxGrenadeCount ∧
        s'.MaxGrenadeCount = s.MaxGrenadeCount ∧ s'.HealthComponent = s.HealthComponent) := by
    intro a ha
    simp +contextual [jp1, Total_ite, Total_bind, Total_callCamera, Total_pure, emit, ha]
  have h2 : ∀ a : AMultiShootGameCharacter, (a.GrenadeCount = s.MaxGrenadeCount ∧
      a.MaxGrenadeCount = s.MaxGrenadeCount ∧ a.HealthComponent = s.HealthComponent) →
      Total (jp2 a) (fun s' => s'.GrenadeCount = s.MaxGrenadeCount ∧
        s'.MaxGrenadeCount = s.MaxGrenadeCount ∧ s'.HealthComponent = s.HealthComponent) := by
    intro a ha
    simp only [jp2, Total_ite, Total_bind, Total_callWeapon, Total_pure]
    exact ⟨fun hc => ⟨hc, h1 _ (by simpa [emit] using ha)⟩, fun _ => h1 _ ha⟩
  have h3 : ∀ a : AMultiShootGameCharacter, (a.GrenadeCount = s.MaxGrenadeCount ∧
      a.MaxGrenadeCount = s.MaxGrenadeCount ∧ a.HealthComponent = s.HealthComponent) →
      Total (jp3 a) (fun s' => s'.GrenadeCount = s.MaxGrenadeCount ∧
        s'.MaxGrenadeCount = s.MaxGrenadeCount ∧ s'.HealthComponent = s.HealthComponent) := by
    intro a ha
    simp only [jp3, Total_ite, Total_bind, Total_callWeapon, Total_pure]
    exact ⟨fun hc => ⟨hc, h2 _ (by simpa [emit] using ha)⟩, fun _ => h2 _ ha⟩
  simp only [Total_ite, Total_bind, Total_callWeapon, Total_pure]
  exact ⟨fun hc => ⟨hc, h3 _ (by simpa [emit] using q16)⟩, fun _ => h3 _ q16⟩

theorem FMath_Clamp_mem (X Min Max : Int) (h : Min ≤ Max) :
    Min ≤ FMath.Clamp X Min Max ∧ FMath.Clamp X Min Max ≤ Max := by
  unfold FMath.Clamp
  split_ifs <;> omega

theorem wrapInt32_of_range (x : Int) (h1 : -2147483648 ≤ x) (h2 : x ≤ 2147483647) :
    wrapInt32 x = x := by
  unfold wrapInt32
  omega

/-- `ThrowGrenadeOut` returns on every state: its only dereference of
`CurrentGrenade` is behind the null test of line 570. -/
theorem ThrowGrenadeOut_returns (r : FRotator) (f : Bool) (s : AMultiShootGameCharacter) :
    Total (ThrowGrenadeOut r f s) (fun s' => s'.MaxGrenadeCount = s.MaxGrenadeCount ∧
      s'.HealthComponent = s.HealthComponent ∧
      s'.GrenadeCount =
        (if s.bSpawnGrenade = true ∧ s.CurrentGrenade.isSome = true then
          FMath.Clamp (wrapInt32 (s.GrenadeCount - 1)) 0 s.MaxGrenadeCount
        else s.GrenadeCount)) := by
  cases hb : s.bSpawnGrenade <;> cases hg : s.CurrentGrenade <;>
    simp [ThrowGrenadeOut, ThrowGrenadeOut_Server, ThrowGrenadeOut_Server_Implementation,
      Total_pure, Total_bind, Total_map, Total_callGrenade,
      SetGrenadeCount_Server, SetGrenadeCount_Server_Implementation, emit, hb, hg]

/-- `FillUpWeaponBullet` returns exactly when the four spawned actors exist. -/
theorem FillUpWeaponBullet_returns_iff (s : AMultiShootGameCharacter) :
    (∃ s', FillUpWeaponBullet s = .ok s') ↔
      (s.CurrentMainWeapon.isSome = true ∧ s.CurrentSecondWeapon.isSome = true ∧
        s.CurrentThirdWeapon.isSome = true ∧ s.CurrentFPSCamera.isSome = true) := by
  have h : (∃ s', FillUpWeaponBullet s = .ok s') ↔ Total (FillUpWeaponBullet s) (fun _ => True) := by
    simp [Total]
  rw [h]
  simp [FillUpWeaponBullet, Total_pure, Total_bind, Total_map, Total_callWeapon,
    Total_callCamera, weaponAt, emit]

theorem FillUpWeaponBullet_sets (s : AMultiShootGameCharacter) :
    Post (FillUpWeaponBullet s) (fun s' => s'.GrenadeCount = s.MaxGrenadeCount ∧
      s'.MaxGrenadeCount = s.MaxGrenadeCount) := by
  simp [FillUpWeaponBullet, Post_pure, Post_callCamera, Post_callCamera_bind,
    Post_callWeapon_bind, Post_map, emit]

/-- The index of line 970 lies in `[0, Max())`. -/
theorem RebornIndex_range (a : TArray AActor) (Draw : Nat) (h : a.Elements ≠ [])
    (hv : a.Valid) : 0 ≤ RebornIndex a Draw ∧ RebornIndex a Draw < a.Max := by
  have hpos : 0 < a.Elements.length := List.length_pos.mpr h
  have hm : (0 : Int) < a.ArrayMax := by
    have : a.Elements.length ≤ a.ArrayMax := hv
    omega
  simp only [RebornIndex, UKismetMathLibrary.RandomInteger, TArray.Max, hm, if_true]
  exact ⟨Int.emod_nonneg _ hm.ne', Int.emod_lt_of_pos _ hm⟩

/-- Every slot of the allocation is the index of some draw. -/
theorem RebornIndex_onto (a : TArray AActor) (i : Nat) (h : i < a.ArrayMax) :
    RebornIndex a i = i := by
  have hm : (0 : Int) < a.ArrayMax := by omega
  simp only [RebornIndex, UKismetMathLibrary.RandomInteger, TArray.Max, hm, if_true]
  exact Int.emod_eq_of_lt (by omega) (by omega)

/-- With no spare allocation the respawn finds its player start. -/
theorem Reborn_returns_of_tight (Draw : Nat) (s : AMultiShootGameCharacter)
    (h : s.World.PlayerStarts.Elements ≠ [])
    (ht : s.World.PlayerStarts.ArrayMax = s.World.PlayerStarts.Elements.length) :
    ∃ s', Reborn_Server_Implementation Draw s = .ok s' := by
  obtain ⟨h0, h1⟩ := RebornIndex_range s.World.PlayerStarts Draw h (le_of_eq ht.symm)
  have hlt : (RebornIndex s.World.PlayerStarts Draw).toNat <
      s.World.PlayerStarts.Elements.length := by
    simp only [TArray.Max, ht] at h1
    omega
  have hv : s.World.PlayerStarts.IsValidIndex (RebornIndex s.World.PlayerStarts Draw) = true := by
    simp only [TArray.IsValidIndex, TArray.Num, decide_eq_true_eq]
    simp only [TArray.Max, ht] at h1
    exact ⟨h0, h1⟩
  have he : s.World.PlayerStarts.elementAt (RebornIndex s.World.PlayerStarts Draw) =
      some (s.World.PlayerStarts.Elements.get ⟨_, hlt⟩) := by
    simp [TArray.elementAt, hv, List.getElem?_eq_getElem hlt]
  simp [Reborn_Server_Implementation, he, pure, Except.pure]

theorem BeginPlay_keeps (s : AMultiShootGameCharacter) (d : UHealthComponent)
    (h : s.HealthComponent = d) : Post (BeginPlay s) (fun s' => s'.HealthComponent = d) := by
  intro s' hs
  obtain ⟨a, ha, -, -, hh⟩ := BeginPlay_returns s
  rw [ha] at hs
  cases hs
  rw [hh, h]

theorem ThrowGrenadeOut_keeps (r : FRotator) (f : Bool) (s : AMultiShootGameCharacter)
    (d : UHealthComponent) (h : s.HealthComponent = d) :
    Post (ThrowGrenadeOut r f s) (fun s' => s'.HealthComponent = d) := by
  intro s' hs
  obtain ⟨a, ha, -, hh, -⟩ := ThrowGrenadeOut_returns r f s
  rw [ha] at hs
  cases hs
  rw [hh, h]

theorem ThrowGrenadeOut_Server_Implementation_keeps (r : FRotator) (f : Bool)
    (s : AMultiShootGameCharacter) (d : UHealthComponent) (h : s.HealthComponent = d) :
    Post (ThrowGrenadeOut_Server_Implementation r f s) (fun s' => s'.HealthComponent = d) := by
  simp [ThrowGrenadeOut_Server_Implementation, Post_callGrenade, Post_callGrenade_bind, emit, h]

theorem Reborn_Server_Implementation_keeps (Draw : Nat) (s : AMultiShootGameCharacter)
    (d : UHealthComponent) (h : s.HealthComponent = d) :
    Post (Reborn_Server_Implementation Draw s) (fun s' => s'.HealthComponent = d) := by
  cases hE : s.World.PlayerStarts.elementAt (RebornIndex s.World.PlayerStarts Draw) <;>
    simp [Reborn_Server_Implementation, hE, Post_pure, Post_error, emit, h]

theorem OnHealthChanged_step (H : Rat) (c : ADamageCauser) (s : AMultiShootGameCharacter)
    (m : Call) (hm : isDeathMark m) :
    ∃ evs, (OnHealthChanged H c s).1.calls = s.calls ++ evs ∧ evs.count m ≤ 1 ∧
      (s.HealthComponent.bDied = true →
        (OnHealthChanged H c s).1.HealthComponent.bDied = true ∧ evs.count m = 0) ∧
      (evs.count m = 1 → (OnHealthChanged H c s).1.HealthComponent.bDied = true) := by
  by_cases h100 : H = 100
  · exact ⟨[], by simp [OnHealthChanged, h100]⟩
  · by_cases h0 : H ≤ 0 <;> cases hd : s.HealthComponent.bDied <;>
      cases hp : s.bHasPlayerState <;> cases c <;> rcases hm with rfl | rfl | rfl <;>
      simp [OnHealthChanged, h100, h0, hd, hp, OnDeath, OnEnemyKilled, Death_Server,
        Death_Server_Implementation, Death_Multicast, emit, List.count_cons]

theorem runOnHealthChanged_marks (inputs : List (Rat × ADamageCauser))
    (m : Call) (hm : isDeathMark m) :
    ∀ s : AMultiShootGameCharacter,
      ∃ evs, (AMultiShootGameCharacter.runOnHealthChanged inputs s).calls = s.calls ++ evs ∧
        evs.count m ≤ 1 ∧ (s.HealthComponent.bDied = true → evs.count m = 0) := by
  induction inputs with
  | nil => intro s; exact ⟨[], by simp [AMultiShootGameCharacter.runOnHealthChanged]⟩
  | cons i rest ih =>
    intro s
    obtain ⟨H, c⟩ := i
    obtain ⟨evs1, h1, hle, hdied, hone⟩ := OnHealthChanged_step H c s m hm
    obtain ⟨evs2, h2, hle2, hdied2⟩ := ih (OnHealthChanged H c s).1
    refine ⟨evs1 ++ evs2, ?_, ?_, ?_⟩
    · simp [AMultiShootGameCharacter.runOnHealthChanged, h2, h1, List.append_assoc]
    · rw [List.count_append]
      rcases Nat.lt_or_ge (evs1.count m) 1 with h | h
      · omega
      · have : evs2.count m = 0 := hdied2 (hone (by omega))
        omega
    · intro hd
      rw [List.count_append, (hdied hd).2, hdied2 (hdied hd).1]

theorem enemy_OnHealthChanged_step (H : Rat) (c : Option AMultiShootGameCharacter)
    (e : AMultiShootGameEnemyCharacter) (m : EnemyCall) (hm : isEnemyDeathMark m) :
    match AMultiShootGameEnemyCharacter.OnHealthChanged H c e with
    | .ok r => r.1.CurrentWeapon = e.CurrentWeapon ∧
        ∃ evs, r.1.calls = e.calls ++ evs ∧ evs.count m ≤ 1 ∧
          (e.HealthComponent.bDied = true →
            r.1.HealthComponent.bDied = true ∧ evs.count m = 0) ∧
          (evs.count m = 1 → r.1.HealthComponent.bDied = true)
    | .error _ => e.CurrentWeapon = none := by
  by_cases h0 : H ≤ 0 <;> cases hd : e.HealthComponent.bDied <;>
    cases hw : e.CurrentWeapon <;> cases c <;> rcases hm with rfl | rfl | rfl <;>
    simp [AMultiShootGameEnemyCharacter.OnHealthChanged, h0, hd, hw,
      AMultiShootGameEnemyCharacter.callWeapon, AMultiShootGameEnemyCharacter.emit,
      bind, Except.bind, pure, Except.pure, List.count_cons]

theorem enemy_runOnHealthChanged_marks
    (inputs : List (Rat × Option AMultiShootGameCharacter))
    (m : EnemyCall) (hm : isEnemyDeathMark m) :
    ∀ e : AMultiShootGameEnemyCharacter,
      match AMultiShootGameEnemyCharacter.runOnHealthChanged inputs e with
      | .ok e' => ∃ evs, e'.calls = e.calls ++ evs ∧ evs.count m ≤ 1 ∧
          (e.HealthComponent.bDied = true → evs.count m = 0)
      | .error _ => e.CurrentWeapon = none := by
  induction inputs with
  | nil => intro e; exact ⟨[], by simp⟩
  | cons i rest ih =>
    intro e
    obtain ⟨H, c⟩ := i
    have hstep := enemy_OnHealthChanged_step H c e m hm
    unfold AMultiShootGameEnemyCharacter.runOnHealthChanged
    cases hr : AMultiShootGameEnemyCharacter.OnHealthChanged H c e with
    | error f => rw [hr] at hstep; simpa using hstep
    | ok r =>
      rw [hr] at hstep
      obtain ⟨hw, evs1, h1, hle, hdied, hone⟩ := hstep
      have ih' := ih r.1
      simp only
      cases hrun : AMultiShootGameEnemyCharacter.runOnHealthChanged rest r.1 with
      | error f => rw [hrun] at ih'; simp only at ih' ⊢; rw [← hw]; exact ih'
      | ok e' =>
        rw [hrun] at ih'
        obtain ⟨evs2, h2, hle2, hdied2⟩ := ih'
        refine ⟨evs1 ++ evs2, ?_, ?_, ?_⟩
        · simp [h2, h1, List.append_assoc]
        · rw [List.count_append]
          rcases Nat.lt_or_ge (evs1.count m) 1 with h | h
          · omega
          · have : evs2.count m = 0 := hdied2 (hone (by omega))
            omega
        · intro hd
          rw [List.count_append, (hdied hd).2, hdied2 (hdied hd).1]

theorem OnHealthChanged_keeps_death (H : Rat) (c : ADamageCauser)
    (s : AMultiShootGameCharacter) (hd : s.HealthComponent.bDied = true) :
    (OnHealthChanged H c s).1.HealthComponent.bDied = true := by
  obtain ⟨_, -, -, h, -⟩ := OnHealthChanged_step H c s (.server .Death) (Or.inl rfl)
  exact (h hd).1

theorem Operation_keeps_death (op : Operation) (s s' : AMultiShootGameCharacter)
    (h : op.run s = .ok s') (hd : s.HealthComponent.bDied = true) :
    s'.HealthComponent.bDied = true := by
  have key : ∀ r : Exec, Post r (fun a => a.HealthComponent = s.HealthComponent) →
      r = .ok s' → s'.HealthComponent.bDied = true := fun r hr he => by
    rw [hr s' he]; exact hd
  have pureKey : ∀ a : AMultiShootGameCharacter, a.HealthComponent = s.HealthComponent →
      Except.ok a = (Except.ok s' : Exec) → s'.HealthComponent.bDied = true := fun a ha he => by
    cases he; rw [ha]; exact hd
  cases op <;> simp only [Operation.run] at h
  case StartFire => exact key _ (StartFire_keeps s _ rfl) h
  case StopFire => exact key _ (StopFire_keeps s _ rfl) h
  case BeginFastRun => exact pureKey _ (HandleWalkSpeed_HealthComponent _ s) h
  case EndFastRun => exact pureKey _ (HandleWalkSpeed_HealthComponent _ s) h
  case BeginAim => exact key _ (BeginAim_keeps s _ rfl) h
  case EndAim => exact key _ (EndAim_keeps s _ rfl) h
  case Fire_Server_Implementation i l r n =>
    exact pureKey _ (Fire_Server_Implementation_HealthComponent i l r n s) h
  case BeginReload => exact key _ (BeginReload_keeps s _ rfl) h
  case BeginSecondWeaponReload => exact key _ (BeginSecondWeaponReload_keeps s _ rfl) h
  case BeginThrowGrenade => exact key _ (BeginThrowGrenade_keeps s _ rfl) h
  case EndThrowGrenade => exact pureKey _ (EndThrowGrenade_HealthComponent s) h
  case ThrowGrenade => exact key _ (ThrowGrenade_keeps s _ rfl) h
  case SpawnGrenade => exact pureKey _ (SpawnGrenade_HealthComponent s) h
  case SpawnGrenade_Server_Implementation =>
    exact pureKey _ (SpawnGrenade_Server_Implementation_HealthComponent s) h
  case KnifeAttack => exact key _ (KnifeAttack_keeps s _ rfl) h
  case BeginKnifeAttack_Server_Implementation =>
    exact pureKey _ (BeginKnifeAttack_Server_Implementation_HealthComponent s) h
  case EndKnifeAttack_Server_Implementation =>
    exact pureKey _ (EndKnifeAttack_Server_Implementation_HealthComponent s) h
  case EndReload => exact key _ (EndReload_keeps s _ rfl) h
  case ReloadShowClip b => exact key _ (ReloadShowClip_keeps b s _ rfl) h
  case ToggleMainWeapon => exact key _ (ToggleMainWeapon_keeps s _ rfl) h
  case ToggleSecondWeapon => exact key _ (ToggleSecondWeapon_keeps s _ rfl) h
  case ToggleThirdWeapon => exact key _ (ToggleThirdWeapon_keeps s _ rfl) h
  case ToggleWeaponUp =>
    unfold ToggleWeaponUp at h
    cases hm : s.WeaponMode <;> rw [hm] at h
    · exact key _ (ToggleThirdWeapon_keeps s _ rfl) h
    · exact key _ (ToggleMainWeapon_keeps s _ rfl) h
    · exact key _ (ToggleSecondWeapon_keeps s _ rfl) h
  case ToggleWeaponDown =>
    unfold ToggleWeaponDown at h
    cases hm : s.WeaponMode <;> rw [hm] at h
    · exact key _ (ToggleSecondWeapon_keeps s _ rfl) h
    · exact key _ (ToggleThirdWeapon_keeps s _ rfl) h
    · exact key _ (ToggleMainWeapon_keeps s _ rfl) h
  case ToggleWeaponBegin => exact pureKey _ (ToggleWeaponBegin_HealthComponent s) h
  case ToggleWeaponEnd => exact pureKey _ (ToggleWeaponEnd_HealthComponent s) h
  case FillUpWeaponBullet => exact key _ (FillUpWeaponBullet_keeps s _ rfl) h
  case ToggleView => exact key _ (ToggleView_keeps s _ rfl) h
  case ToggleFirstPersonView => exact key _ (ToggleFirstPersonView_keeps s _ rfl) h
  case ToggleThirdPersonView => exact key _ (ToggleThirdPersonView_keeps s _ rfl) h
  case Inspect => exact key _ (Inspect_keeps s _ rfl) h
  case HeadShot c => exact pureKey _ (HeadShot_HealthComponent c s) h
  case EndAction b => exact key _ (EndAction_keeps b s _ rfl) h
  case HandleWalkSpeed b => exact pureKey _ (HandleWalkSpeed_HealthComponent b s) h
  case SetAimed_Server_Implementation v =>
    exact pureKey _ (SetAimed_Server_Implementation_HealthComponent v s) h
  case SetFastRun_Server_Implementation v =>
    exact pureKey _ (SetFastRun_Server_Implementation_HealthComponent v s) h
  case SetToggleView_Server_Implementation v =>
    exact pureKey _ (SetToggleView_Server_Implementation_HealthComponent v s) h
  case CheckShowSight dt => exact pureKey _ (CheckShowSight_HealthComponent dt s) h
  case SetWalkSpeed_Server_Implementation v =>
    exact pureKey _ (SetWalkSpeed_Server_Implementation_HealthComponent v s) h
  case SetWeaponMode_Server_Implementation v =>
    exact pureKey _ (SetWeaponMode_Server_Implementation_HealthComponent v s) h
  case SetBeginThrowGrenade_Server_Implementation v =>
    exact pureKey _ (SetBeginThrowGrenade_Server_Implementation_HealthComponent v s) h
  case SetThrowingGrenade_Server_Implementation v =>
    exact pureKey _ (SetThrowingGrenade_Server_Implementation_HealthComponent v s) h
  case SetSpawnGrenade_Server_Implementation v =>
    exact pureKey _ (SetSpawnGrenade_Server_Implementation_HealthComponent v s) h
  case SetKnifeAttack_Server_Implementation v =>
    exact pureKey _ (SetKnifeAttack_Server_Implementation_HealthComponent v s) h
  case SetGrenadeCount_Server_Implementation v =>
    exact pureKey _ (SetGrenadeCount_Server_Implementation_HealthComponent v s) h
  case AttachWeapon_Server_Implementation =>
    exact pureKey _ (AttachWeapon_Server_Implementation_HealthComponent s) h
  case PutBackWeapon_Server_Implementation =>
    exact pureKey _ (PutBackWeapon_Server_Implementation_HealthComponent s) h
  case PlayAnimMontage_Server_Implementation m r n =>
    exact pureKey _ (PlayAnimMontage_Server_Implementation_HealthComponent m r n s) h
  case Death_Server_Implementation =>
    cases h
    simp [Death_Server_Implementation, Death_Multicast, emit]
  case OnHealthChanged H c =>
    cases h
    exact OnHealthChanged_keeps_death H c s hd
  case Destroyed => exact key _ (Destroyed_keeps s _ rfl) h
  case OnEnemyKilled => exact pureKey _ (OnEnemyKilled_HealthComponent s) h
  case OnHeadshot => exact pureKey _ (OnHeadshot_HealthComponent s) h
  case OnDeath => exact pureKey _ (OnDeath_HealthComponent s) h
  case BeginPlay => exact key _ (BeginPlay_keeps s _ rfl) h
  case ThrowGrenadeOut r f => exact key _ (ThrowGrenadeOut_keeps r f s _ rfl) h
  case ThrowGrenadeOut_Server_Implementation r f =>
    exact key _ (ThrowGrenadeOut_Server_Implementation_keeps r f s _ rfl) h
  case Reborn_Server_Implementation Draw =>
    exact key _ (Reborn_Server_Implementation_keeps Draw s _ rfl) h

theorem EnemyOperation_keeps_death (op : EnemyOperation)
    (e e' : AMultiShootGameEnemyCharacter)
    (h : op.run e = .ok e') (hd : e.HealthComponent.bDied = true) :
    e'.HealthComponent.bDied = true := by
  cases op <;> simp only [EnemyOperation.run] at h
  case BeginPlay =>
    cases hw : e.WorldSpawnWeapon <;>
      simp [AMultiShootGameEnemyCharacter.BeginPlay, AMultiShootGameEnemyCharacter.callWeapon,
        AMultiShootGameEnemyCharacter.emit, hw, pure, Except.pure] at h <;>
      (subst h; simpa using hd)
  case StartFire =>
    cases hw : e.CurrentWeapon <;>
      simp [AMultiShootGameEnemyCharacter.StartFire, AMultiShootGameEnemyCharacter.callWeapon,
        AMultiShootGameEnemyCharacter.emit, hw, pure, Except.pure] at h <;>
      (subst h; simpa using hd)
  case StopFire =>
    cases hw : e.CurrentWeapon <;>
      simp [AMultiShootGameEnemyCharacter.StopFire, AMultiShootGameEnemyCharacter.callWeapon,
        AMultiShootGameEnemyCharacter.emit, hw, pure, Except.pure] at h <;>
      (subst h; simpa using hd)
  case DeathDestroy =>
    cases h
    simpa [AMultiShootGameEnemyCharacter.DeathDestroy, AMultiShootGameEnemyCharacter.emit]
      using hd
  case OnHeadShot c =>
    cases h
    cases c <;>
      simp [AMultiShootGameEnemyCharacter.OnHeadShot, AMultiShootGameEnemyCharacter.emit, hd]
  case OnHealthChanged H c =>
    have hstep := enemy_OnHealthChanged_step H c e .playDeathMontage (Or.inl rfl)
    cases hr : AMultiShootGameEnemyCharacter.OnHealthChanged H c e with
    | error f => rw [hr] at h; cases h
    | ok r =>
      rw [hr] at h hstep
      cases h
      obtain ⟨-, evs, -, -, hdied, -⟩ := hstep
      exact (hdied hd).1

/-- C19. Death is processed at most once. Over any run of `OnHealthChanged`
calls on one player character (`Death_Server` immediate) the calls issued
contain at most one `Death_Server`, at most one `OnEnemyKilled` on the damage
causer and at most one `AddDeath_Server`. Over any run on one enemy character
that completes, they contain at most one death montage and at most one
`OnEnemyKilled` on the damage causer; a run can only fail to complete on a
null `CurrentWeapon`, in its first death branch. No embedded member function of
either character turns `HealthComponent->bDied` from true to false. The
player's `OnHealthChanged` returns the state untouched when `Health == 100`. -/
theorem C19_death_processed_at_most_once :
    (∀ (inputs : List (Rat × ADamageCauser)) (s : AMultiShootGameCharacter),
      ∃ evs, (AMultiShootGameCharacter.runOnHealthChanged inputs s).calls = s.calls ++ evs ∧
        evs.count (.server .Death) ≤ 1 ∧ evs.count (.damageCauser .OnEnemyKilled) ≤ 1 ∧
        evs.count (.playerState .AddDeath_Server) ≤ 1) ∧
    (∀ (inputs : List (Rat × Option AMultiShootGameCharacter))
        (e : AMultiShootGameEnemyCharacter),
      match AMultiShootGameEnemyCharacter.runOnHealthChanged inputs e with
      | .ok e' => ∃ evs, e'.calls = e.calls ++ evs ∧ evs.count .playDeathMontage ≤ 1 ∧
          evs.count .causerOnEnemyKilled ≤ 1
      | .error _ => e.CurrentWeapon = none) ∧
    (∀ (op : Operation) (s s' : AMultiShootGameCharacter), op.run s = .ok s' →
      s.HealthComponent.bDied = true → s'.HealthComponent.bDied = true) ∧
    (∀ (op : EnemyOperation) (e e' : AMultiShootGameEnemyCharacter), op.run e = .ok e' →
      e.HealthComponent.bDied = true → e'.HealthComponent.bDied = true) ∧
    (∀ (DamageCauser : ADamageCauser) (s : AMultiShootGameCharacter),
      (OnHealthChanged 100 DamageCauser s).1 = s) := by
  refine ⟨fun inputs s => ?_, fun inputs e => ?_, Operation_keeps_death,
    EnemyOperation_keeps_death, fun c s => by simp [OnHealthChanged]⟩
  · obtain ⟨evs1, h1, c1, -⟩ := runOnHealthChanged_marks inputs (.server .Death) (Or.inl rfl) s
    obtain ⟨evs2, h2, c2, -⟩ :=
      runOnHealthChanged_marks inputs (.damageCauser .OnEnemyKilled) (Or.inr (Or.inl rfl)) s
    obtain ⟨evs3, h3, c3, -⟩ :=
      runOnHealthChanged_marks inputs (.playerState .AddDeath_Server) (Or.inr (Or.inr rfl)) s
    have e2 : evs2 = evs1 := List.append_cancel_left (h2.symm.trans h1)
    have e3 : evs3 = evs1 := List.append_cancel_left (h3.symm.trans h1)
    rw [e2] at c2
    rw [e3] at c3
    exact ⟨evs1, h1, c1, c2, c3⟩
  · have m1 := enemy_runOnHealthChanged_marks inputs .playDeathMontage (Or.inl rfl) e
    have m2 := enemy_runOnHealthChanged_marks inputs .causerOnEnemyKilled (Or.inr (Or.inl rfl)) e
    cases hr : AMultiShootGameEnemyCharacter.runOnHealthChanged inputs e with
    | error f => rw [hr] at m1; exact m1
    | ok e' =>
      rw [hr] at m1 m2
      obtain ⟨evs1, h1, c1, -⟩ := m1
      obtain ⟨evs2, h2, c2, -⟩ := m2
      have e2 : evs2 = evs1 := List.append_cancel_left (h2.symm.trans h1)
      rw [e2] at c2
      exact ⟨evs1, h1, c1, c2⟩

/-- Witness for C19 on the idle character taking a graze and three lethal
reports in a row. -/
theorem C19_death_processed_at_most_once_witness :
    ∃ evs, (AMultiShootGameCharacter.runOnHealthChanged damageSequence idleCharacter).calls =
        idleCharacter.calls ++ evs ∧
      evs.count (.server .Death) ≤ 1 ∧ evs.count (.damageCauser .OnEnemyKilled) ≤ 1 ∧
      evs.count (.playerState .AddDeath_Server) ≤ 1 :=
  C19_death_processed_at_most_once.1 damageSequence idleCharacter

/-- C20. From every state in which `CheckStatus(true, true)` holds and the
spawned actors are non-null, `ToggleView` flips `bToggleView`: from false it
goes to first person (weapons and character mesh hidden, camera shown,
`SocketOffset` zero), from true to third person (weapons and mesh shown,
camera hidden, `SocketOffset` (0, 90, 0)); it leaves `WeaponMode`, `bAimed` and
`bFired` alone, and a second `ToggleView` restores the original `bToggleView`. -/
theorem C20_ToggleView_involution (s : AMultiShootGameCharacter)
    (wM wS wT : AMultiShootGameWeapon) (cam : AMultiShootGameFPSCamera)
    (hM : s.CurrentMainWeapon = some wM) (hS : s.CurrentSecondWeapon = some wS)
    (hT : s.CurrentThirdWeapon = some wT) (hC : s.CurrentFPSCamera = some cam)
    (hst : CheckStatus true true s = true) :
    ∃ s' evs, ToggleView s = .ok s' ∧ s'.bToggleView = !s.bToggleView ∧
      s'.WeaponMode = s.WeaponMode ∧ s'.bAimed = s.bAimed ∧ s'.bFired = s.bFired ∧
      s'.calls = s.calls ++ evs ∧
      (s.bToggleView = false →
        s'.SocketOffset = FVector.ZeroVector ∧
        .weapon .MainWeapon (.SetActorHiddenInGame true) ∈ evs ∧
        .weapon .SecondWeapon (.SetActorHiddenInGame true) ∈ evs ∧
        .weapon .ThirdWeapon (.SetActorHiddenInGame true) ∈ evs ∧
        .engine (.MeshSetHiddenInGame true) ∈ evs ∧
        .fpsCamera (.SetActorHiddenInGame false) ∈ evs) ∧
      (s.bToggleView = true →
        s'.SocketOffset = ⟨0, 90, 0⟩ ∧
        .weapon .MainWeapon (.SetActorHiddenInGame false) ∈ evs ∧
        .weapon .SecondWeapon (.SetActorHiddenInGame false) ∈ evs ∧
        .weapon .ThirdWeapon (.SetActorHiddenInGame false) ∈ evs ∧
        .engine (.MeshSetHiddenInGame false) ∈ evs ∧
        .fpsCamera (.SetActorHiddenInGame true) ∈ evs) ∧
      ∃ s'', ToggleView s' = .ok s'' ∧ s''.bToggleView = s.bToggleView := by
  have hR : Ready s := ⟨hst, by simp [hM], by simp [hS], by simp [hT], by simp [hC]⟩
  obtain ⟨s', evs, h1, h2, h3, h4, h5, h6, h7, h8, hR'⟩ := ToggleView_of_Ready s hR
  obtain ⟨s'', _, k1, k2, -⟩ := ToggleView_of_Ready s' hR'
  refine ⟨s', evs, h1, h2, h3, h4, h5, h6, h7, h8, s'', k1, ?_⟩
  rw [k2, h2]
  cases s.bToggleView <;> rfl

/-- Witness for C20 on the idle character, which starts in third person. -/
theorem C20_ToggleView_involution_witness :
    ∃ s' s'', ToggleView idleCharacter = .ok s' ∧ s'.bToggleView = true ∧
      s'.SocketOffset = FVector.ZeroVector ∧
      ToggleView s' = .ok s'' ∧ s''.bToggleView = false := by
  obtain ⟨s', evs, h1, h2, -, -, -, -, h7, -, s'', k1, k2⟩ :=
    C20_ToggleView_involution idleCharacter ⟨mainWeaponInfo, false⟩ ⟨secondWeaponInfo, false⟩
      ⟨thirdWeaponInfo, false⟩ ⟨false⟩ rfl rfl rfl rfl (by decide)
  exact ⟨s', s'', h1, h2, (h7 rfl).1, k1, k2⟩

/-- C21. `AttachWeapon_Server_Implementation` puts exactly the current weapon in
the hands: among the calls it adds, the scene component of each slot is
attached exactly once, to the hand socket of the slot when the slot is
`WeaponMode` and to the back socket of the slot otherwise (including scale for
the main and second weapon, not for the third).
`PutBackWeapon_Server_Implementation` attaches each of the three exactly once,
to its back socket.  Neither changes `WeaponMode`. -/
theorem C21_AttachWeapon_puts_current_weapon_in_hands (s : AMultiShootGameCharacter) :
    (∃ evs, (AttachWeapon_Server_Implementation s).calls = s.calls ++ evs ∧
      ∀ (Slot : EWeaponMode) (Socket : SocketName) (bIncludingScale : Bool),
        evs.count (.engine (.AttachToComponent (sceneComponentOf Slot) Socket bIncludingScale)) =
          if Socket = (if Slot = s.WeaponMode then handSocketOf Slot else backSocketOf Slot) ∧
              bIncludingScale = decide (Slot ≠ .ThirdWeapon) then 1 else 0) ∧
    (∃ evs, (PutBackWeapon_Server_Implementation s).calls = s.calls ++ evs ∧
      ∀ (Slot : EWeaponMode) (Socket : SocketName) (bIncludingScale : Bool),
        evs.count (.engine (.AttachToComponent (sceneComponentOf Slot) Socket bIncludingScale)) =
          if Socket = backSocketOf Slot ∧ bIncludingScale = decide (Slot ≠ .ThirdWeapon)
            then 1 else 0) ∧
    (AttachWeapon_Server_Implementation s).WeaponMode = s.WeaponMode ∧
    (PutBackWeapon_Server_Implementation s).WeaponMode = s.WeaponMode := by
  refine ⟨?_, ?_, ?_, ?_⟩
  · cases hm : s.WeaponMode
    all_goals
      refine ⟨_, by simp [AttachWeapon_Server_Implementation, emit, hm]; rfl, ?_⟩
      intro Slot Socket b
      cases Slot <;> cases Socket <;> cases b <;> decide
  · refine ⟨_, by simp [PutBackWeapon_Server_Implementation, emit]; rfl, ?_⟩
    intro Slot Socket b
    cases Slot <;> cases Socket <;> cases b <;> decide
  · cases hm : s.WeaponMode <;> simp [AttachWeapon_Server_Implementation, emit, hm]
  · simp [PutBackWeapon_Server_Implementation, emit]

/-- C22. Grenade counter bounds.  `BeginPlay` returns on every state with
`GrenadeCount = MaxGrenadeCount`, so with `0 <= GrenadeCount <= MaxGrenadeCount`
when `MaxGrenadeCount >= 0`.  `FillUpWeaponBullet` returns exactly when the four
spawned actors are non-null, and every state it returns has
`GrenadeCount = MaxGrenadeCount`.  `ThrowGrenadeOut` (RPCs immediate) returns
on every state; it sets `GrenadeCount` to
`FMath::Clamp(GrenadeCount - 1, 0, MaxGrenadeCount)` when `bSpawnGrenade` is
true and `CurrentGrenade` is non-null and leaves it alone otherwise; it
preserves `0 <= GrenadeCount <= MaxGrenadeCount`, and under that invariant
(`MaxGrenadeCount` being an `int`, at most 2^31 - 1) the new value is
`GrenadeCount - 1` when the throw happens with `GrenadeCount >= 1` and the old
value otherwise.  None of the three changes `MaxGrenadeCount`. -/
theorem C22_grenade_count_bounds (s : AMultiShootGameCharacter) (LookAtRotation : FRotator)
    (IsFalling : Bool) :
    (∃ s', BeginPlay s = .ok s' ∧ s'.GrenadeCount = s.MaxGrenadeCount ∧
      s'.MaxGrenadeCount = s.MaxGrenadeCount ∧
      (0 ≤ s.MaxGrenadeCount → 0 ≤ s'.GrenadeCount ∧ s'.GrenadeCount ≤ s'.MaxGrenadeCount)) ∧
    ((∃ s', FillUpWeaponBullet s = .ok s') ↔
      (s.CurrentMainWeapon.isSome = true ∧ s.CurrentSecondWeapon.isSome = true ∧
        s.CurrentThirdWeapon.isSome = true ∧ s.CurrentFPSCamera.isSome = true)) ∧
    (∀ s', FillUpWeaponBullet s = .ok s' →
      s'.GrenadeCount = s.MaxGrenadeCount ∧ s'.MaxGrenadeCount = s.MaxGrenadeCount ∧
      (0 ≤ s.MaxGrenadeCount → 0 ≤ s'.GrenadeCount ∧ s'.GrenadeCount ≤ s'.MaxGrenadeCount)) ∧
    (∃ s', ThrowGrenadeOut LookAtRotation IsFalling s = .ok s' ∧
      s'.MaxGrenadeCount = s.MaxGrenadeCount ∧
      s'.GrenadeCount =
        (if s.bSpawnGrenade = true ∧ s.CurrentGrenade.isSome = true then
          FMath.Clamp (wrapInt32 (s.GrenadeCount - 1)) 0 s.MaxGrenadeCount
        else s.GrenadeCount) ∧
      (0 ≤ s.GrenadeCount → s.GrenadeCount ≤ s.MaxGrenadeCount →
        0 ≤ s'.GrenadeCount ∧ s'.GrenadeCount ≤ s'.MaxGrenadeCount) ∧
      (0 ≤ s.GrenadeCount → s.GrenadeCount ≤ s.MaxGrenadeCount →
        s.MaxGrenadeCount ≤ 2147483647 →
        s'.GrenadeCount =
          if s.bSpawnGrenade = true ∧ s.CurrentGrenade.isSome = true ∧ 1 ≤ s.GrenadeCount then
            s.GrenadeCount - 1
          else s.GrenadeCount)) := by
  refine ⟨?_, FillUpWeaponBullet_returns_iff s, fun s' hs => ?_, ?_⟩
  · obtain ⟨s', h, hg, hm, -⟩ := BeginPlay_returns s
    exact ⟨s', h, hg, hm, fun h0 => by rw [hg, hm]; exact ⟨h0, le_rfl⟩⟩
  · obtain ⟨hg, hm⟩ := FillUpWeaponBullet_sets s s' hs
    exact ⟨hg, hm, fun h0 => by rw [hg, hm]; exact ⟨h0, le_rfl⟩⟩
  · obtain ⟨s', h, hm, -, hg⟩ := ThrowGrenadeOut_returns LookAtRotation IsFalling s
    refine ⟨s', h, hm, hg, fun h0 h1 => ?_, fun h0 h1 h2 => ?_⟩
    · rw [hg, hm]
      split_ifs
      · exact FMath_Clamp_mem _ _ _ (h0.trans h1)
      · exact ⟨h0, h1⟩
    · rw [hg]
      by_cases hc : s.bSpawnGrenade = true ∧ s.CurrentGrenade.isSome = true
      · have hw := wrapInt32_of_range (s.GrenadeCount - 1) (by omega) (by omega)
        rw [if_pos hc, hw]
        by_cases h3 : 1 ≤ s.GrenadeCount
        · have he : (if s.bSpawnGrenade = true ∧ s.CurrentGrenade.isSome = true ∧
              1 ≤ s.GrenadeCount then s.GrenadeCount - 1 else s.GrenadeCount) =
              s.GrenadeCount - 1 := if_pos ⟨hc.1, hc.2, h3⟩
          rw [he]
          unfold FMath.Clamp
          split_ifs <;> omega
        · have he : (if s.bSpawnGrenade = true ∧ s.CurrentGrenade.isSome = true ∧
              1 ≤ s.GrenadeCount then s.GrenadeCount - 1 else s.GrenadeCount) =
              s.GrenadeCount := if_neg (fun h => h3 h.2.2)
          rw [he]
          unfold FMath.Clamp
          split_ifs <;> omega
      · rw [if_neg hc, if_neg (fun h => hc ⟨h.1, h.2.1⟩)]

/-- Witness for C22: the armed grenade character holds three of three
grenades; the throw leaves two. -/
theorem C22_grenade_count_bounds_witness :
    ∃ s', ThrowGrenadeOut ⟨0, 0, 0⟩ false armedGrenadeCharacter = .ok s' ∧
      s'.GrenadeCount = 2 ∧ 0 ≤ s'.GrenadeCount ∧ s'.GrenadeCount ≤ s'.MaxGrenadeCount := by
  obtain ⟨s', h, -, -, hinv, hval⟩ :=
    (C22_grenade_count_bounds armedGrenadeCharacter ⟨0, 0, 0⟩ false).2.2.2
  refine ⟨s', h, ?_, hinv (by decide) (by decide)⟩
  rw [hval (by decide) (by decide) (by decide)]
  decide

/-- C23. The index of `Reborn_Server_Implementation` can leave the array.  In
a level with one player start, listed in an array of one element with four
allocated slots, the draw that makes `RandomInteger(OutActorArray.Max())`
return 3 indexes the array at 3, past its only element, and the function stops
with no respawn. -/
theorem C23_Reborn_index_out_of_bounds :
    rebornCharacter.World.PlayerStarts.Elements ≠ [] ∧
    rebornCharacter.World.PlayerStarts.Valid ∧
    rebornCharacter.World.PlayerStarts.Num = 1 ∧
    rebornCharacter.World.PlayerStarts.Max = 4 ∧
    RebornIndex rebornCharacter.World.PlayerStarts 3 = 3 ∧
    ¬ (RebornIndex rebornCharacter.World.PlayerStarts 3 <
        rebornCharacter.World.PlayerStarts.Num) ∧
    Reborn_Server_Implementation 3 rebornCharacter = .error (.indexOutOfBounds 3 1) := by
  refine ⟨by decide, by decide, by decide, by decide, by decide, by decide, by rfl⟩

/-- C24. `HandleWalkSpeed(FastRun)` sets `bFastRun` to `FastRun` and the
maximum walk speed to 600 (fast run, not the second weapon), 500 (fast run,
second weapon), 250 (no fast run, second weapon) or 300 (otherwise), and leaves
`WeaponMode` alone.  So in every weapon mode the fast-run speed exceeds the
walking speed, and for either value of `FastRun` the speed with the second
weapon is below the speed in another mode.  `BeginFastRun` and `EndFastRun` are
`HandleWalkSpeed(true)` and `HandleWalkSpeed(false)`. -/
theorem C24_HandleWalkSpeed_table (FastRun : Bool) (s : AMultiShootGameCharacter) :
    (HandleWalkSpeed FastRun s).bFastRun = FastRun ∧
    (HandleWalkSpeed FastRun s).MaxWalkSpeed =
      (match FastRun, s.WeaponMode with
        | true, .SecondWeapon => 500
        | true, _ => 600
        | false, .SecondWeapon => 250
        | false, _ => 300) ∧
    (HandleWalkSpeed FastRun s).WeaponMode = s.WeaponMode ∧
    (HandleWalkSpeed false s).MaxWalkSpeed < (HandleWalkSpeed true s).MaxWalkSpeed ∧
    (∀ t : AMultiShootGameCharacter, s.WeaponMode = .SecondWeapon →
      t.WeaponMode ≠ .SecondWeapon →
      (HandleWalkSpeed FastRun s).MaxWalkSpeed < (HandleWalkSpeed FastRun t).MaxWalkSpeed) ∧
    BeginFastRun s = HandleWalkSpeed true s ∧ EndFastRun s = HandleWalkSpeed false s := by
  refine ⟨?_, ?_, ?_, ?_, ?_, rfl, rfl⟩
  · simp [HandleWalkSpeed, SetFastRun_Server, SetFastRun_Server_Implementation,
      SetWalkSpeed_Server, SetWalkSpeed_Server_Implementation, emit]
  · cases FastRun <;> cases hm : s.WeaponMode <;>
      simp [HandleWalkSpeed, SetFastRun_Server, SetFastRun_Server_Implementation,
        SetWalkSpeed_Server, SetWalkSpeed_Server_Implementation, emit, hm]
  · simp [HandleWalkSpeed, SetFastRun_Server, SetFastRun_Server_Implementation,
      SetWalkSpeed_Server, SetWalkSpeed_Server_Implementation, emit]
  · cases hm : s.WeaponMode <;>
      simp [HandleWalkSpeed, SetFastRun_Server, SetFastRun_Server_Implementation,
        SetWalkSpeed_Server, SetWalkSpeed_Server_Implementation, emit, hm]
  · intro t hs ht
    cases FastRun <;> cases hm : t.WeaponMode <;>
      simp_all [HandleWalkSpeed, SetFastRun_Server, SetFastRun_Server_Implementation,
        SetWalkSpeed_Server, SetWalkSpeed_Server_Implementation, emit]

/-- Witness for C24: running with the second weapon (500) is slower than
running with the main weapon (600). -/
theorem C24_HandleWalkSpeed_table_witness :
    (HandleWalkSpeed true secondWeaponCharacter).MaxWalkSpeed <
      (HandleWalkSpeed true idleCharacter).MaxWalkSpeed :=
  (C24_HandleWalkSpeed_table true secondWeaponCharacter).2.2.2.2.1 idleCharacter
    (by decide) (by decide)

/-- While the delay has not been reached, `n` calls accumulate `n * d`. -/
theorem CheckShowSight_iterate (d : Rat) (s : AMultiShootGameCharacter)
    (hs : s.bShowSight = true) (h0 : s.CurrentShowSight = 0) (hd : 0 < d) (n : Nat)
    (hn : ((n : Rat) - 1) * d < s.ShowSightDelay ∨ n = 0) :
    (CheckShowSight d)^[n] s = { s with CurrentShowSight := n * d } := by
  induction n with
  | zero =>
    cases s
    simp at h0
    simp [h0]
  | succ k ih =>
    have hk : ((k : Rat) - 1) * d < s.ShowSightDelay ∨ k = 0 := by
      rcases hn with hn | hn
      · left
        have : ((k : Rat) - 1) * d ≤ (((k + 1 : Nat) : Rat) - 1) * d := by
          apply mul_le_mul_of_nonneg_right _ hd.le
          push_cast; linarith
        linarith
      · simp at hn
    rw [Function.iterate_succ_apply', ih hk]
    have hlt : (k : Rat) * d < s.ShowSightDelay := by
      rcases hn with hn | hn
      · push_cast at hn; simpa using hn
      · simp at hn
    simp [CheckShowSight, hs, hlt]
    ring

/-- C25. The kill-sight timer, in exact arithmetic.  `CheckShowSight` returns
the state unchanged when `bShowSight` is false.  From `bShowSight = true` and
`CurrentShowSight = 0`, with `ShowSightDelay = D >= 0` and every call given the
same `DeltaSeconds = d > 0`: after each of the first `ceil(D / d)` calls
`bShowSight` is still true and `CurrentShowSight` is the time accumulated so
far; call number `ceil(D / d) + 1` sets `bShowSight` to false and
`CurrentShowSight` to 0; and the time accumulated before that call is at least
`D`. -/
theorem C25_CheckShowSight_timer (d : Rat) (s : AMultiShootGameCharacter) :
    (s.bShowSight = false → CheckShowSight d s = s) ∧
    (s.bShowSight = true → s.CurrentShowSight = 0 → 0 ≤ s.ShowSightDelay → 0 < d →
      (∀ n : Nat, n ≤ ⌈s.ShowSightDelay / d⌉₊ →
        ((CheckShowSight d)^[n] s).bShowSight = true ∧
        ((CheckShowSight d)^[n] s).CurrentShowSight = n * d) ∧
      ((CheckShowSight d)^[⌈s.ShowSightDelay / d⌉₊ + 1] s).bShowSight = false ∧
      ((CheckShowSight d)^[⌈s.ShowSightDelay / d⌉₊ + 1] s).CurrentShowSight = 0 ∧
      s.ShowSightDelay ≤ ⌈s.ShowSightDelay / d⌉₊ * d) := by
  refine ⟨fun h => by simp [CheckShowSight, h], fun hs h0 _ hd => ?_⟩
  have hceil : s.ShowSightDelay ≤ (⌈s.ShowSightDelay / d⌉₊ : Rat) * d := by
    have := Nat.le_ceil (s.ShowSightDelay / d)
    rwa [div_le_iff₀ hd] at this
  have hpre : ∀ n : Nat, n ≤ ⌈s.ShowSightDelay / d⌉₊ →
      ((n : Rat) - 1) * d < s.ShowSightDelay ∨ n = 0 := by
    intro n hn
    rcases Nat.eq_zero_or_pos n with h | h
    · exact Or.inr h
    · left
      have h1 : n - 1 < ⌈s.ShowSightDelay / d⌉₊ := by omega
      have h2 := Nat.lt_ceil.mp h1
      rw [lt_div_iff₀ hd] at h2
      have : ((n - 1 : Nat) : Rat) = (n : Rat) - 1 := by
        rw [Nat.cast_sub h]; simp
      rwa [this] at h2
  refine ⟨fun n hn => ?_, ?_, ?_, hceil⟩
  · rw [CheckShowSight_iterate d s hs h0 hd n (hpre n hn)]
    exact ⟨hs, rfl⟩
  · rw [Function.iterate_succ_apply', CheckShowSight_iterate d s hs h0 hd _ (hpre _ le_rfl)]
    simp [CheckShowSight, hs, not_lt.mpr hceil]
  · rw [Function.iterate_succ_apply', CheckShowSight_iterate d s hs h0 hd _ (hpre _ le_rfl)]
    simp [CheckShowSight, hs, not_lt.mpr hceil]

/-- Witness for C25: after a kill with `ShowSightDelay = 2` and ticks of 3/4 of
a second, `ceil(2 / (3/4)) = 3`; the sight is shown after three ticks, with
9/4 accumulated, and the fourth tick hides it. -/
theorem C25_CheckShowSight_timer_witness :
    ((CheckShowSight (3 / 4))^[3] (OnEnemyKilled idleCharacter)).bShowSight = true ∧
    ((CheckShowSight (3 / 4))^[3] (OnEnemyKilled idleCharacter)).CurrentShowSight = 9 / 4 ∧
    ((CheckShowSight (3 / 4))^[4] (OnEnemyKilled idleCharacter)).bShowSight = false ∧
    ((CheckShowSight (3 / 4))^[4] (OnEnemyKilled idleCharacter)).CurrentShowSight = 0 := by
  have hD : (OnEnemyKilled idleCharacter).ShowSightDelay = 2 := by
    simp [OnEnemyKilled, idleCharacter, emit]
  have hc : ⌈(OnEnemyKilled idleCharacter).ShowSightDelay / (3 / 4 : Rat)⌉₊ = 3 := by
    rw [hD, Nat.ceil_eq_iff (by decide)]
    norm_num
  obtain ⟨h1, h2, h3, -⟩ := (C25_CheckShowSight_timer (3 / 4) (OnEnemyKilled idleCharacter)).2
    (by simp [OnEnemyKilled]) (by simp [OnEnemyKilled]) (by rw [hD]; norm_num) (by norm_num)
  rw [hc] at h1 h2 h3
  refine ⟨(h1 3 le_rfl).1, ?_, h2, h3⟩
  rw [(h1 3 le_rfl).2]
  norm_num

/-- C26. Scoring.  With a player state of the game's class, `OnEnemyKilled`
issues exactly `AddScore_Server(50)` and then `AddKill_Server`, `OnHeadshot`
exactly `AddScore_Server(25)`, `OnDeath` exactly `AddDeath_Server`.  Without
one, none of the three issues any call, and `OnHeadshot` and `OnDeath` return
the state unchanged.  `OnEnemyKilled` sets `bShowSight` to true and
`CurrentShowSight` to 0 in both cases. -/
theorem C26_scoring_requests (s : AMultiShootGameCharacter) :
    (s.bHasPlayerState = true →
      (OnEnemyKilled s).calls =
        s.calls ++ [.playerState (.AddScore_Server 50), .playerState .AddKill_Server] ∧
      (OnHeadshot s).calls = s.calls ++ [.playerState (.AddScore_Server 25)] ∧
      (OnDeath s).calls = s.calls ++ [.playerState .AddDeath_Server]) ∧
    (s.bHasPlayerState = false →
      (OnEnemyKilled s).calls = s.calls ∧ OnHeadshot s = s ∧ OnDeath s = s) ∧
    (OnEnemyKilled s).bShowSight = true ∧ (OnEnemyKilled s).CurrentShowSight = 0 := by
  refine ⟨fun h => ?_, fun h => ?_, ?_, ?_⟩
  · simp [OnEnemyKilled, OnHeadshot, OnDeath, emit, h]
  · simp [OnEnemyKilled, OnHeadshot, OnDeath, emit, h]
  · simp [OnEnemyKilled]
  · simp [OnEnemyKilled]

/-- Witness for C26 on the idle character, which has a player state. -/
theorem C26_scoring_requests_witness :
    (OnEnemyKilled idleCharacter).calls =
        [.playerState (.AddScore_Server 50), .playerState .AddKill_Server] ∧
      (OnHeadshot idleCharacter).calls = [.playerState (.AddScore_Server 25)] ∧
      (OnDeath idleCharacter).calls = [.playerState .AddDeath_Server] :=
  (C26_scoring_requests idleCharacter).1 (by decide)

end MultiShootGame
